import Mathlib

/-!
# Scout cockpit panel instruments: embedding and verified properties

A shallow embedding of the panel widgets of the Scout vessel module
(`GimbalCtrl.cpp`, `SwitchArray.cpp`, `GearLever.cpp`, `NconeLever.cpp`,
`MwsButton.cpp`, `UndockBtn.cpp`).

Conventions of the embedding

* A C++ `int` value is an `Int`. Where the code computes a new `int` from a stored
  one (`1 - mode`, `mpgimbalidx[i] - 35`) the result is reduced to the 32-bit
  two's-complement range with `wrap32`; event masks and mouse coordinates are only
  compared, masked and divided by 32, which cannot leave the range.
* A C++ `float` / `double` value is the rational it denotes (`ℚ`). Where the code adds
  a run-time value to another (`oapiGetSimTime() + tofs`, the `y` of the trim bars)
  every operation rounds to the `double` / `float` format with `f64` / `f32`; the
  texture coordinates, which are quotients of small constants by the texture size,
  are taken exactly.
* `static` locals of a mouse handler (`ctrl`, `mode`) are an explicit `Latch`
  value passed in and returned.
* A call on the vessel whose body lives outside these files (`IncMainPGimbal`,
  `ShiftHoverBalance`, ...) or on the host (`oapiTriggerPanelRedrawArea`) is
  recorded, in program order, in the list of `Effect`s of the handler; the
  Boolean such a call returns is an input (`reply`) of the handler.
* The vertex buffer `grp->Vtx` is a `List NTVERTEX`; `vtxofs` is the offset of
  the widget's own vertices in it.
* A read of a fixed-size C++ array (`btnstate[8]`, `map[3]`) with an index computed
  at run time is bounds-checked in the embedding: a function that performs such a
  read returns an `Option`, `none` meaning that the index was outside the array.
-/

namespace OrbiterScout

/-! ## Machine arithmetic -/

/-- The value of a 32-bit two's-complement `int` that receives the arithmetic result `x`:
`x` itself when it lies in `-2^31 .. 2^31 - 1`, and `x` reduced modulo `2^32` into that
range otherwise (the wrap-around of the compiled code). -/
def wrap32 (x : Int) : Int := (x + 2147483648) % 4294967296 - 2147483648

/-- Rounding of a rational to the nearest integer, a tie going to the even one. -/
def roundHalfEven (q : ℚ) : Int :=
  if q - (⌊q⌋ : Int) < 1 / 2 then ⌊q⌋
  else if 1 / 2 < q - (⌊q⌋ : Int) then ⌊q⌋ + 1
  else if ⌊q⌋ % 2 = 0 then ⌊q⌋ else ⌊q⌋ + 1

/-- Rounding of the exact result `x` of an arithmetic operation to the binary
floating-point format with `p` significand bits and least (normal) exponent `emin`,
to nearest with ties to even: `x` is rounded to a multiple of `2^e`, where `e` is the
exponent of the last significand bit of `x`. Results beyond the largest finite value
of the format (overflow to infinity) are not modelled. -/
def roundBinary (p : Nat) (emin : Int) (x : ℚ) : ℚ :=
  let e : Int := max (Int.log 2 |x|) emin - ((p : Int) - 1)
  (roundHalfEven (x / 2 ^ e) : ℚ) * 2 ^ e

/-- Rounding to the C++ type `float` (24 significand bits). -/
def f32 (x : ℚ) : ℚ := roundBinary 24 (-126) x

/-- Rounding to the C++ type `double` (53 significand bits). -/
def f64 (x : ℚ) : ℚ := roundBinary 53 (-1022) x

/-! ## Host and vessel interface -/

/-- Event-mask constants of the host SDK (`PANEL_MOUSE_LBDOWN`, `PANEL_MOUSE_LBUP`).
Their numeric values are declared by the host, so they are parameters here. -/
structure MouseMasks where
  PANEL_MOUSE_LBDOWN : Int
  PANEL_MOUSE_LBUP : Int

/-- Truth value of the C++ condition `event & bit`. -/
def maskTest (event bit : Int) : Bool := Int.land event bit != 0

/-- Panel area identifiers used by the redraw triggers in `GimbalCtrl.cpp`. -/
inductive AreaId where
  | AID_PGIMBALMAINDISP
  | AID_YGIMBALMAINDISP
  | AID_GIMBALSCRAMDISP
  | AID_HBALANCEDISP
  deriving DecidableEq, Repr

/-- Enumeration `Scout::DoorStatus`. -/
inductive DoorStatus where
  | DOOR_CLOSED
  | DOOR_OPEN
  | DOOR_CLOSING
  | DOOR_OPENING
  deriving DecidableEq, Repr

/-- Calls that leave the widget code: requests on the vessel and host notifications. -/
inductive Effect where
  | IncMainPGimbal (ctrl mode : Int)
  | IncMainYGimbal (ctrl mode : Int)
  | IncScramGimbal (ctrl mode : Int)
  | ShiftHoverBalance (mode : Int)
  | oapiTriggerPanelRedrawArea (panel : Int) (aid : AreaId)
  | SetNavlight (lit : Bool)
  | SetBeacon (lit : Bool)
  | SetStrobe (lit : Bool)
  | SetDockingLight (lit : Bool)
  | ActivateRadiator (action : DoorStatus)
  | ActivateRCover (action : DoorStatus)
  | ActivateHatch (action : DoorStatus)
  | ActivateLadder (action : DoorStatus)
  | ActivateLandingGear (action : DoorStatus)
  | ActivateDockingPort (action : DoorStatus)
  | Undock (port : Int)
  deriving DecidableEq, Repr

/-- The data members of the vessel class `Scout` that the panel code reads or writes. -/
structure Scout where
  mpgimbalidx : Fin 2 → Int
  mygimbalidx : Fin 2 → Int
  scgimbalidx : Fin 2 → Int
  hbalanceidx : Int
  mpswitch : Fin 2 → Int
  myswitch : Fin 2 → Int
  sgswitch : Fin 2 → Int
  hbswitch : Int
  mpmode : Int
  mymode : Int
  spmode : Int
  hbmode : Int
  gear_status : DoorStatus
  nose_status : DoorStatus
  radiator_status : DoorStatus
  rcover_status : DoorStatus
  hatch_status : DoorStatus
  ladder_status : DoorStatus

/-- The `static int ctrl = 0, mode = 0;` locals of a latched mouse handler. -/
structure Latch where
  ctrl : Int
  mode : Int
  deriving DecidableEq, Repr

/-- The `static int mode = 0;` local of `HoverBalanceCtrl::ProcessMouse2D`. -/
structure HoverLatch where
  mode : Int
  deriving DecidableEq, Repr

/-- Outcome of a mouse handler that keeps static locals of type `σ`:
the locals after the call, the calls it made, and its return value. -/
structure MouseResult (σ : Type) where
  state : σ
  effects : List Effect
  ret : Bool

/-! ## GimbalCtrl.cpp: latched controls -/

/-- The value `(event & PANEL_MOUSE_LBDOWN || event & PANEL_MOUSE_LBUP)`. -/
def consumed (K : MouseMasks) (event : Int) : Bool :=
  maskTest event K.PANEL_MOUSE_LBDOWN || maskTest event K.PANEL_MOUSE_LBUP

/-- Embedding of `PMainGimbalCtrl::ProcessMouse2D` (GimbalCtrl.cpp 140-155);
`reply` is the value returned by `IncMainPGimbal`. -/
def PMainGimbalCtrl.ProcessMouse2D (K : MouseMasks) (reply : Bool) (s : Latch)
    (event mx my : Int) : MouseResult Latch :=
  let s1 : Latch :=
    if maskTest event K.PANEL_MOUSE_LBDOWN then
      { ctrl := if mx < 10 then 1 else if mx ≥ 25 then 2 else 3
        mode := if my < 22 then 1 else 2 }
    else if maskTest event K.PANEL_MOUSE_LBUP then
      { s with ctrl := 0 }
    else s
  { state := s1
    effects := Effect.IncMainPGimbal s1.ctrl s1.mode ::
      (if reply then [Effect.oapiTriggerPanelRedrawArea 0 AreaId.AID_PGIMBALMAINDISP] else [])
    ret := consumed K event }

/-- Embedding of `YMainGimbalCtrl::ProcessMouse2D` (GimbalCtrl.cpp 341-356): here `my` selects
`ctrl` and `mx` selects `mode`; `reply` is the value returned by `IncMainYGimbal`. -/
def YMainGimbalCtrl.ProcessMouse2D (K : MouseMasks) (reply : Bool) (s : Latch)
    (event mx my : Int) : MouseResult Latch :=
  let s1 : Latch :=
    if maskTest event K.PANEL_MOUSE_LBDOWN then
      { ctrl := if my < 10 then 1 else if my ≥ 25 then 2 else 3
        mode := if mx < 22 then 1 else 2 }
    else if maskTest event K.PANEL_MOUSE_LBUP then
      { s with ctrl := 0 }
    else s
  { state := s1
    effects := Effect.IncMainYGimbal s1.ctrl s1.mode ::
      (if reply then [Effect.oapiTriggerPanelRedrawArea 0 AreaId.AID_YGIMBALMAINDISP] else [])
    ret := consumed K event }

/-- Embedding of `ScramGimbalCtrl::ProcessMouse2D` (GimbalCtrl.cpp 697-712);
`reply` is the value returned by `IncScramGimbal`. -/
def ScramGimbalCtrl.ProcessMouse2D (K : MouseMasks) (reply : Bool) (s : Latch)
    (event mx my : Int) : MouseResult Latch :=
  let s1 : Latch :=
    if maskTest event K.PANEL_MOUSE_LBDOWN then
      { ctrl := if mx < 10 then 1 else if mx ≥ 25 then 2 else 3
        mode := if my < 22 then 1 else 2 }
    else if maskTest event K.PANEL_MOUSE_LBUP then
      { s with ctrl := 0 }
    else s
  { state := s1
    effects := Effect.IncScramGimbal s1.ctrl s1.mode ::
      (if reply then [Effect.oapiTriggerPanelRedrawArea 0 AreaId.AID_GIMBALSCRAMDISP] else [])
    ret := consumed K event }

/-- Embedding of `HoverBalanceCtrl::ProcessMouse2D` (GimbalCtrl.cpp 530-543);
`reply` is the value returned by `ShiftHoverBalance`. -/
def HoverBalanceCtrl.ProcessMouse2D (K : MouseMasks) (reply : Bool) (s : HoverLatch)
    (event _mx my : Int) : MouseResult HoverLatch :=
  let s1 : HoverLatch :=
    if maskTest event K.PANEL_MOUSE_LBDOWN then
      { mode := if my < 22 then 1 else 2 }
    else if maskTest event K.PANEL_MOUSE_LBUP then
      { mode := 0 }
    else s
  { state := s1
    effects := Effect.ShiftHoverBalance s1.mode ::
      (if reply then [Effect.oapiTriggerPanelRedrawArea 0 AreaId.AID_HBALANCEDISP] else [])
    ret := consumed K event }

/-- One delivery of a mouse event to a handler: the event mask, the coordinates,
and the value the vessel returns to the handler's request. -/
structure MouseCall where
  event : Int
  mx : Int
  my : Int
  reply : Bool

/-- Sequential delivery of mouse events to one handler, threading its static
locals; returns the final locals and all calls made, in order. -/
def deliver {σ : Type} (h : Bool → σ → Int → Int → Int → MouseResult σ) :
    σ → List MouseCall → σ × List Effect
  | s, [] => (s, [])
  | s, c :: cs =>
    let r := h c.reply s c.event c.mx c.my
    let t := deliver h r.state cs
    (t.1, r.effects ++ t.2)

/-! ## GimbalCtrl.cpp: mode buttons -/

/-- Embedding of `YMainGimbalMode::ProcessMouse2D` (GimbalCtrl.cpp 437-445): returns the vessel
after the call and the handler's return value. -/
def YMainGimbalMode.ProcessMouse2D (dg : Scout) (_event _mx my : Int) : Scout × Bool :=
  let mode := dg.mymode
  let dg1 : Scout :=
    if my < 12 then { dg with mymode := if mode = 1 then 0 else 1 }
    else if my ≥ 17 ∧ my < 29 then { dg with mymode := if mode = 2 then 0 else 2 }
    else if my ≥ 34 then { dg with mymode := if mode = 3 then 0 else 3 }
    else dg
  (dg1, decide (mode ≠ dg1.mymode))

/-- Repeated presses of the yaw-gimbal mode button: each entry is the
`(event, mx, my)` of one call of `YMainGimbalMode::ProcessMouse2D`. -/
def YMainGimbalMode.presses (dg : Scout) (clicks : List (Int × Int × Int)) : Scout :=
  clicks.foldl (fun d c => (YMainGimbalMode.ProcessMouse2D d c.1 c.2.1 c.2.2).1) dg

/-- The hit-zone `k` of the yaw-gimbal mode button, as the claims describe it:
zone 1 is `my < 12`, zone 2 is `17 ≤ my < 29`, zone 3 is `my ≥ 34`. -/
def YMainGimbalMode.inZone (k my : Int) : Prop :=
  (k = 1 ∧ my < 12) ∨ (k = 2 ∧ 17 ≤ my ∧ my < 29) ∨ (k = 3 ∧ 34 ≤ my)

instance (k my : Int) : Decidable (YMainGimbalMode.inZone k my) := by
  unfold YMainGimbalMode.inZone; infer_instance

/-- The host type `VECTOR3` (a point of the virtual-cockpit click area). -/
structure VECTOR3 where
  x : ℚ
  y : ℚ
  z : ℚ

/-- Embedding of `ScramGimbalCntr::ProcessMouse2D` (GimbalCtrl.cpp 778-782):
`dg->spmode = 1-dg->mpmode; return true;`. -/
def ScramGimbalCntr.ProcessMouse2D (dg : Scout) (_event _mx _my : Int) : Scout × Bool :=
  ({ dg with spmode := wrap32 (1 - dg.mpmode) }, true)

/-- Embedding of `ScramGimbalCntr::ProcessMouseVC` (GimbalCtrl.cpp 786-790):
`dg->spmode = 1-dg->spmode; return true;`. -/
def ScramGimbalCntr.ProcessMouseVC (dg : Scout) (_event : Int) (_p : VECTOR3) : Scout × Bool :=
  ({ dg with spmode := wrap32 (1 - dg.spmode) }, true)

/-- Embedding of `PMainGimbalCntr::ProcessMouse2D` (GimbalCtrl.cpp 213-217):
`mpmode = 1-mpmode; return true;`. -/
def PMainGimbalCntr.ProcessMouse2D (dg : Scout) (_event _mx _my : Int) : Scout × Bool :=
  ({ dg with mpmode := wrap32 (1 - dg.mpmode) }, true)

/-- Embedding of `PMainGimbalCntr::ProcessMouseVC` (GimbalCtrl.cpp 221-225):
`mpmode = 1-mpmode; return true;`. -/
def PMainGimbalCntr.ProcessMouseVC (dg : Scout) (_event : Int) (_p : VECTOR3) : Scout × Bool :=
  ({ dg with mpmode := wrap32 (1 - dg.mpmode) }, true)

/-- Embedding of `HoverBalanceCntr::ProcessMouse2D` (GimbalCtrl.cpp 582-586):
`hbmode = 1-hbmode; return true;`. -/
def HoverBalanceCntr.ProcessMouse2D (dg : Scout) (_event _mx _my : Int) : Scout × Bool :=
  ({ dg with hbmode := wrap32 (1 - dg.hbmode) }, true)

/-- One press of a centre button: on the 2D panel or in the virtual cockpit. -/
inductive CntrPress where
  | panel2D (event mx my : Int)
  | cockpit (event : Int) (p : VECTOR3)

/-- A sequence of presses of the main pitch-gimbal centre button, each handled by
`PMainGimbalCntr::ProcessMouse2D` or `PMainGimbalCntr::ProcessMouseVC`. -/
def PMainGimbalCntr.presses (dg : Scout) (ps : List CntrPress) : Scout :=
  ps.foldl (fun d c =>
    match c with
    | CntrPress.panel2D e x y => (PMainGimbalCntr.ProcessMouse2D d e x y).1
    | CntrPress.cockpit e p => (PMainGimbalCntr.ProcessMouseVC d e p).1) dg

/-- A sequence of presses of the hover-balance centre button, each handled by
`HoverBalanceCntr::ProcessMouse2D`; an entry is the `(event, mx, my)` of a call. -/
def HoverBalanceCntr.presses (dg : Scout) (ps : List (Int × Int × Int)) : Scout :=
  ps.foldl (fun d c => (HoverBalanceCntr.ProcessMouse2D d c.1 c.2.1 c.2.2).1) dg

/-! ## Geometry -/

/-- The host vertex type `NTVERTEX`: position, normal and texture coordinates. -/
structure NTVERTEX where
  x : ℚ
  y : ℚ
  z : ℚ
  nx : ℚ
  ny : ℚ
  nz : ℚ
  tu : ℚ
  tv : ℚ
  deriving DecidableEq

/-- A vertex with every field 0. -/
def zeroVertex : NTVERTEX :=
  { x := 0, y := 0, z := 0, nx := 0, ny := 0, nz := 0, tu := 0, tv := 0 }

/-- Modelled from the spec: the geometry-buffer append primitive
`PanelElement::AddGeometry`, whose body is not in the sources at hand ("geometry-buffer
append primitive (vertex array + index array + target group)", "the widget holds only
an offset/handle into it"): the vertex array `VTX` is appended to the vertices of the
target group, and the widget's `vtxofs` is the number of vertices the group had before.
Returns `(vtxofs, Vtx)`. The index array is not modelled. -/
def AddGeometry (Vtx VTX : List NTVERTEX) : Nat × List NTVERTEX :=
  (Vtx.length, Vtx ++ VTX)

/-- The assignment `Vtx[k].y = v`. -/
def setY (Vtx : List NTVERTEX) (k : Nat) (v : ℚ) : List NTVERTEX :=
  Vtx.modify (fun p => { p with y := v }) k

/-- The assignment `Vtx[k].tu = v`. -/
def setTu (Vtx : List NTVERTEX) (k : Nat) (v : ℚ) : List NTVERTEX :=
  Vtx.modify (fun p => { p with tu := v }) k

/-- The assignment `Vtx[k].tv = v`. -/
def setTv (Vtx : List NTVERTEX) (k : Nat) (v : ℚ) : List NTVERTEX :=
  Vtx.modify (fun p => { p with tv := v }) k

/-- The C library function `modf`, first component dropped: the fractional part
of `x`, with the sign of `x` (the integral part is `x` truncated towards zero). -/
def modf (x : ℚ) : ℚ := if 0 ≤ x then x - (⌊x⌋ : ℤ) else x - (⌈x⌉ : ℤ)

/-! ## GearLever.cpp -/

namespace GearLever

/-- Constant `tx_dx` of GearLever.cpp. -/
def tx_dx : ℚ := 176
/-- Constant `bb_y0` of GearLever.cpp. -/
def bb_y0 : ℚ := 326

/-- Embedding of `GearLever::Redraw2D` (GearLever.cpp 52-60): the chained assignment writes
vertex `vtxofs+3` first, then vertex `vtxofs+2`. -/
def Redraw2D (dg : Scout) (vtxofs : Nat) (Vtx : List NTVERTEX) : List NTVERTEX × Bool :=
  let action := dg.gear_status
  let leverdown : Bool :=
    decide (action = DoorStatus.DOOR_OPENING) || decide (action = DoorStatus.DOOR_OPEN)
  let y : ℚ := if leverdown then bb_y0 + tx_dx else bb_y0
  (setY (setY Vtx (vtxofs + 3) y) (vtxofs + 2) y, false)

end GearLever

namespace GearIndicator

/-- The `switch (action)` of `GearIndicator::Redraw2D` (GearLever.cpp 120-124);
`simt` is the value of `oapiGetSimTime()`, `tofs` the phase offset of the instance,
both of type `double`; their sum is rounded to `double` before `modf` sees it. -/
def xofs (simt tofs : ℚ) (action : DoorStatus) : Int :=
  match action with
  | DoorStatus.DOOR_CLOSED => 1018
  | DoorStatus.DOOR_OPEN => 1030
  | _ => if modf (f64 (simt + tofs)) < 0.5 then 1042 else 1020

/-- The vertex table `VTX` that `GearIndicator::AddMeshData2D` emits
(GearLever.cpp 90-103): three quads of four vertices. -/
def VTX (texw texh : ℚ) : List NTVERTEX :=
  [ ⟨1240,      293,      0, 0, 0, 0, 1018 / texw, (texh - 597) / texh⟩,
    ⟨1240 + 10, 293,      0, 0, 0, 0, 1028 / texw, (texh - 597) / texh⟩,
    ⟨1240,      293 + 10, 0, 0, 0, 0, 1018 / texw, (texh - 587) / texh⟩,
    ⟨1240 + 10, 293 + 10, 0, 0, 0, 0, 1028 / texw, (texh - 587) / texh⟩,
    ⟨1232,      309,      0, 0, 0, 0, 1018 / texw, (texh - 597) / texh⟩,
    ⟨1232 + 10, 309,      0, 0, 0, 0, 1028 / texw, (texh - 597) / texh⟩,
    ⟨1232,      309 + 10, 0, 0, 0, 0, 1018 / texw, (texh - 587) / texh⟩,
    ⟨1232 + 10, 309 + 10, 0, 0, 0, 0, 1028 / texw, (texh - 587) / texh⟩,
    ⟨1248,      309,      0, 0, 0, 0, 1018 / texw, (texh - 597) / texh⟩,
    ⟨1248 + 10, 309,      0, 0, 0, 0, 1028 / texw, (texh - 597) / texh⟩,
    ⟨1248,      309 + 10, 0, 0, 0, 0, 1018 / texw, (texh - 587) / texh⟩,
    ⟨1248 + 10, 309 + 10, 0, 0, 0, 0, 1028 / texw, (texh - 587) / texh⟩ ]

/-- Embedding of `GearIndicator::Redraw2D` (GearLever.cpp 114-129). -/
def Redraw2D (texw simt tofs : ℚ) (dg : Scout) (vtxofs : Nat) (Vtx : List NTVERTEX) :
    List NTVERTEX × Bool :=
  let xofs := xofs simt tofs dg.gear_status
  ((List.range 3).foldl (fun V i =>
      (List.range 4).foldl (fun W j =>
        setTu W (vtxofs + i * 4 + j) (((xofs + ((j % 2 : Nat) : Int) * 10 : Int) : ℚ) / texw)) V)
    Vtx, false)

end GearIndicator

/-! ## NconeLever.cpp -/

namespace NoseconeLever

/-- Embedding of `NoseconeLever::Redraw2D` (NconeLever.cpp 44-58). -/
def Redraw2D (texh : ℚ) (dg : Scout) (vtxofs : Nat) (Vtx : List NTVERTEX) :
    List NTVERTEX × Bool :=
  let action := dg.nose_status
  let leverdown : Bool :=
    decide (action = DoorStatus.DOOR_OPENING) || decide (action = DoorStatus.DOOR_OPEN)
  let y0 : ℚ := if leverdown then 400.5 else 326.5
  let dy : ℚ := if leverdown then 21 else 19
  let tv0 : ℚ := if leverdown then texh - 677.5 else texh - 696.5
  ((List.range 4).foldl (fun V j =>
      setTv (setY V (vtxofs + j) (y0 + ((j / 2 : Nat) : ℚ) * dy))
        (vtxofs + j) ((tv0 + ((j / 2 : Nat) : ℚ) * dy) / texh))
    Vtx, false)

end NoseconeLever

namespace NoseconeIndicator

/-- The `switch (action)` of `NoseconeIndicator::Redraw2D` (NconeLever.cpp 115-119); the
sum of the two `double` values is rounded to `double` before `modf` sees it. -/
def xofs (simt tofs : ℚ) (action : DoorStatus) : Int :=
  match action with
  | DoorStatus.DOOR_CLOSED => 1014
  | DoorStatus.DOOR_OPEN => 1027
  | _ => if modf (f64 (simt + tofs)) < 0.5 then 1040 else 1014

/-- The vertex table `VTX` that `NoseconeIndicator::AddMeshData2D` emits
(NconeLever.cpp 86-99): four triangles of three vertices. -/
def VTX (texw texh : ℚ) : List NTVERTEX :=
  [ ⟨1147, 293, 0, 0, 0, 0, 1027 / texw, (texh - 611) / texh⟩,
    ⟨1159, 293, 0, 0, 0, 0, 1039 / texw, (texh - 611) / texh⟩,
    ⟨1147, 305, 0, 0, 0, 0, 1027 / texw, (texh - 599) / texh⟩,
    ⟨1173, 293, 0, 0, 0, 0, 1027 / texw, (texh - 611) / texh⟩,
    ⟨1173, 305, 0, 0, 0, 0, 1039 / texw, (texh - 611) / texh⟩,
    ⟨1161, 293, 0, 0, 0, 0, 1027 / texw, (texh - 599) / texh⟩,
    ⟨1173, 319, 0, 0, 0, 0, 1027 / texw, (texh - 611) / texh⟩,
    ⟨1161, 319, 0, 0, 0, 0, 1039 / texw, (texh - 611) / texh⟩,
    ⟨1173, 307, 0, 0, 0, 0, 1027 / texw, (texh - 599) / texh⟩,
    ⟨1147, 319, 0, 0, 0, 0, 1027 / texw, (texh - 611) / texh⟩,
    ⟨1147, 307, 0, 0, 0, 0, 1039 / texw, (texh - 611) / texh⟩,
    ⟨1159, 319, 0, 0, 0, 0, 1027 / texw, (texh - 599) / texh⟩ ]

/-- Embedding of `NoseconeIndicator::Redraw2D` (NconeLever.cpp 111-126): four triangles of
three vertices each. -/
def Redraw2D (texw simt tofs : ℚ) (dg : Scout) (vtxofs : Nat) (Vtx : List NTVERTEX) :
    List NTVERTEX × Bool :=
  let xofs := xofs simt tofs dg.nose_status
  ((List.range 4).foldl (fun V i =>
      (List.range 3).foldl (fun W j =>
        setTu W (vtxofs + i * 3 + j) (((xofs + ((j % 2 : Nat) : Int) * 12 : Int) : ℚ) / texw)) V)
    Vtx, false)

end NoseconeIndicator

/-! ## SwitchArray.cpp -/

/-- The data members of `SwitchArray`: the cached button states `btnstate[8]`
and the offset `vtxofs` of its vertices in the mesh group. -/
structure SwitchArray where
  btnstate : Fin 8 → Int
  vtxofs : Nat

namespace SwitchArray

/-- Constant `tx_dx` of SwitchArray.cpp. -/
def tx_dx : ℚ := 25
/-- Constant `tx_x1` of SwitchArray.cpp. -/
def tx_x1 : ℚ := 964
/-- Constant `tx_x0 = tx_x1+tx_dx` of SwitchArray.cpp. -/
def tx_x0 : ℚ := tx_x1 + tx_dx
/-- Constant `tx_dy` of SwitchArray.cpp. -/
def tx_dy : ℚ := 38
/-- Constant `tx_y0 = texh-611.0f` of SwitchArray.cpp. -/
def tx_y0 (texh : ℚ) : ℚ := texh - 611
/-- Constant `bb_x0` of SwitchArray.cpp. -/
def bb_x0 : ℚ := 856
/-- Constant `bb_y0` of SwitchArray.cpp. -/
def bb_y0 : ℚ := 415
/-- Constant `bb_dx` of SwitchArray.cpp. -/
def bb_dx : ℚ := 32

/-- Embedding of `SwitchArray::Reset2D` (SwitchArray.cpp 37-41). -/
def Reset2D (self : SwitchArray) : SwitchArray :=
  { self with btnstate := fun _ => 0 }

/-- The vertex array `VTX` that `SwitchArray::AddMeshData2D` builds (SwitchArray.cpp
54-61): 32 zero-filled vertices, then for each button `i` and corner `j` the fields
`x`, `y`, `tu`, `tv` of entry `i*4+j` are assigned. -/
def VTX (texw texh : ℚ) : List NTVERTEX :=
  (List.range 8).foldl (fun V (i : Nat) =>
      (List.range 4).foldl (fun W (j : Nat) =>
        W.modify (fun p => { p with
          x := bb_x0 + ((i : Nat) : ℚ) * bb_dx + ((j % 2 : Nat) : ℚ) * tx_dx
          y := bb_y0 + ((j / 2 : Nat) : ℚ) * tx_dy
          tu := (tx_x0 + ((j % 2 : Nat) : ℚ) * tx_dx) / texw
          tv := (tx_y0 texh + ((j / 2 : Nat) : ℚ) * tx_dy) / texh }) (i * 4 + j)) V)
    (List.replicate (4 * 8) zeroVertex)

/-- Embedding of `SwitchArray::AddMeshData2D` (SwitchArray.cpp 45-66): the vertex array is
handed to `AddGeometry`. -/
def AddMeshData2D (texw texh : ℚ) (self : SwitchArray) (Vtx : List NTVERTEX) :
    SwitchArray × List NTVERTEX :=
  let r := AddGeometry Vtx (VTX texw texh)
  ({ self with vtxofs := r.1 }, r.2)

/-- The `switch (i)` of `SwitchArray::Redraw2D` (SwitchArray.cpp 76-85): the state
of switch `i` observed on the vessel. `GetBeaconState` is the vessel's accessor of
that name. The loop index ranges over `0..7`, so the last branch is never taken. -/
def observed (GetBeaconState : Nat → Bool) (dg : Scout) (i : Nat) : Int :=
  let isOpen (s : DoorStatus) : Int :=
    if s = DoorStatus.DOOR_OPEN ∨ s = DoorStatus.DOOR_OPENING then 1 else 0
  match i with
  | 0 | 1 | 2 | 3 => if GetBeaconState i then 1 else 0
  | 4 => isOpen dg.radiator_status
  | 5 => isOpen dg.rcover_status
  | 6 => isOpen dg.hatch_status
  | 7 => isOpen dg.ladder_status
  | _ => 0

/-- One iteration of the loop of `SwitchArray::Redraw2D` (SwitchArray.cpp 75-92),
acting on the pair `(btnstate, Vtx)`. -/
def redrawButton (texw : ℚ) (GetBeaconState : Nat → Bool) (dg : Scout) (vtxofs : Nat)
    (acc : (Fin 8 → Int) × List NTVERTEX) (i : Fin 8) : (Fin 8 → Int) × List NTVERTEX :=
  let state := observed GetBeaconState dg i.val
  if state ≠ acc.1 i then
    let vofs := vtxofs + i.val * 4
    (Function.update acc.1 i state,
     (List.range 4).foldl (fun V j =>
        setTu V (vofs + j) ((tx_x0 + (((j % 2 : Nat) : Int) - state : Int) * tx_dx) / texw)) acc.2)
  else acc

/-- Embedding of `SwitchArray::Redraw2D` (SwitchArray.cpp 70-94): returns the widget, the vertex
buffer and the return value after the call. -/
def Redraw2D (texw : ℚ) (GetBeaconState : Nat → Bool) (dg : Scout) (self : SwitchArray)
    (Vtx : List NTVERTEX) : SwitchArray × List NTVERTEX × Bool :=
  let r := (List.finRange 8).foldl (redrawButton texw GetBeaconState dg self.vtxofs)
    (self.btnstate, Vtx)
  ({ self with btnstate := r.1 }, r.2, false)

/-- The read `btnstate[k]` with a C++ `int` index `k`: `none` when `k` is outside
`0..7`, that is, when the access is outside the array. -/
def readBtnstate (self : SwitchArray) (k : Int) : Option Int :=
  if h : 0 ≤ k ∧ k < 8 then some (self.btnstate ⟨k.toNat, (Int.toNat_lt h.1).mpr h.2⟩)
  else none

/-- Embedding of `SwitchArray::ProcessMouse2D` (SwitchArray.cpp 98-118). `mx / 32` is the
C++ integer division, which truncates towards zero. The result is `none` when the
handler reads `btnstate[btn]` with `btn` outside `0..7`; otherwise it is the widget
and vertex buffer after the call (the handler writes neither), the vessel requests
made, and the return value. -/
def ProcessMouse2D (self : SwitchArray) (Vtx : List NTVERTEX) (_event mx my : Int) :
    Option (MouseResult (SwitchArray × List NTVERTEX)) :=
  let btn := Int.tdiv mx 32
  if mx - btn * 32 ≥ 26 then some ⟨(self, Vtx), [], false⟩
  else
    let state : Int := if my < 19 then 0 else 1
    match readBtnstate self btn with
    | none => none
    | some cached =>
      if state ≠ cached then
        let action := if state = 0 then DoorStatus.DOOR_CLOSING else DoorStatus.DOOR_OPENING
        match btn with
        | 0 => some ⟨(self, Vtx), [Effect.SetNavlight (state != 0)], true⟩
        | 1 => some ⟨(self, Vtx), [Effect.SetBeacon (state != 0)], true⟩
        | 2 => some ⟨(self, Vtx), [Effect.SetStrobe (state != 0)], true⟩
        | 3 => some ⟨(self, Vtx), [Effect.SetDockingLight (state != 0)], true⟩
        | 4 => some ⟨(self, Vtx), [Effect.ActivateRadiator action], true⟩
        | 5 => some ⟨(self, Vtx), [Effect.ActivateRCover action], true⟩
        | 6 => some ⟨(self, Vtx), [Effect.ActivateHatch action], true⟩
        | 7 => some ⟨(self, Vtx), [Effect.ActivateLadder action], true⟩
        | _ => some ⟨(self, Vtx), [], false⟩
      else some ⟨(self, Vtx), [], false⟩

/-- The cache invariant of `SwitchArray`, as the claims state it: for every button `i`
in `0..7` the cache entry `btnstate[i]` is 0 or 1, and for every corner `j` in `0..3`
the vertex `4*i + j` of the widget exists and has
`tu = (tx_x0 + ((j mod 2) - btnstate[i]) * tx_dx)/texw`. -/
def CacheInv (texw : ℚ) (self : SwitchArray) (Vtx : List NTVERTEX) : Prop :=
  ∀ i : Fin 8, (self.btnstate i = 0 ∨ self.btnstate i = 1) ∧
    ∀ j : Nat, j < 4 →
      (Vtx[self.vtxofs + i.val * 4 + j]?).map NTVERTEX.tu =
        some ((tx_x0 + ((((j % 2 : Nat) : Int) - self.btnstate i : Int) : ℚ) * tx_dx) / texw)

end SwitchArray

/-! ## Vessel trim nudges (Scout.cpp) -/

/-- Modelled from the spec: the vessel's per-tick nudge of a trim index, requested by
`IncMainPGimbal`, `IncMainYGimbal`, `IncScramGimbal` and `ShiftHoverBalance`; these are
methods of `Scout` whose bodies (Scout.cpp) are not in the sources at hand. The spec
says: "While latched, each simulation tick nudges the bound DiscreteState (e.g., a trim
index) up or down by a fixed increment, clamped to a valid range". Here `lo` and `hi`
are the configured minimum and maximum, `inc` is the fixed increment and `up` is the
latched direction. -/
def nudge (lo hi inc : Int) (up : Bool) (idx : Int) : Int :=
  if up then min hi (idx + inc) else max lo (idx - inc)

/-- The trim index after `n` per-tick nudges in the latched direction `up`. -/
def nudges (lo hi inc : Int) (up : Bool) (idx : Int) : Nat → Int
  | 0 => idx
  | n + 1 => nudge lo hi inc up (nudges lo hi inc up idx n)

/-! ## GimbalCtrl.cpp: displays and redraws -/

namespace GimbalCtrl

/-- Constant `tx_x0` of GimbalCtrl.cpp. -/
def tx_x0 : ℚ := 1147.5
/-- Constant `tx_y0 = texh-614.5f` of GimbalCtrl.cpp. -/
def tx_y0 (texh : ℚ) : ℚ := texh - 614.5
/-- Constant `tx_dx` of GimbalCtrl.cpp. -/
def tx_dx : ℚ := 7
/-- Constant `tx_dy` of GimbalCtrl.cpp. -/
def tx_dy : ℚ := 6
/-- Constant `bb_dx` of GimbalCtrl.cpp. -/
def bb_dx : ℚ := 7
/-- Constant `bb_dy` of GimbalCtrl.cpp. -/
def bb_dy : ℚ := 3
/-- Constant `pm_x0` of GimbalCtrl.cpp. -/
def pm_x0 : ℚ := 27
/-- Constant `pm_y0` of GimbalCtrl.cpp. -/
def pm_y0 : ℚ := 103.5

end GimbalCtrl

namespace PMainGimbalDisp

open GimbalCtrl in
/-- The vertex table `VTX` that `PMainGimbalDisp::AddMeshData2D` emits
(GimbalCtrl.cpp 41-50): two bars of four vertices. -/
def VTX (texw texh : ℚ) : List NTVERTEX :=
  [ ⟨pm_x0,                 pm_y0 - bb_dy, 0, 0, 0, 0, tx_x0 / texw, tx_y0 texh / texh⟩,
    ⟨pm_x0 + bb_dx,         pm_y0 - bb_dy, 0, 0, 0, 0, (tx_x0 + tx_dx) / texw, tx_y0 texh / texh⟩,
    ⟨pm_x0,                 pm_y0 + bb_dy, 0, 0, 0, 0, tx_x0 / texw, (tx_y0 texh + tx_dy) / texh⟩,
    ⟨pm_x0 + bb_dx,         pm_y0 + bb_dy, 0, 0, 0, 0, (tx_x0 + tx_dx) / texw,
      (tx_y0 texh + tx_dy) / texh⟩,
    ⟨pm_x0 + 2 * bb_dx + 1, pm_y0 - bb_dy, 0, 0, 0, 0, tx_x0 / texw, tx_y0 texh / texh⟩,
    ⟨pm_x0 + bb_dx + 1,     pm_y0 - bb_dy, 0, 0, 0, 0, (tx_x0 + tx_dx) / texw, tx_y0 texh / texh⟩,
    ⟨pm_x0 + 2 * bb_dx + 1, pm_y0 + bb_dy, 0, 0, 0, 0, tx_x0 / texw, (tx_y0 texh + tx_dy) / texh⟩,
    ⟨pm_x0 + bb_dx + 1,     pm_y0 + bb_dy, 0, 0, 0, 0, (tx_x0 + tx_dx) / texw,
      (tx_y0 texh + tx_dy) / texh⟩ ]

open GimbalCtrl in
/-- The `float` expression `pm_y0-bb_dy+(j/2)*(2*bb_dy) + lvl` of
`PMainGimbalDisp::Redraw2D` (GimbalCtrl.cpp 67): the `int` operands `j/2`, `2` and `lvl`
are converted to `float`, and every operation rounds its result to `float`. -/
def barY (j : Nat) (lvl : Int) : ℚ :=
  f32 (f32 (f32 (pm_y0 - bb_dy) + f32 (f32 ((j / 2 : Nat) : ℚ) * f32 (f32 2 * bb_dy))) +
    f32 (lvl : ℚ))

/-- Embedding of `PMainGimbalDisp::Redraw2D` (GimbalCtrl.cpp 61-70); `lvl` is an `int`. -/
def Redraw2D (dg : Scout) (vtxofs : Nat) (Vtx : List NTVERTEX) : List NTVERTEX × Bool :=
  ((List.finRange 2).foldl (fun V (i : Fin 2) =>
      let lvl : Int := wrap32 (dg.mpgimbalidx i - 35)
      (List.range 4).foldl (fun W (j : Nat) =>
        setY W (vtxofs + i.val * 4 + j) (barY j lvl)) V)
    Vtx, false)

end PMainGimbalDisp

namespace YMainGimbalCtrl

/-- The table `static int map[3] = {0,2,1};` of `YMainGimbalCtrl::Redraw2D`. -/
def map : List Int := [0, 2, 1]

/-- The read `map[k]` with a C++ `int` index `k`: `none` when `k` is outside `0..2`,
that is, when the access is outside the table. -/
def readMap (k : Int) : Option Int :=
  if 0 ≤ k then map[k.toNat]? else none

/-- One iteration of the outer loop of `YMainGimbalCtrl::Redraw2D` (GimbalCtrl.cpp
317-322); `none` when the read of `map` is outside the table. -/
def redrawSwitch (texw : ℚ) (dg : Scout) (vtxofs : Nat) (V : List NTVERTEX) (i : Fin 2) :
    Option (List NTVERTEX) :=
  match readMap (dg.myswitch i) with
  | none => none
  | some state =>
    some ((List.range 4).foldl (fun W (j : Nat) =>
      setTu W (vtxofs + i.val * 4 + j)
        (((1054 + state * 16 + ((j % 2 : Nat) : Int) * 14 : Int) : ℚ) / texw)) V)

/-- Embedding of `YMainGimbalCtrl::Redraw2D` (GimbalCtrl.cpp 314-324); `none` when a read of
`map` is outside the table. -/
def Redraw2D (texw : ℚ) (dg : Scout) (vtxofs : Nat) (Vtx : List NTVERTEX) :
    Option (List NTVERTEX × Bool) :=
  match redrawSwitch texw dg vtxofs Vtx 0 with
  | none => none
  | some V1 =>
    match redrawSwitch texw dg vtxofs V1 1 with
    | none => none
    | some V2 => some (V2, false)

end YMainGimbalCtrl

namespace YMainGimbalMode

/-- The vertex table `VTX` that `YMainGimbalMode::AddMeshData2D` emits
(GimbalCtrl.cpp 390-403): three buttons of four vertices. -/
def VTX (texw texh : ℚ) : List NTVERTEX :=
  [ ⟨ 9, 166, 0, 0, 0, 0, 1029 / texw, (texh - 584) / texh⟩,
    ⟨19, 166, 0, 0, 0, 0, 1039 / texw, (texh - 584) / texh⟩,
    ⟨ 9, 176, 0, 0, 0, 0, 1029 / texw, (texh - 574) / texh⟩,
    ⟨19, 176, 0, 0, 0, 0, 1039 / texw, (texh - 574) / texh⟩,
    ⟨ 9, 183, 0, 0, 0, 0, 1029 / texw, (texh - 584) / texh⟩,
    ⟨19, 183, 0, 0, 0, 0, 1039 / texw, (texh - 584) / texh⟩,
    ⟨ 9, 193, 0, 0, 0, 0, 1029 / texw, (texh - 574) / texh⟩,
    ⟨19, 193, 0, 0, 0, 0, 1039 / texw, (texh - 574) / texh⟩,
    ⟨ 9, 200, 0, 0, 0, 0, 1029 / texw, (texh - 584) / texh⟩,
    ⟨19, 200, 0, 0, 0, 0, 1039 / texw, (texh - 584) / texh⟩,
    ⟨ 9, 210, 0, 0, 0, 0, 1029 / texw, (texh - 574) / texh⟩,
    ⟨19, 210, 0, 0, 0, 0, 1039 / texw, (texh - 574) / texh⟩ ]

/-- Embedding of `YMainGimbalMode::Redraw2D` (GimbalCtrl.cpp 415-425). -/
def Redraw2D (texw : ℚ) (dg : Scout) (vtxofs : Nat) (Vtx : List NTVERTEX) :
    List NTVERTEX × Bool :=
  ((List.range 3).foldl (fun V (i : Nat) =>
      let ofs : Int := if dg.mymode = (i : Int) + 1 then 12 else 0
      (List.range 4).foldl (fun W (j : Nat) =>
        setTu W (vtxofs + i * 4 + j)
          (((1029 + ((j % 2 : Nat) : Int) * 10 + ofs : Int) : ℚ) / texw)) V)
    Vtx, false)

end YMainGimbalMode

/-! ## MwsButton.cpp -/

/-- The data members `active` and `islit` of `MWSButton`. -/
structure MWSButton where
  active : Bool
  islit : Bool

namespace MWSButton

/-- Constant `tx_x0` of MwsButton.cpp. -/
def tx_x0 : ℚ := 991
/-- Constant `tx_y0 = texh-643.0f` of MwsButton.cpp. -/
def tx_y0 (texh : ℚ) : ℚ := texh - 643
/-- Constant `tx_dx` of MwsButton.cpp. -/
def tx_dx : ℚ := 29
/-- Constant `tx_dy` of MwsButton.cpp. -/
def tx_dy : ℚ := 30
/-- Constant `bb_x0` of MwsButton.cpp. -/
def bb_x0 : ℚ := 1071
/-- Constant `bb_y0` of MwsButton.cpp. -/
def bb_y0 : ℚ := 4

/-- The vertex table `VTX` that `MWSButton::AddMeshData2D` emits (MwsButton.cpp 39-44). -/
def VTX (texw texh : ℚ) : List NTVERTEX :=
  [ ⟨bb_x0,         bb_y0,         0, 0, 0, 0, tx_x0 / texw,           tx_y0 texh / texh⟩,
    ⟨bb_x0 + tx_dx, bb_y0,         0, 0, 0, 0, (tx_x0 + tx_dx) / texw, tx_y0 texh / texh⟩,
    ⟨bb_x0,         bb_y0 + tx_dy, 0, 0, 0, 0, tx_x0 / texw,           tx_y0 texh / texh⟩,
    ⟨bb_x0 + tx_dx, bb_y0 + tx_dy, 0, 0, 0, 0, (tx_x0 + tx_dx) / texw, tx_y0 texh / texh⟩ ]

/-- Embedding of `MWSButton::Redraw2D` (MwsButton.cpp 60-76): `MWSActive` is the value of
`dg->MWSActive()`, `simt` the value of `oapiGetSimTime()`; the loop runs over
`i = 2, 3`. Returns the widget, the vertex buffer and the return value. -/
def Redraw2D (texh : ℚ) (MWSActive : Bool) (simt : ℚ) (self : MWSButton) (vtxofs : Nat)
    (Vtx : List NTVERTEX) : MWSButton × List NTVERTEX × Bool :=
  let light : Bool := if MWSActive then decide (modf simt < 0.5) else false
  if light ≠ self.islit then
    let tv : ℚ := (if light then tx_y0 texh + tx_dy else tx_y0 texh) / texh
    ({ self with islit := light },
     [2, 3].foldl (fun V (i : Nat) => setTv V (vtxofs + i) tv) Vtx, false)
  else (self, Vtx, false)

end MWSButton

/-! ## Lever and button handlers, remaining tables -/

/-- Embedding of `GearLever::ProcessMouse2D` (GearLever.cpp 64-74): the vessel after the
call (the handler assigns no member of it), the requests made, the return value. -/
def GearLever.ProcessMouse2D (dg : Scout) (_event _mx my : Int) : MouseResult Scout :=
  let action := dg.gear_status
  if action = DoorStatus.DOOR_CLOSED ∨ action = DoorStatus.DOOR_CLOSING then
    if my < 151 then ⟨dg, [Effect.ActivateLandingGear DoorStatus.DOOR_OPENING], false⟩
    else ⟨dg, [], false⟩
  else
    if my > 46 then ⟨dg, [Effect.ActivateLandingGear DoorStatus.DOOR_CLOSING], false⟩
    else ⟨dg, [], false⟩

/-- Embedding of `NoseconeLever::ProcessMouse2D` (NconeLever.cpp 62-71). -/
def NoseconeLever.ProcessMouse2D (dg : Scout) (_event _mx my : Int) : MouseResult Scout :=
  let action := dg.nose_status
  if action = DoorStatus.DOOR_CLOSED ∨ action = DoorStatus.DOOR_CLOSING then
    if my < 58 then ⟨dg, [Effect.ActivateDockingPort DoorStatus.DOOR_OPENING], false⟩
    else ⟨dg, [], false⟩
  else
    if my > 36 then ⟨dg, [Effect.ActivateDockingPort DoorStatus.DOOR_CLOSING], false⟩
    else ⟨dg, [], false⟩

/-- The data member `btndown` of `UndockButton`. -/
structure UndockButton where
  btndown : Bool

namespace UndockButton

/-- Constant `tx_y0 = texh-614.5f` of UndockBtn.cpp. -/
def tx_y0 (texh : ℚ) : ℚ := texh - 614.5
/-- Constant `tx_dy` of UndockBtn.cpp. -/
def tx_dy : ℚ := 39
/-- Constant `bb_y0` of UndockBtn.cpp. -/
def bb_y0 : ℚ := 471.5

/-- Embedding of `UndockButton::ProcessMouse2D` (UndockBtn.cpp 72-77): the event is compared
with `PANEL_MOUSE_LBDOWN` by `==`, not masked. -/
def ProcessMouse2D (K : MouseMasks) (self : UndockButton) (event _mx _my : Int) :
    MouseResult UndockButton :=
  { state := { self with btndown := decide (event = K.PANEL_MOUSE_LBDOWN) }
    effects := if event = K.PANEL_MOUSE_LBDOWN then [Effect.Undock 0] else []
    ret := true }

/-- Embedding of `UndockButton::Redraw2D` (UndockBtn.cpp 61-68): each chained assignment
writes vertex `vtxofs+3` first, then vertex `vtxofs+2`. -/
def Redraw2D (texh : ℚ) (self : UndockButton) (vtxofs : Nat) (Vtx : List NTVERTEX) :
    List NTVERTEX × Bool :=
  let y : ℚ := if self.btndown then bb_y0 + tx_dy else bb_y0
  let tv : ℚ := (if self.btndown then tx_y0 texh + tx_dy else tx_y0 texh) / texh
  (setTv (setTv (setY (setY Vtx (vtxofs + 3) y) (vtxofs + 2) y) (vtxofs + 3) tv)
    (vtxofs + 2) tv, false)

end UndockButton

namespace MWSButton

/-- Embedding of the constructor `MWSButton::MWSButton` (MwsButton.cpp 26-31). -/
def new : MWSButton := { active := false, islit := false }

/-- Embedding of `MWSButton::Reset2D` (MwsButton.cpp 53-56). -/
def Reset2D (_self : MWSButton) : MWSButton := { active := false, islit := false }

/-- Embedding of `MWSButton::AddMeshData2D` (MwsButton.cpp 35-49): the vertex table is handed
to `AddGeometry`; returns `(vtxofs, Vtx)`. -/
def AddMeshData2D (texw texh : ℚ) (Vtx : List NTVERTEX) : Nat × List NTVERTEX :=
  AddGeometry Vtx (VTX texw texh)

/-- The cache invariant of `MWSButton`, as the claims state it: `islit` is true if and
only if vertices 2 and 3 of the widget have `tv = (tx_y0 + tx_dy)/texh`, and otherwise
they have `tv = tx_y0/texh`. -/
def CacheInv (texh : ℚ) (self : MWSButton) (vtxofs : Nat) (Vtx : List NTVERTEX) : Prop :=
  (self.islit = true ↔
    ∀ k : Nat, k = 2 ∨ k = 3 →
      (Vtx[vtxofs + k]?).map NTVERTEX.tv = some ((tx_y0 texh + tx_dy) / texh)) ∧
  (self.islit = false →
    ∀ k : Nat, k = 2 ∨ k = 3 →
      (Vtx[vtxofs + k]?).map NTVERTEX.tv = some (tx_y0 texh / texh))

end MWSButton

namespace PMainGimbalCtrl

/-- The vertex table `VTX` that `PMainGimbalCtrl::AddMeshData2D` emits
(GimbalCtrl.cpp 95-104): two switches of four vertices. -/
def VTX (texw texh : ℚ) : List NTVERTEX :=
  [ ⟨64,  83, 0, 0, 0, 0, 1054 / texw, (texh - 616) / texh⟩,
    ⟨78,  83, 0, 0, 0, 0, 1068 / texw, (texh - 616) / texh⟩,
    ⟨64, 125, 0, 0, 0, 0, 1054 / texw, (texh - 574) / texh⟩,
    ⟨78, 125, 0, 0, 0, 0, 1068 / texw, (texh - 574) / texh⟩,
    ⟨83,  83, 0, 0, 0, 0, 1054 / texw, (texh - 616) / texh⟩,
    ⟨97,  83, 0, 0, 0, 0, 1068 / texw, (texh - 616) / texh⟩,
    ⟨83, 125, 0, 0, 0, 0, 1054 / texw, (texh - 574) / texh⟩,
    ⟨97, 125, 0, 0, 0, 0, 1068 / texw, (texh - 574) / texh⟩ ]

/-- Embedding of `PMainGimbalCtrl::Redraw2D` (GimbalCtrl.cpp 114-123). -/
def Redraw2D (texw : ℚ) (dg : Scout) (vtxofs : Nat) (Vtx : List NTVERTEX) :
    List NTVERTEX × Bool :=
  ((List.finRange 2).foldl (fun V (i : Fin 2) =>
      let state : Int := dg.mpswitch i
      (List.range 4).foldl (fun W (j : Nat) =>
        setTu W (vtxofs + i.val * 4 + j)
          (((1054 + state * 16 + ((j % 2 : Nat) : Int) * 14 : Int) : ℚ) / texw)) V)
    Vtx, false)

end PMainGimbalCtrl

/-- The vertex table `VTX` that `YMainGimbalCtrl::AddMeshData2D` emits
(GimbalCtrl.cpp 294-303): two switches of four vertices, the texture turned by a
quarter, so that `tu` follows `j / 2` and `tv` follows `j mod 2`. -/
def YMainGimbalCtrl.VTX (texw texh : ℚ) : List NTVERTEX :=
  [ ⟨56, 179, 0, 0, 0, 0, 1054 / texw, (texh - 574) / texh⟩,
    ⟨98, 179, 0, 0, 0, 0, 1054 / texw, (texh - 616) / texh⟩,
    ⟨56, 193, 0, 0, 0, 0, 1068 / texw, (texh - 574) / texh⟩,
    ⟨98, 193, 0, 0, 0, 0, 1068 / texw, (texh - 616) / texh⟩,
    ⟨56, 198, 0, 0, 0, 0, 1054 / texw, (texh - 574) / texh⟩,
    ⟨98, 198, 0, 0, 0, 0, 1054 / texw, (texh - 616) / texh⟩,
    ⟨56, 212, 0, 0, 0, 0, 1068 / texw, (texh - 574) / texh⟩,
    ⟨98, 212, 0, 0, 0, 0, 1068 / texw, (texh - 616) / texh⟩ ]

/-! ## Sample inputs -/

/-- The mask values of the host SDK headers: press is bit 0, release is bit 2. -/
def sdkMasks : MouseMasks := { PANEL_MOUSE_LBDOWN := 1, PANEL_MOUSE_LBUP := 4 }

/-- A vessel with every index, switch and mode at 0 and every door closed. -/
def restVessel : Scout :=
  { mpgimbalidx := fun _ => 0, mygimbalidx := fun _ => 0, scgimbalidx := fun _ => 0,
    hbalanceidx := 0, mpswitch := fun _ => 0, myswitch := fun _ => 0,
    sgswitch := fun _ => 0, hbswitch := 0, mpmode := 0, mymode := 0, spmode := 0,
    hbmode := 0, gear_status := DoorStatus.DOOR_CLOSED,
    nose_status := DoorStatus.DOOR_CLOSED, radiator_status := DoorStatus.DOOR_CLOSED,
    rcover_status := DoorStatus.DOOR_CLOSED, hatch_status := DoorStatus.DOOR_CLOSED,
    ladder_status := DoorStatus.DOOR_CLOSED }

/-- A vessel accessor `GetBeaconState` under which only the navigation light
(beacon 0) is on. -/
def navLightOn : Nat → Bool := fun i => i == 0

/-- A `SwitchArray` right after `Reset2D`, with its vertices at offset 0. -/
def freshSwitchArray : SwitchArray := { btnstate := fun _ => 0, vtxofs := 0 }

/-! ## Theorems -/

/-- A result inside the 32-bit range is stored as it is. -/
theorem wrap32_of_range (x : Int) (h : -2147483648 ≤ x ∧ x ≤ 2147483647) : wrap32 x = x := by
  unfold wrap32
  omega

/-- The rounding of `q` in terms of an integer `n` with `n ≤ q < n + 1`. -/
theorem roundHalfEven_of_floor (q : ℚ) (n : Int) (h1 : (n : ℚ) ≤ q) (h2 : q < n + 1) :
    roundHalfEven q =
      if q - n < 1 / 2 then n else if 1 / 2 < q - n then n + 1
      else if n % 2 = 0 then n else n + 1 := by
  have hf : ⌊q⌋ = n := Int.floor_eq_iff.mpr ⟨h1, h2⟩
  unfold roundHalfEven
  rw [hf]

/-- An integer rounds to itself. -/
theorem roundHalfEven_intCast (n : Int) : roundHalfEven (n : ℚ) = n := by
  rw [roundHalfEven_of_floor (n : ℚ) n le_rfl (by linarith)]
  simp

/-- A non-negative rational rounds to a non-negative integer. -/
theorem roundHalfEven_nonneg (q : ℚ) (h : 0 ≤ q) : 0 ≤ roundHalfEven q := by
  have hf : 0 ≤ ⌊q⌋ := Int.floor_nonneg.mpr h
  unfold roundHalfEven
  split_ifs <;> omega

/-- The binary exponent of `x` is `L` when `2^L ≤ |x| < 2^(L+1)`. -/
theorem log2_eq (x : ℚ) (L : Int) (h1 : (2 : ℚ) ^ L ≤ |x|) (h2 : |x| < (2 : ℚ) ^ (L + 1)) :
    Int.log 2 |x| = L := by
  have hpos : 0 < |x| := lt_of_lt_of_le (by positivity) h1
  have a : L ≤ Int.log 2 |x| := by
    rw [← Int.zpow_le_iff_le_log (by norm_num) hpos]
    simpa using h1
  have b : Int.log 2 |x| < L + 1 := by
    rw [← Int.lt_zpow_iff_log_lt (by norm_num) hpos]
    simpa using h2
  omega

/-- The floating-point rounding of `x` when its binary exponent `L` is known. -/
theorem roundBinary_of_log (p : Nat) (emin : Int) (x : ℚ) (L : Int)
    (h1 : (2 : ℚ) ^ L ≤ |x|) (h2 : |x| < (2 : ℚ) ^ (L + 1)) :
    roundBinary p emin x =
      (roundHalfEven (x / 2 ^ (max L emin - ((p : Int) - 1))) : ℚ) *
        2 ^ (max L emin - ((p : Int) - 1)) := by
  unfold roundBinary
  rw [log2_eq x L h1 h2]

/-- Floating-point rounding of a non-negative value is non-negative. -/
theorem roundBinary_nonneg (p : Nat) (emin : Int) (x : ℚ) (h : 0 ≤ x) :
    0 ≤ roundBinary p emin x := by
  unfold roundBinary
  have h2 : 0 ≤ roundHalfEven (x / 2 ^ (max (Int.log 2 |x|) emin - ((p : Int) - 1))) :=
    roundHalfEven_nonneg _ (by positivity)
  have h3 : (0 : ℚ) ≤ (roundHalfEven (x / 2 ^ (max (Int.log 2 |x|) emin - ((p : Int) - 1))) : ℚ) := by
    exact_mod_cast h2
  positivity

/-- A value `m * 2^e` whose significand `m` fits `p` bits and whose exponent `e` is not
below the least one of the format is representable: rounding returns it unchanged. -/
theorem roundBinary_exact (p : Nat) (emin : Int) (m e : Int) (hm : |m| < 2 ^ p)
    (he : emin - ((p : Int) - 1) ≤ e) :
    roundBinary p emin ((m : ℚ) * 2 ^ e) = (m : ℚ) * 2 ^ e := by
  by_cases hm0 : m = 0
  · subst hm0
    unfold roundBinary
    simp [roundHalfEven]
  · have hx : 0 < |(m : ℚ) * 2 ^ e| := by
      rw [abs_pos]
      have : (m : ℚ) ≠ 0 := by exact_mod_cast hm0
      positivity
    have hlt : |(m : ℚ) * 2 ^ e| < (2 : ℚ) ^ ((p : Int) + e) := by
      rw [abs_mul, abs_of_pos (show (0 : ℚ) < 2 ^ e by positivity), zpow_add₀ (by norm_num)]
      have : |(m : ℚ)| < 2 ^ (p : Int) := by
        have h := hm
        have : ((|m| : Int) : ℚ) < ((2 ^ p : Int) : ℚ) := by exact_mod_cast h
        simpa using this
      exact mul_lt_mul_of_pos_right this (by positivity)
    have hlog : Int.log 2 |(m : ℚ) * 2 ^ e| < (p : Int) + e := by
      rw [← Int.lt_zpow_iff_log_lt (by norm_num) hx]
      simpa using hlt
    have hEe : max (Int.log 2 |(m : ℚ) * 2 ^ e|) emin - ((p : Int) - 1) ≤ e := by
      rcases max_cases (Int.log 2 |(m : ℚ) * 2 ^ e|) emin with ⟨h, _⟩ | ⟨h, _⟩ <;> rw [h] <;> omega
    unfold roundBinary
    dsimp only
    generalize max (Int.log 2 |(m : ℚ) * 2 ^ e|) emin - ((p : Int) - 1) = E at hEe ⊢
    obtain ⟨k, hk⟩ : ∃ k : Nat, e = E + k := ⟨(e - E).toNat, by omega⟩
    have hpow : (2 : ℚ) ^ e = 2 ^ E * 2 ^ k := by
      rw [hk, zpow_add₀ (by norm_num), zpow_natCast]
    have hE0 : (2 : ℚ) ^ E ≠ 0 := by positivity
    have hq : (m : ℚ) * 2 ^ e / 2 ^ E = ((m * 2 ^ k : Int) : ℚ) := by
      rw [hpow]
      push_cast
      field_simp
      ring
    rw [hq, roundHalfEven_intCast, hpow]
    push_cast
    ring

/-- The floating-point rounding of a positive `x` when its binary exponent `L` is known. -/
theorem roundBinary_of_log_pos (p : Nat) (emin : Int) (x : ℚ) (L : Int)
    (h1 : (2 : ℚ) ^ L ≤ x) (h2 : x < (2 : ℚ) ^ (L + 1)) :
    roundBinary p emin x =
      (roundHalfEven (x / 2 ^ (max L emin - ((p : Int) - 1))) : ℚ) *
        2 ^ (max L emin - ((p : Int) - 1)) := by
  have hx : 0 < x := lt_of_lt_of_le (by positivity) h1
  exact roundBinary_of_log p emin x L (by rwa [abs_of_pos hx]) (by rwa [abs_of_pos hx])

/-- Rounding a non-negative value to `double` gives a non-negative value. -/
theorem f64_nonneg (x : ℚ) (h : 0 ≤ x) : 0 ≤ f64 x := roundBinary_nonneg 53 (-1022) x h

/-- A half-integer `n/2` with `|n| < 2^24` is a `float`: rounding returns it unchanged. -/
theorem f32_of_half (x : ℚ) (n : Int) (hx : x = (n : ℚ) / 2) (h : |n| < 16777216) :
    f32 x = x := by
  have e := roundBinary_exact 24 (-126) n (-1) (by simpa using h) (by norm_num)
  have hx2 : x = (n : ℚ) * 2 ^ (-1 : Int) := by
    rw [hx, zpow_neg_one]
    ring
  unfold f32
  rw [hx2]
  exact e

/-- An integer `n` with `|n| < 2^24` is a `float`: rounding returns it unchanged. -/
theorem f32_of_int (x : ℚ) (n : Int) (hx : x = (n : ℚ)) (h : |n| < 16777216) :
    f32 x = x := by
  have e := roundBinary_exact 24 (-126) n 0 (by simpa using h) (by norm_num)
  have hx2 : x = (n : ℚ) * 2 ^ (0 : Int) := by
    rw [hx, zpow_zero, mul_one]
  unfold f32
  rw [hx2]
  exact e

/-- A dyadic rational `m * 2^e` with `|m| < 2^53` and `e ≥ -1074` is a `double`: rounding
returns it unchanged. -/
theorem f64_of_dyadic (x : ℚ) (m e : Int) (hx : x = (m : ℚ) * 2 ^ e)
    (hm : |m| < 9007199254740992) (he : -1074 ≤ e) : f64 x = x := by
  have h := roundBinary_exact 53 (-1022) m e (by simpa using hm) (by norm_num; omega)
  unfold f64
  rw [hx]
  exact h

/-- A counted loop that modifies element `b + j` by `g j` for `j = 0, ..., c-1` changes
exactly the elements `b, ..., b+c-1`, element `n` by `g (n - b)`. -/
theorem modify_loop {α : Type} (g : Nat → α → α) (b : Nat) :
    ∀ (c : Nat) (V : List α) (n : Nat),
      ((List.range c).foldl (fun W j => W.modify (g j) (b + j)) V)[n]? =
        if b ≤ n ∧ n < b + c then (V[n]?).map (g (n - b)) else V[n]? := by
  intro c
  induction c with
  | zero =>
    intro V n
    have : ¬ (b ≤ n ∧ n < b + 0) := by omega
    rw [if_neg this]
    rfl
  | succ c ih =>
    intro V n
    rw [List.range_succ, List.foldl_append]
    simp only [List.foldl_cons, List.foldl_nil]
    rw [List.getElem?_modify, ih]
    by_cases h1 : b + c = n
    · have h2 : ¬ (b ≤ n ∧ n < b + c) := by omega
      have h3 : b ≤ n ∧ n < b + (c + 1) := by omega
      have h4 : n - b = c := by omega
      simp [h1, h2, h3, h4]
    · by_cases h2 : b ≤ n ∧ n < b + c
      · have h3 : b ≤ n ∧ n < b + (c + 1) := by omega
        simp [h1, h2, h3]
      · have h3 : ¬ (b ≤ n ∧ n < b + (c + 1)) := by omega
        simp [h1, h2, h3]

/-- A counted modification loop keeps the length of the buffer. -/
theorem modify_loop_length {α : Type} (g : Nat → α → α) (b : Nat) :
    ∀ (c : Nat) (V : List α),
      ((List.range c).foldl (fun W j => W.modify (g j) (b + j)) V).length = V.length := by
  intro c
  induction c with
  | zero => intro V; simp
  | succ c ih =>
    intro V
    rw [List.range_succ, List.foldl_append]
    simp [ih]


/-- C1: on a press event `PMainGimbalCtrl::ProcessMouse2D` and
`ScramGimbalCtrl::ProcessMouse2D` latch `ctrl = 1` for `mx < 10`, `ctrl = 3` for
`10 ≤ mx < 25`, `ctrl = 2` for `mx ≥ 25`, and `mode = 1` for `my < 22`, `mode = 2`
otherwise; the first call each makes is the nudge request with the latched pair. -/
theorem press_latches_zone (K : MouseMasks) (reply : Bool) (s : Latch) (event mx my : Int)
    (hpress : Int.land event K.PANEL_MOUSE_LBDOWN ≠ 0) :
    let c : Int := if mx < 10 then 1 else if mx < 25 then 3 else 2
    let m : Int := if my < 22 then 1 else 2
    (PMainGimbalCtrl.ProcessMouse2D K reply s event mx my).state = { ctrl := c, mode := m } ∧
    (PMainGimbalCtrl.ProcessMouse2D K reply s event mx my).effects.head? =
      some (Effect.IncMainPGimbal c m) ∧
    (ScramGimbalCtrl.ProcessMouse2D K reply s event mx my).state = { ctrl := c, mode := m } ∧
    (ScramGimbalCtrl.ProcessMouse2D K reply s event mx my).effects.head? =
      some (Effect.IncScramGimbal c m) := by
  have hp : maskTest event K.PANEL_MOUSE_LBDOWN = true := by
    simp [maskTest, hpress]
  simp only [PMainGimbalCtrl.ProcessMouse2D, ScramGimbalCtrl.ProcessMouse2D, hp, if_true,
    List.head?_cons]
  by_cases h1 : mx < 10
  · have h2 : mx < 25 := by omega
    simp [h1, h2]
  · by_cases h2 : mx < 25
    · have h3 : ¬ mx ≥ 25 := by omega
      simp [h1, h2, h3]
    · have h3 : mx ≥ 25 := by omega
      simp [h1, h2, h3]

/-- Witness of C1 at the boundary pixels 9, 10, 24 and 25 (press mask 1, `my = 0`):
the latched `ctrl` is 1, 3, 3 and 2. -/
theorem press_latches_zone_witness :
    (PMainGimbalCtrl.ProcessMouse2D sdkMasks false ⟨0, 0⟩ 1 9 0).state = ⟨1, 1⟩ ∧
    (PMainGimbalCtrl.ProcessMouse2D sdkMasks false ⟨0, 0⟩ 1 10 0).state = ⟨3, 1⟩ ∧
    (ScramGimbalCtrl.ProcessMouse2D sdkMasks false ⟨0, 0⟩ 1 24 0).state = ⟨3, 1⟩ ∧
    (ScramGimbalCtrl.ProcessMouse2D sdkMasks false ⟨0, 0⟩ 1 25 30).state = ⟨2, 2⟩ :=
  ⟨(press_latches_zone sdkMasks false ⟨0, 0⟩ 1 9 0 (by decide)).1,
   (press_latches_zone sdkMasks false ⟨0, 0⟩ 1 10 0 (by decide)).1,
   (press_latches_zone sdkMasks false ⟨0, 0⟩ 1 24 0 (by decide)).2.2.1,
   (press_latches_zone sdkMasks false ⟨0, 0⟩ 1 25 30 (by decide)).2.2.1⟩

/-- A press inside zone `k` sets `mymode` to 0 when it was `k` and to `k` otherwise,
and touches nothing else. -/
theorem YMainGimbalMode.press_inZone (dg : Scout) (event mx my k : Int)
    (hz : YMainGimbalMode.inZone k my) :
    (YMainGimbalMode.ProcessMouse2D dg event mx my).1 =
      { dg with mymode := if dg.mymode = k then 0 else k } := by
  rcases hz with ⟨rfl, h⟩ | ⟨rfl, h1, h2⟩ | ⟨rfl, h⟩
  · simp [YMainGimbalMode.ProcessMouse2D, h]
  · have h3 : ¬ my < 12 := by omega
    simp [YMainGimbalMode.ProcessMouse2D, h1, h2, h3]
  · have h3 : ¬ my < 12 := by omega
    have h4 : ¬ my < 29 := by omega
    simp [YMainGimbalMode.ProcessMouse2D, h, h3, h4]

/-- Two presses inside zone `k`, starting from `mymode = 0` or `mymode = k`,
give back the vessel unchanged. -/
theorem YMainGimbalMode.press_twice (dg : Scout) (e1 x1 y1 e2 x2 y2 k : Int)
    (h1 : YMainGimbalMode.inZone k y1) (h2 : YMainGimbalMode.inZone k y2)
    (hm : dg.mymode = 0 ∨ dg.mymode = k) :
    (YMainGimbalMode.ProcessMouse2D (YMainGimbalMode.ProcessMouse2D dg e1 x1 y1).1 e2 x2 y2).1
      = dg := by
  have hk : k ≠ 0 := by
    rcases h1 with ⟨rfl, _⟩ | ⟨rfl, _⟩ | ⟨rfl, _⟩ <;> decide
  rw [YMainGimbalMode.press_inZone dg e1 x1 y1 k h1, YMainGimbalMode.press_inZone _ e2 x2 y2 k h2]
  have hk2 : ¬ (0 : Int) = k := fun h => hk h.symm
  cases dg
  rcases hm with hm | hm
  · simp only at hm
    subst hm
    simp [hk, hk2]
  · simp only at hm
    subst hm
    simp [hk, hk2]

/-- C2: for every current `mymode` and every `my` inside mode zone `k` of
`YMainGimbalMode::ProcessMouse2D`, the new `mymode` is 0 if the current one equals `k`
and `k` otherwise, and no other vessel field is changed. -/
theorem YMainGimbalMode_zone_transition (dg : Scout) (event mx my k : Int)
    (hz : YMainGimbalMode.inZone k my) :
    (YMainGimbalMode.ProcessMouse2D dg event mx my).1 =
      { dg with mymode := if dg.mymode = k then 0 else k } :=
  YMainGimbalMode.press_inZone dg event mx my k hz

/-- Witness of C2: from `mymode = 0`, a click at `my = 20` (zone 2) selects mode 2. -/
theorem YMainGimbalMode_zone_transition_witness :
    YMainGimbalMode.inZone 2 20 ∧
    (YMainGimbalMode.ProcessMouse2D restVessel 1 0 20).1 = { restVessel with mymode := 2 } :=
  ⟨by decide, YMainGimbalMode_zone_transition restVessel 1 0 20 2 (by decide)⟩

/-- C3, as stated, fails: from `mymode = 1`, two presses of zone 2 (`my = 20`)
leave `mymode = 0`, not 1. -/
theorem YMainGimbalMode_even_presses_counterexample :
    YMainGimbalMode.inZone 2 20 ∧
    (YMainGimbalMode.presses { restVessel with mymode := 1 } [(1, 0, 20), (1, 0, 20)]).mymode = 0 ∧
    (YMainGimbalMode.presses { restVessel with mymode := 1 } [(1, 0, 20), (1, 0, 20)]).mymode ≠
      ({ restVessel with mymode := 1 } : Scout).mymode := by
  refine ⟨by decide, by decide, by decide⟩

/-- C3 amended: for every zone `k` and every starting `mymode` that is 0 or `k`,
an even number of presses inside zone `k` leaves the vessel, and so `mymode`,
as it started. -/
theorem YMainGimbalMode_even_presses (k : Int) (n : Nat) :
    ∀ (dg : Scout) (clicks : List (Int × Int × Int)),
      clicks.length = 2 * n →
      (∀ c ∈ clicks, YMainGimbalMode.inZone k c.2.2) →
      (dg.mymode = 0 ∨ dg.mymode = k) →
      YMainGimbalMode.presses dg clicks = dg := by
  induction n with
  | zero =>
    intro dg clicks hlen _ _
    have : clicks = [] := List.length_eq_zero.mp (by simpa using hlen)
    subst this
    rfl
  | succ n ih =>
    intro dg clicks hlen hz hm
    match clicks, hlen, hz with
    | a :: b :: rest, hlen, hz =>
      have ha := hz a (by simp)
      have hb := hz b (by simp)
      have hrest : ∀ c ∈ rest, YMainGimbalMode.inZone k c.2.2 :=
        fun c hc => hz c (by simp [hc])
      have hl : rest.length = 2 * n := by
        simp only [List.length_cons] at hlen
        omega
      have h2 := YMainGimbalMode.press_twice dg a.1 a.2.1 a.2.2 b.1 b.2.1 b.2.2 k ha hb hm
      simp only [YMainGimbalMode.presses, List.foldl_cons] at *
      rw [h2]
      exact ih dg rest hl hrest hm
    | [], hlen, _ => simp at hlen
    | [_], hlen, _ =>
      simp only [List.length_cons, List.length_nil] at hlen
      omega

/-- Witness of C3 amended: from `mymode = 2`, four presses inside zone 2 restore it. -/
theorem YMainGimbalMode_even_presses_witness :
    (YMainGimbalMode.presses { restVessel with mymode := 2 }
      [(1, 0, 17), (1, 0, 20), (4, 3, 28), (1, 0, 17)]).mymode = 2 :=
  congrArg Scout.mymode
    (YMainGimbalMode_even_presses 2 2 { restVessel with mymode := 2 }
      [(1, 0, 17), (1, 0, 20), (4, 3, 28), (1, 0, 17)] (by decide) (by decide) (Or.inr rfl))

/-- C4 fails on the code: with `mpmode = 1` and `spmode = 0`,
`ScramGimbalCntr::ProcessMouse2D` leaves `spmode = 0` (it computes `1 - mpmode`),
while `ScramGimbalCntr::ProcessMouseVC` toggles it to 1. -/
theorem ScramGimbalCntr_2D_reads_mpmode :
    (ScramGimbalCntr.ProcessMouse2D { restVessel with mpmode := 1 } 1 0 0).1.spmode = 0 ∧
    (ScramGimbalCntr.ProcessMouseVC { restVessel with mpmode := 1 } 1 ⟨0, 0, 0⟩).1.spmode = 1 ∧
    ({ restVessel with mpmode := 1 } : Scout).spmode = 0 := by
  refine ⟨by decide, by decide, by decide⟩

/-- An invariant of the static locals that every admissible delivery preserves,
and a property that every call made under it has, hold along any delivery sequence. -/
theorem deliver_invariant {σ : Type} (h : Bool → σ → Int → Int → Int → MouseResult σ)
    (Inv : σ → Prop) (P : Effect → Prop) (ok : MouseCall → Prop)
    (hstep : ∀ s c, Inv s → ok c →
      Inv (h c.reply s c.event c.mx c.my).state ∧
      ∀ e ∈ (h c.reply s c.event c.mx c.my).effects, P e) :
    ∀ (cs : List MouseCall) (s : σ), Inv s → (∀ c ∈ cs, ok c) →
      Inv (deliver h s cs).1 ∧ ∀ e ∈ (deliver h s cs).2, P e := by
  intro cs
  induction cs with
  | nil =>
    intro s hs _
    exact ⟨hs, fun e he => by simp [deliver] at he⟩
  | cons c cs ih =>
    intro s hs hok
    have h1 := hstep s c hs (hok c (by simp))
    have h2 := ih (h c.reply s c.event c.mx c.my).state h1.1 (fun d hd => hok d (by simp [hd]))
    refine ⟨h2.1, ?_⟩
    intro e he
    simp only [deliver, List.mem_append] at he
    rcases he with he | he
    · exact h1.2 e he
    · exact h2.2 e he

/-- Once `ctrl = 0`, `PMainGimbalCtrl::ProcessMouse2D` keeps it so on every event
that is not a press, and requests only `IncMainPGimbal (0, _)`. -/
theorem PMainGimbalCtrl.idle_step (K : MouseMasks) (s : Latch) (c : MouseCall)
    (hs : s.ctrl = 0) (hc : Int.land c.event K.PANEL_MOUSE_LBDOWN = 0) :
    (PMainGimbalCtrl.ProcessMouse2D K c.reply s c.event c.mx c.my).state.ctrl = 0 ∧
    ∀ e ∈ (PMainGimbalCtrl.ProcessMouse2D K c.reply s c.event c.mx c.my).effects,
      ∀ a m, e = Effect.IncMainPGimbal a m → a = 0 := by
  have hp : maskTest c.event K.PANEL_MOUSE_LBDOWN = false := by simp [maskTest, hc]
  simp only [PMainGimbalCtrl.ProcessMouse2D, hp]
  cases hu : maskTest c.event K.PANEL_MOUSE_LBUP <;> cases hr : c.reply <;> simp [hs]

/-- Once `ctrl = 0`, `YMainGimbalCtrl::ProcessMouse2D` keeps it so on every event
that is not a press, and requests only `IncMainYGimbal (0, _)`. -/
theorem YMainGimbalCtrl.idle_step_yaw (K : MouseMasks) (s : Latch) (c : MouseCall)
    (hs : s.ctrl = 0) (hc : Int.land c.event K.PANEL_MOUSE_LBDOWN = 0) :
    (YMainGimbalCtrl.ProcessMouse2D K c.reply s c.event c.mx c.my).state.ctrl = 0 ∧
    ∀ e ∈ (YMainGimbalCtrl.ProcessMouse2D K c.reply s c.event c.mx c.my).effects,
      ∀ a m, e = Effect.IncMainYGimbal a m → a = 0 := by
  have hp : maskTest c.event K.PANEL_MOUSE_LBDOWN = false := by simp [maskTest, hc]
  simp only [YMainGimbalCtrl.ProcessMouse2D, hp]
  cases hu : maskTest c.event K.PANEL_MOUSE_LBUP <;> cases hr : c.reply <;> simp [hs]

/-- Once `ctrl = 0`, `ScramGimbalCtrl::ProcessMouse2D` keeps it so on every event
that is not a press, and requests only `IncScramGimbal (0, _)`. -/
theorem ScramGimbalCtrl.idle_step_scram (K : MouseMasks) (s : Latch) (c : MouseCall)
    (hs : s.ctrl = 0) (hc : Int.land c.event K.PANEL_MOUSE_LBDOWN = 0) :
    (ScramGimbalCtrl.ProcessMouse2D K c.reply s c.event c.mx c.my).state.ctrl = 0 ∧
    ∀ e ∈ (ScramGimbalCtrl.ProcessMouse2D K c.reply s c.event c.mx c.my).effects,
      ∀ a m, e = Effect.IncScramGimbal a m → a = 0 := by
  have hp : maskTest c.event K.PANEL_MOUSE_LBDOWN = false := by simp [maskTest, hc]
  simp only [ScramGimbalCtrl.ProcessMouse2D, hp]
  cases hu : maskTest c.event K.PANEL_MOUSE_LBUP <;> cases hr : c.reply <;> simp [hs]

/-- Once `mode = 0`, `HoverBalanceCtrl::ProcessMouse2D` keeps it so on every event
that is not a press, and requests only `ShiftHoverBalance (0)`. -/
theorem HoverBalanceCtrl.idle_step_hover (K : MouseMasks) (s : HoverLatch) (c : MouseCall)
    (hs : s.mode = 0) (hc : Int.land c.event K.PANEL_MOUSE_LBDOWN = 0) :
    (HoverBalanceCtrl.ProcessMouse2D K c.reply s c.event c.mx c.my).state.mode = 0 ∧
    ∀ e ∈ (HoverBalanceCtrl.ProcessMouse2D K c.reply s c.event c.mx c.my).effects,
      ∀ m, e = Effect.ShiftHoverBalance m → m = 0 := by
  have hp : maskTest c.event K.PANEL_MOUSE_LBDOWN = false := by simp [maskTest, hc]
  simp only [HoverBalanceCtrl.ProcessMouse2D, hp]
  cases hu : maskTest c.event K.PANEL_MOUSE_LBUP <;> cases hr : c.reply <;> simp [hs]

/-- C10: on an event whose mask has the release bit and not the press bit,
`PMainGimbalCtrl`, `YMainGimbalCtrl` and `ScramGimbalCtrl::ProcessMouse2D` set `ctrl = 0`
(keeping `mode`) and issue their nudge request with `ctrl = 0`;
`HoverBalanceCtrl::ProcessMouse2D` sets `mode = 0` and issues `ShiftHoverBalance (0)`;
and along every later sequence of events that are not presses, every nudge request
is still issued with the cleared latch. -/
theorem release_clears_latch (K : MouseMasks) (reply : Bool) (s : Latch) (hv : HoverLatch)
    (event mx my : Int) (later : List MouseCall)
    (hup : Int.land event K.PANEL_MOUSE_LBUP ≠ 0)
    (hdn : Int.land event K.PANEL_MOUSE_LBDOWN = 0)
    (hlater : ∀ c ∈ later, Int.land c.event K.PANEL_MOUSE_LBDOWN = 0) :
    ((PMainGimbalCtrl.ProcessMouse2D K reply s event mx my).state = { s with ctrl := 0 } ∧
     (PMainGimbalCtrl.ProcessMouse2D K reply s event mx my).effects.head? =
       some (Effect.IncMainPGimbal 0 s.mode) ∧
     ∀ a m, Effect.IncMainPGimbal a m ∈ (deliver (PMainGimbalCtrl.ProcessMouse2D K)
       (PMainGimbalCtrl.ProcessMouse2D K reply s event mx my).state later).2 → a = 0) ∧
    ((YMainGimbalCtrl.ProcessMouse2D K reply s event mx my).state = { s with ctrl := 0 } ∧
     (YMainGimbalCtrl.ProcessMouse2D K reply s event mx my).effects.head? =
       some (Effect.IncMainYGimbal 0 s.mode) ∧
     ∀ a m, Effect.IncMainYGimbal a m ∈ (deliver (YMainGimbalCtrl.ProcessMouse2D K)
       (YMainGimbalCtrl.ProcessMouse2D K reply s event mx my).state later).2 → a = 0) ∧
    ((ScramGimbalCtrl.ProcessMouse2D K reply s event mx my).state = { s with ctrl := 0 } ∧
     (ScramGimbalCtrl.ProcessMouse2D K reply s event mx my).effects.head? =
       some (Effect.IncScramGimbal 0 s.mode) ∧
     ∀ a m, Effect.IncScramGimbal a m ∈ (deliver (ScramGimbalCtrl.ProcessMouse2D K)
       (ScramGimbalCtrl.ProcessMouse2D K reply s event mx my).state later).2 → a = 0) ∧
    ((HoverBalanceCtrl.ProcessMouse2D K reply hv event mx my).state = { mode := 0 } ∧
     (HoverBalanceCtrl.ProcessMouse2D K reply hv event mx my).effects.head? =
       some (Effect.ShiftHoverBalance 0) ∧
     ∀ m, Effect.ShiftHoverBalance m ∈ (deliver (HoverBalanceCtrl.ProcessMouse2D K)
       (HoverBalanceCtrl.ProcessMouse2D K reply hv event mx my).state later).2 → m = 0) := by
  have hp : maskTest event K.PANEL_MOUSE_LBDOWN = false := by simp [maskTest, hdn]
  have hu : maskTest event K.PANEL_MOUSE_LBUP = true := by simp [maskTest, hup]
  have eP : (PMainGimbalCtrl.ProcessMouse2D K reply s event mx my).state = { s with ctrl := 0 } := by
    simp [PMainGimbalCtrl.ProcessMouse2D, hp, hu]
  have eY : (YMainGimbalCtrl.ProcessMouse2D K reply s event mx my).state = { s with ctrl := 0 } := by
    simp [YMainGimbalCtrl.ProcessMouse2D, hp, hu]
  have eS : (ScramGimbalCtrl.ProcessMouse2D K reply s event mx my).state = { s with ctrl := 0 } := by
    simp [ScramGimbalCtrl.ProcessMouse2D, hp, hu]
  have eH : (HoverBalanceCtrl.ProcessMouse2D K reply hv event mx my).state = { mode := 0 } := by
    simp [HoverBalanceCtrl.ProcessMouse2D, hp, hu]
  refine ⟨⟨eP, ?_, ?_⟩, ⟨eY, ?_, ?_⟩, ⟨eS, ?_, ?_⟩, ⟨eH, ?_, ?_⟩⟩
  · simp [PMainGimbalCtrl.ProcessMouse2D, hp, hu]
  · intro a m hmem
    rw [eP] at hmem
    exact (deliver_invariant (PMainGimbalCtrl.ProcessMouse2D K) (fun t => t.ctrl = 0)
      (fun e => ∀ a m, e = Effect.IncMainPGimbal a m → a = 0)
      (fun c => Int.land c.event K.PANEL_MOUSE_LBDOWN = 0)
      (fun t c ht hc => PMainGimbalCtrl.idle_step K t c ht hc)
      later _ rfl hlater).2 _ hmem a m rfl
  · simp [YMainGimbalCtrl.ProcessMouse2D, hp, hu]
  · intro a m hmem
    rw [eY] at hmem
    exact (deliver_invariant (YMainGimbalCtrl.ProcessMouse2D K) (fun t => t.ctrl = 0)
      (fun e => ∀ a m, e = Effect.IncMainYGimbal a m → a = 0)
      (fun c => Int.land c.event K.PANEL_MOUSE_LBDOWN = 0)
      (fun t c ht hc => YMainGimbalCtrl.idle_step_yaw K t c ht hc)
      later _ rfl hlater).2 _ hmem a m rfl
  · simp [ScramGimbalCtrl.ProcessMouse2D, hp, hu]
  · intro a m hmem
    rw [eS] at hmem
    exact (deliver_invariant (ScramGimbalCtrl.ProcessMouse2D K) (fun t => t.ctrl = 0)
      (fun e => ∀ a m, e = Effect.IncScramGimbal a m → a = 0)
      (fun c => Int.land c.event K.PANEL_MOUSE_LBDOWN = 0)
      (fun t c ht hc => ScramGimbalCtrl.idle_step_scram K t c ht hc)
      later _ rfl hlater).2 _ hmem a m rfl
  · simp [HoverBalanceCtrl.ProcessMouse2D, hp, hu]
  · intro m hmem
    rw [eH] at hmem
    exact (deliver_invariant (HoverBalanceCtrl.ProcessMouse2D K) (fun t => t.mode = 0)
      (fun e => ∀ m, e = Effect.ShiftHoverBalance m → m = 0)
      (fun c => Int.land c.event K.PANEL_MOUSE_LBDOWN = 0)
      (fun t c ht hc => HoverBalanceCtrl.idle_step_hover K t c ht hc)
      later _ rfl hlater).2 _ hmem m rfl

/-- Witness of C10: latch `(ctrl, mode) = (3, 2)`, release mask 4, followed by a
held-button tick (mask 0) and a second release: the latch becomes `(0, 2)`. -/
theorem release_clears_latch_witness :
    (PMainGimbalCtrl.ProcessMouse2D sdkMasks true ⟨3, 2⟩ 4 12 30).state = ⟨0, 2⟩ :=
  (release_clears_latch sdkMasks true ⟨3, 2⟩ ⟨2⟩ 4 12 30
    [⟨0, 12, 30, true⟩, ⟨4, 12, 30, false⟩] (by decide) (by decide) (by decide)).1.1

/-- For a non-negative argument `modf` is the fractional part. -/
theorem modf_of_nonneg (x : ℚ) (h : 0 ≤ x) : modf x = Int.fract x := by
  unfold modf
  rw [if_pos h]
  exact Int.self_sub_floor x

/-- The literal `0.5` of the source is one half. -/
theorem half_literal : (0.5 : ℚ) = 1 / 2 := by norm_num

/-- In a transitional door state the gear indicator selects 1042 while the fractional
part of the `double` sum of time and phase offset is below one half, and 1020
otherwise. -/
theorem GearIndicator.xofs_transitional (simt tofs : ℚ) (hx : 0 ≤ simt + tofs)
    (action : DoorStatus)
    (ha : action = DoorStatus.DOOR_OPENING ∨ action = DoorStatus.DOOR_CLOSING) :
    GearIndicator.xofs simt tofs action =
      if Int.fract (f64 (simt + tofs)) < 1 / 2 then 1042 else 1020 := by
  have h : GearIndicator.xofs simt tofs action =
      if modf (f64 (simt + tofs)) < 0.5 then 1042 else 1020 := by
    rcases ha with rfl | rfl <;> rfl
  rw [h, modf_of_nonneg _ (f64_nonneg _ hx), half_literal]

/-- In a transitional door state the nosecone indicator selects 1040 while the
fractional part of the `double` sum of time and phase offset is below one half, and
1014 otherwise. -/
theorem NoseconeIndicator.xofs_transitional_nose (simt tofs : ℚ) (hx : 0 ≤ simt + tofs)
    (action : DoorStatus)
    (ha : action = DoorStatus.DOOR_OPENING ∨ action = DoorStatus.DOOR_CLOSING) :
    NoseconeIndicator.xofs simt tofs action =
      if Int.fract (f64 (simt + tofs)) < 1 / 2 then 1040 else 1014 := by
  have h : NoseconeIndicator.xofs simt tofs action =
      if modf (f64 (simt + tofs)) < 0.5 then 1040 else 1014 := by
    rcases ha with rfl | rfl <;> rfl
  rw [h, modf_of_nonneg _ (f64_nonneg _ hx), half_literal]

/-- After the loop body has run for button `i`, the cache entry of `i` is the
observed state of `i`. -/
theorem SwitchArray.redrawButton_self (texw : ℚ) (G : Nat → Bool) (dg : Scout) (vtxofs : Nat)
    (acc : (Fin 8 → Int) × List NTVERTEX) (i : Fin 8) :
    (SwitchArray.redrawButton texw G dg vtxofs acc i).1 i = SwitchArray.observed G dg i.val := by
  unfold SwitchArray.redrawButton
  by_cases h : SwitchArray.observed G dg i.val ≠ acc.1 i
  · simp [h]
  · have h2 : SwitchArray.observed G dg i.val = acc.1 i := not_not.mp h
    simp [h2]

/-- The loop body for button `i` keeps every cache entry that already agrees with
the observed state. -/
theorem SwitchArray.redrawButton_keeps (texw : ℚ) (G : Nat → Bool) (dg : Scout) (vtxofs : Nat)
    (acc : (Fin 8 → Int) × List NTVERTEX) (i k : Fin 8)
    (hk : acc.1 k = SwitchArray.observed G dg k.val) :
    (SwitchArray.redrawButton texw G dg vtxofs acc i).1 k = SwitchArray.observed G dg k.val := by
  by_cases hik : k = i
  · subst hik
    exact SwitchArray.redrawButton_self texw G dg vtxofs acc k
  · unfold SwitchArray.redrawButton
    by_cases h : SwitchArray.observed G dg i.val ≠ acc.1 i
    · simp [h, Function.update_noteq hik, hk]
    · simp [h, hk]

/-- The loop body for button `i` is the identity when the cache entry of `i`
agrees with the observed state. -/
theorem SwitchArray.redrawButton_fixed (texw : ℚ) (G : Nat → Bool) (dg : Scout) (vtxofs : Nat)
    (acc : (Fin 8 → Int) × List NTVERTEX) (i : Fin 8)
    (hi : acc.1 i = SwitchArray.observed G dg i.val) :
    SwitchArray.redrawButton texw G dg vtxofs acc i = acc := by
  unfold SwitchArray.redrawButton
  simp [hi]

/-- After the loop has run over a list of buttons, every button of the list, and every
button whose cache entry agreed before, has its cache entry equal to the observed state. -/
theorem SwitchArray.loop_cache (texw : ℚ) (G : Nat → Bool) (dg : Scout) (vtxofs : Nat) :
    ∀ (l : List (Fin 8)) (acc : (Fin 8 → Int) × List NTVERTEX) (k : Fin 8),
      (k ∈ l ∨ acc.1 k = SwitchArray.observed G dg k.val) →
      (l.foldl (SwitchArray.redrawButton texw G dg vtxofs) acc).1 k =
        SwitchArray.observed G dg k.val := by
  intro l
  induction l with
  | nil =>
    intro acc k h
    rcases h with h | h
    · simp at h
    · simpa using h
  | cons i l ih =>
    intro acc k h
    simp only [List.foldl_cons]
    apply ih
    rcases h with h | h
    · rcases List.mem_cons.mp h with h | h
      · right
        subst h
        exact SwitchArray.redrawButton_self texw G dg vtxofs acc k
      · exact Or.inl h
    · exact Or.inr (SwitchArray.redrawButton_keeps texw G dg vtxofs acc i k h)

/-- The loop is the identity when every cache entry agrees with the observed state. -/
theorem SwitchArray.loop_fixed (texw : ℚ) (G : Nat → Bool) (dg : Scout) (vtxofs : Nat) :
    ∀ (l : List (Fin 8)) (acc : (Fin 8 → Int) × List NTVERTEX),
      (∀ k, acc.1 k = SwitchArray.observed G dg k.val) →
      l.foldl (SwitchArray.redrawButton texw G dg vtxofs) acc = acc := by
  intro l
  induction l with
  | nil => intro acc _; rfl
  | cons i l ih =>
    intro acc h
    simp only [List.foldl_cons]
    rw [SwitchArray.redrawButton_fixed texw G dg vtxofs acc i (h i)]
    exact ih acc h

/-- After `SwitchArray::Redraw2D` every cache entry is the observed state. -/
theorem SwitchArray.Redraw2D_cache (texw : ℚ) (G : Nat → Bool) (dg : Scout)
    (self : SwitchArray) (Vtx : List NTVERTEX) (k : Fin 8) :
    (SwitchArray.Redraw2D texw G dg self Vtx).1.btnstate k =
      SwitchArray.observed G dg k.val := by
  unfold SwitchArray.Redraw2D
  exact SwitchArray.loop_cache texw G dg self.vtxofs (List.finRange 8) _ k
    (Or.inl (List.mem_finRange k))

/-- C5: calling `SwitchArray::Redraw2D` twice with the vessel state unchanged in
between, the second call changes no vertex and no `btnstate` entry (nor `vtxofs`),
for every vessel state, cached `btnstate` and vertex buffer. -/
theorem SwitchArray_Redraw2D_idempotent (texw : ℚ) (GetBeaconState : Nat → Bool) (dg : Scout)
    (self : SwitchArray) (Vtx : List NTVERTEX) :
    SwitchArray.Redraw2D texw GetBeaconState dg
        (SwitchArray.Redraw2D texw GetBeaconState dg self Vtx).1
        (SwitchArray.Redraw2D texw GetBeaconState dg self Vtx).2.1 =
      SwitchArray.Redraw2D texw GetBeaconState dg self Vtx := by
  have hc : ∀ k : Fin 8,
      ((List.finRange 8).foldl (SwitchArray.redrawButton texw GetBeaconState dg self.vtxofs)
        (self.btnstate, Vtx)).1 k = SwitchArray.observed GetBeaconState dg k.val :=
    fun k => SwitchArray.loop_cache texw GetBeaconState dg self.vtxofs (List.finRange 8) _ k
      (Or.inl (List.mem_finRange k))
  simp only [SwitchArray.Redraw2D, Prod.mk.eta]
  rw [SwitchArray.loop_fixed texw GetBeaconState dg self.vtxofs (List.finRange 8) _ hc]

/-- C6 amended: `SwitchArray::Redraw2D` returns `false` for every vessel state,
cached `btnstate` and vertex buffer, whether or not a button was patched; what it
observed is recorded in the cache: afterwards `btnstate[i]` is the observed state of
every button `i`. -/
theorem SwitchArray_Redraw2D_returns_false (texw : ℚ) (GetBeaconState : Nat → Bool)
    (dg : Scout) (self : SwitchArray) (Vtx : List NTVERTEX) :
    (SwitchArray.Redraw2D texw GetBeaconState dg self Vtx).2.2 = false ∧
    ∀ i : Fin 8, (SwitchArray.Redraw2D texw GetBeaconState dg self Vtx).1.btnstate i =
      SwitchArray.observed GetBeaconState dg i.val :=
  ⟨rfl, SwitchArray.Redraw2D_cache texw GetBeaconState dg self Vtx⟩

/-- C6, as stated, fails: with the navigation light on and a fresh cache, button 0
differs from its cache entry and its first vertex is patched (`tu` goes from 0 to
`964/2048`), yet `SwitchArray::Redraw2D` returns `false`. -/
theorem SwitchArray_Redraw2D_return_counterexample :
    SwitchArray.observed navLightOn restVessel 0 ≠ freshSwitchArray.btnstate 0 ∧
    ((SwitchArray.Redraw2D 2048 navLightOn restVessel freshSwitchArray
        (List.replicate 32 zeroVertex)).2.1[0]?).map NTVERTEX.tu = some (964 / 2048) ∧
    ((List.replicate 32 zeroVertex)[0]?).map NTVERTEX.tu = some 0 ∧
    ¬ ((SwitchArray.Redraw2D 2048 navLightOn restVessel freshSwitchArray
          (List.replicate 32 zeroVertex)).2.2 = true ↔
        ∃ i : Fin 8, SwitchArray.observed navLightOn restVessel i.val ≠
          freshSwitchArray.btnstate i) := by
  refine ⟨by decide, ?_, by simp [zeroVertex], ?_⟩
  · have hfr : List.finRange 8 = (0 : Fin 8) :: [1, 2, 3, 4, 5, 6, 7] := by decide
    have hne : SwitchArray.observed navLightOn restVessel (0 : Fin 8).val ≠
        freshSwitchArray.btnstate 0 := by decide
    have hacc : ∀ k : Fin 8,
        (SwitchArray.redrawButton 2048 navLightOn restVessel freshSwitchArray.vtxofs
          (freshSwitchArray.btnstate, List.replicate 32 zeroVertex) 0).1 k =
        SwitchArray.observed navLightOn restVessel k.val := by
      intro k
      by_cases hk : k = 0
      · subst hk
        exact SwitchArray.redrawButton_self _ _ _ _ _ _
      · refine SwitchArray.redrawButton_keeps _ _ _ _ _ 0 k ?_
        revert k
        decide
    unfold SwitchArray.Redraw2D
    rw [hfr, List.foldl_cons, SwitchArray.loop_fixed _ _ _ _ _ _ hacc]
    simp only [SwitchArray.redrawButton, hne, ne_eq, not_false_eq_true, if_true, setTu]
    rw [modify_loop (fun (j : Nat) (p : NTVERTEX) => { p with tu :=
      (SwitchArray.tx_x0 + ((((j % 2 : Nat) : Int) -
        SwitchArray.observed navLightOn restVessel (0 : Fin 8).val : Int) : ℚ) *
          SwitchArray.tx_dx) / 2048 })]
    simp [freshSwitchArray, SwitchArray.observed, navLightOn, SwitchArray.tx_x0,
      SwitchArray.tx_x1, SwitchArray.tx_dx]
  · intro h
    have h2 := h.mpr ⟨0, by decide⟩
    exact absurd h2 (by decide)

/-- Vertex `n` after `GearIndicator::Redraw2D`: inside the widget's 12 vertices its
`tu` is `(xofs + (j mod 2)*10)/texw` with `j` its corner number, everything else is
as before. -/
theorem GearIndicator.Redraw2D_vertex (texw simt tofs : ℚ) (dg : Scout) (vtxofs : Nat)
    (Vtx : List NTVERTEX) (n : Nat) :
    (GearIndicator.Redraw2D texw simt tofs dg vtxofs Vtx).1[n]? =
      if vtxofs ≤ n ∧ n < vtxofs + 12 then
        (Vtx[n]?).map (fun p => { p with tu :=
          ((GearIndicator.xofs simt tofs dg.gear_status +
            (((n - vtxofs) % 4 % 2 : Nat) : Int) * 10 : Int) : ℚ) / texw })
      else Vtx[n]? := by
  unfold GearIndicator.Redraw2D
  rw [show List.range 3 = [0, 1, 2] from rfl]
  simp only [List.foldl_cons, List.foldl_nil, setTu]
  rw [modify_loop (fun (j : Nat) (p : NTVERTEX) => { p with tu :=
      ((GearIndicator.xofs simt tofs dg.gear_status + ((j % 2 : Nat) : Int) * 10 : Int) : ℚ)
        / texw }) (vtxofs + 2 * 4) 4,
    modify_loop (fun (j : Nat) (p : NTVERTEX) => { p with tu :=
      ((GearIndicator.xofs simt tofs dg.gear_status + ((j % 2 : Nat) : Int) * 10 : Int) : ℚ)
        / texw }) (vtxofs + 1 * 4) 4,
    modify_loop (fun (j : Nat) (p : NTVERTEX) => { p with tu :=
      ((GearIndicator.xofs simt tofs dg.gear_status + ((j % 2 : Nat) : Int) * 10 : Int) : ℚ)
        / texw }) (vtxofs + 0 * 4) 4]
  by_cases h0 : vtxofs + 0 * 4 ≤ n ∧ n < vtxofs + 0 * 4 + 4
  · have h1 : ¬ (vtxofs + 1 * 4 ≤ n ∧ n < vtxofs + 1 * 4 + 4) := by omega
    have h2 : ¬ (vtxofs + 2 * 4 ≤ n ∧ n < vtxofs + 2 * 4 + 4) := by omega
    have h3 : vtxofs ≤ n ∧ n < vtxofs + 12 := by omega
    have h4 : (n - vtxofs) % 4 = n - (vtxofs + 0 * 4) := by omega
    rw [if_neg h2, if_neg h1, if_pos h0, if_pos h3, h4]
  · by_cases h1 : vtxofs + 1 * 4 ≤ n ∧ n < vtxofs + 1 * 4 + 4
    · have h2 : ¬ (vtxofs + 2 * 4 ≤ n ∧ n < vtxofs + 2 * 4 + 4) := by omega
      have h3 : vtxofs ≤ n ∧ n < vtxofs + 12 := by omega
      have h4 : (n - vtxofs) % 4 = n - (vtxofs + 1 * 4) := by omega
      rw [if_neg h2, if_pos h1, if_neg h0, if_pos h3, h4]
    · by_cases h2 : vtxofs + 2 * 4 ≤ n ∧ n < vtxofs + 2 * 4 + 4
      · have h3 : vtxofs ≤ n ∧ n < vtxofs + 12 := by omega
        have h4 : (n - vtxofs) % 4 = n - (vtxofs + 2 * 4) := by omega
        rw [if_pos h2, if_neg h1, if_neg h0, if_pos h3, h4]
      · have h3 : ¬ (vtxofs ≤ n ∧ n < vtxofs + 12) := by omega
        rw [if_neg h2, if_neg h1, if_neg h0, if_neg h3]

/-- The function `GearIndicator::Redraw2D` keeps the length of the vertex buffer. -/
theorem GearIndicator.Redraw2D_length (texw simt tofs : ℚ) (dg : Scout) (vtxofs : Nat)
    (Vtx : List NTVERTEX) :
    (GearIndicator.Redraw2D texw simt tofs dg vtxofs Vtx).1.length = Vtx.length := by
  unfold GearIndicator.Redraw2D
  rw [show List.range 3 = [0, 1, 2] from rfl]
  simp only [List.foldl_cons, List.foldl_nil, setTu]
  rw [modify_loop_length, modify_loop_length, modify_loop_length]

/-- C9: in the steady door states `GearIndicator::Redraw2D` uses a fixed offset,
1018 for DOOR_CLOSED and 1030 for DOOR_OPEN, whatever the simulation time and the
phase; after the redraw each of the 12 vertices (quad `i`, corner `j`) is the vertex
it was with `tu` replaced by `(xofs + (j mod 2)*10)/texw`, and nothing else in the
buffer is modified. The table emitted by `AddMeshData2D` has these 12 vertices. -/
theorem GearIndicator_steady_lookup (texw texh simt tofs : ℚ) (dg : Scout) (vtxofs : Nat)
    (Vtx : List NTVERTEX)
    (hs : dg.gear_status = DoorStatus.DOOR_CLOSED ∨ dg.gear_status = DoorStatus.DOOR_OPEN)
    (hlen : vtxofs + 12 ≤ Vtx.length) :
    let X : Int := if dg.gear_status = DoorStatus.DOOR_CLOSED then 1018 else 1030
    GearIndicator.xofs simt tofs dg.gear_status = X ∧
    (∀ simt1 tofs1 : ℚ, GearIndicator.Redraw2D texw simt1 tofs1 dg vtxofs Vtx =
      GearIndicator.Redraw2D texw simt tofs dg vtxofs Vtx) ∧
    (∀ i j : Nat, i < 3 → j < 4 → ∃ v : NTVERTEX, Vtx[vtxofs + i * 4 + j]? = some v ∧
      (GearIndicator.Redraw2D texw simt tofs dg vtxofs Vtx).1[vtxofs + i * 4 + j]? =
        some { v with tu := ((X + ((j % 2 : Nat) : Int) * 10 : Int) : ℚ) / texw }) ∧
    (∀ n : Nat, n < vtxofs ∨ vtxofs + 12 ≤ n →
      (GearIndicator.Redraw2D texw simt tofs dg vtxofs Vtx).1[n]? = Vtx[n]?) ∧
    (GearIndicator.Redraw2D texw simt tofs dg vtxofs Vtx).1.length = Vtx.length ∧
    (GearIndicator.VTX texw texh).length = 12 := by
  intro X
  have hX : ∀ a b : ℚ, GearIndicator.xofs a b dg.gear_status = X := by
    intro a b
    show GearIndicator.xofs a b dg.gear_status =
      if dg.gear_status = DoorStatus.DOOR_CLOSED then 1018 else 1030
    rcases hs with h | h
    · rw [h, if_pos rfl]
      rfl
    · rw [h, if_neg (by decide)]
      rfl
  refine ⟨hX simt tofs, ?_, ?_, ?_, GearIndicator.Redraw2D_length _ _ _ _ _ _, rfl⟩
  · intro simt1 tofs1
    unfold GearIndicator.Redraw2D
    simp only [hX]
  · intro i j hi hj
    have hlt : vtxofs + i * 4 + j < Vtx.length := by omega
    refine ⟨Vtx[vtxofs + i * 4 + j], List.getElem?_eq_getElem hlt, ?_⟩
    have hin : vtxofs ≤ vtxofs + i * 4 + j ∧ vtxofs + i * 4 + j < vtxofs + 12 := by omega
    have hj2 : (vtxofs + i * 4 + j - vtxofs) % 4 % 2 = j % 2 := by omega
    rw [GearIndicator.Redraw2D_vertex, if_pos hin, List.getElem?_eq_getElem hlt, hj2, hX]
    rfl
  · intro n hn
    have hout : ¬ (vtxofs ≤ n ∧ n < vtxofs + 12) := by omega
    rw [GearIndicator.Redraw2D_vertex, if_neg hout]

/-- Witness of C9: gear closed, the buffer is the table emitted by `AddMeshData2D`
(texture 2048 x 1024) at offset 0; the offset selected is 1018. -/
theorem GearIndicator_steady_lookup_witness :
    restVessel.gear_status = DoorStatus.DOOR_CLOSED ∧
    0 + 12 ≤ (GearIndicator.VTX 2048 1024).length ∧
    GearIndicator.xofs 7 (1 / 3) restVessel.gear_status = 1018 :=
  ⟨rfl, by decide,
    (GearIndicator_steady_lookup 2048 1024 7 (1 / 3) restVessel 0 (GearIndicator.VTX 2048 1024)
      (Or.inl rfl) (by decide)).1⟩

/-- Vertex `n` after `GearLever::Redraw2D`: vertices `vtxofs+2` and `vtxofs+3` get
the lever `y`, everything else is as before. -/
theorem GearLever.Redraw2D_vertex_lever (dg : Scout) (vtxofs : Nat) (Vtx : List NTVERTEX)
    (n : Nat) :
    (GearLever.Redraw2D dg vtxofs Vtx).1[n]? =
      if n = vtxofs + 2 ∨ n = vtxofs + 3 then
        (Vtx[n]?).map (fun p => { p with y :=
          if dg.gear_status = DoorStatus.DOOR_OPEN ∨ dg.gear_status = DoorStatus.DOOR_OPENING
          then 502 else 326 })
      else Vtx[n]? := by
  have hy : (if (decide (dg.gear_status = DoorStatus.DOOR_OPENING) ||
        decide (dg.gear_status = DoorStatus.DOOR_OPEN)) = true
      then GearLever.bb_y0 + GearLever.tx_dx else GearLever.bb_y0) =
      (if dg.gear_status = DoorStatus.DOOR_OPEN ∨ dg.gear_status = DoorStatus.DOOR_OPENING
        then (502 : ℚ) else 326) := by
    cases dg.gear_status <;> simp [GearLever.bb_y0, GearLever.tx_dx] <;> norm_num
  simp only [GearLever.Redraw2D, setY, hy]
  rw [List.getElem?_modify, List.getElem?_modify]
  by_cases h2 : vtxofs + 2 = n
  · have h3 : ¬ vtxofs + 3 = n := by omega
    have h4 : n = vtxofs + 2 ∨ n = vtxofs + 3 := by omega
    simp [h2, h3, h4]
  · by_cases h3 : vtxofs + 3 = n
    · have h4 : n = vtxofs + 2 ∨ n = vtxofs + 3 := by omega
      simp [h2, h3, h4]
    · have h4 : ¬ (n = vtxofs + 2 ∨ n = vtxofs + 3) := by omega
      simp [h2, h3, h4]

/-- Vertex `n` after `NoseconeLever::Redraw2D`: the four vertices of the widget get
the `y` and `tv` of the lever position, everything else is as before. -/
theorem NoseconeLever.Redraw2D_vertex_nose (texh : ℚ) (dg : Scout) (vtxofs : Nat)
    (Vtx : List NTVERTEX) (n : Nat) :
    (NoseconeLever.Redraw2D texh dg vtxofs Vtx).1[n]? =
      if vtxofs ≤ n ∧ n < vtxofs + 4 then
        (Vtx[n]?).map (fun p =>
          if dg.nose_status = DoorStatus.DOOR_OPEN ∨ dg.nose_status = DoorStatus.DOOR_OPENING
          then { p with y := 400.5 + (((n - vtxofs) / 2 : Nat) : ℚ) * 21
                        tv := (texh - 677.5 + (((n - vtxofs) / 2 : Nat) : ℚ) * 21) / texh }
          else { p with y := 326.5 + (((n - vtxofs) / 2 : Nat) : ℚ) * 19
                        tv := (texh - 696.5 + (((n - vtxofs) / 2 : Nat) : ℚ) * 19) / texh })
      else Vtx[n]? := by
  simp only [NoseconeLever.Redraw2D, setY, setTv, List.modify_modify_eq]
  rw [modify_loop]
  by_cases hin : vtxofs ≤ n ∧ n < vtxofs + 4
  · rw [if_pos hin, if_pos hin]
    congr 1
    funext p
    cases dg.nose_status <;> simp
  · rw [if_neg hin, if_neg hin]

/-- C7: `GearLever::Redraw2D` writes `y = 502` to vertices 2 and 3 when the gear is
OPEN or OPENING and `y = 326` when it is CLOSED or CLOSING; `NoseconeLever::Redraw2D`
writes to vertex `j` the pair `(y, tv) = (400.5 + (j/2)*21, (texh-677.5 + (j/2)*21)/texh)`
when the nosecone is OPEN or OPENING and `(326.5 + (j/2)*19, (texh-696.5 + (j/2)*19)/texh)`
when it is CLOSED or CLOSING. The written values are the same for every prior buffer,
and the lever-down values differ from the lever-up values. -/
theorem lever_two_positions (texh : ℚ) (dg : Scout) (vtxofs : Nat) (Vtx : List NTVERTEX)
    (hlen : vtxofs + 4 ≤ Vtx.length) :
    (∀ k : Nat, k = 2 ∨ k = 3 →
      ((GearLever.Redraw2D dg vtxofs Vtx).1[vtxofs + k]?).map NTVERTEX.y =
        some (if dg.gear_status = DoorStatus.DOOR_OPEN ∨
                 dg.gear_status = DoorStatus.DOOR_OPENING then 502 else 326)) ∧
    (∀ j : Nat, j < 4 →
      ((NoseconeLever.Redraw2D texh dg vtxofs Vtx).1[vtxofs + j]?).map
          (fun p => (p.y, p.tv)) =
        some (if dg.nose_status = DoorStatus.DOOR_OPEN ∨
                 dg.nose_status = DoorStatus.DOOR_OPENING
              then (400.5 + ((j / 2 : Nat) : ℚ) * 21,
                    (texh - 677.5 + ((j / 2 : Nat) : ℚ) * 21) / texh)
              else (326.5 + ((j / 2 : Nat) : ℚ) * 19,
                    (texh - 696.5 + ((j / 2 : Nat) : ℚ) * 19) / texh))) ∧
    (∀ dg2 : Scout,
      (dg.gear_status = DoorStatus.DOOR_OPEN ∨ dg.gear_status = DoorStatus.DOOR_OPENING) →
      (dg2.gear_status = DoorStatus.DOOR_CLOSED ∨ dg2.gear_status = DoorStatus.DOOR_CLOSING) →
      ((GearLever.Redraw2D dg vtxofs Vtx).1[vtxofs + 2]?).map NTVERTEX.y ≠
        ((GearLever.Redraw2D dg2 vtxofs Vtx).1[vtxofs + 2]?).map NTVERTEX.y) ∧
    (∀ dg2 : Scout,
      (dg.nose_status = DoorStatus.DOOR_OPEN ∨ dg.nose_status = DoorStatus.DOOR_OPENING) →
      (dg2.nose_status = DoorStatus.DOOR_CLOSED ∨ dg2.nose_status = DoorStatus.DOOR_CLOSING) →
      ∀ j : Nat, j < 4 →
        ((NoseconeLever.Redraw2D texh dg vtxofs Vtx).1[vtxofs + j]?).map NTVERTEX.y ≠
          ((NoseconeLever.Redraw2D texh dg2 vtxofs Vtx).1[vtxofs + j]?).map NTVERTEX.y) := by
  have hgear : ∀ (d : Scout) (k : Nat), k = 2 ∨ k = 3 →
      ((GearLever.Redraw2D d vtxofs Vtx).1[vtxofs + k]?).map NTVERTEX.y =
        some (if d.gear_status = DoorStatus.DOOR_OPEN ∨
                 d.gear_status = DoorStatus.DOOR_OPENING then 502 else 326) := by
    intro d k hk
    have hlt : vtxofs + k < Vtx.length := by omega
    have hin : vtxofs + k = vtxofs + 2 ∨ vtxofs + k = vtxofs + 3 := by omega
    rw [GearLever.Redraw2D_vertex_lever, if_pos hin, List.getElem?_eq_getElem hlt]
    rfl
  have hnose : ∀ (d : Scout) (j : Nat), j < 4 →
      (NoseconeLever.Redraw2D texh d vtxofs Vtx).1[vtxofs + j]? =
        some (if d.nose_status = DoorStatus.DOOR_OPEN ∨
                 d.nose_status = DoorStatus.DOOR_OPENING
          then { Vtx[vtxofs + j]?.getD zeroVertex with
                   y := 400.5 + ((j / 2 : Nat) : ℚ) * 21
                   tv := (texh - 677.5 + ((j / 2 : Nat) : ℚ) * 21) / texh }
          else { Vtx[vtxofs + j]?.getD zeroVertex with
                   y := 326.5 + ((j / 2 : Nat) : ℚ) * 19
                   tv := (texh - 696.5 + ((j / 2 : Nat) : ℚ) * 19) / texh }) := by
    intro d j hj
    have hlt : vtxofs + j < Vtx.length := by omega
    have hin : vtxofs ≤ vtxofs + j ∧ vtxofs + j < vtxofs + 4 := by omega
    have hsub : vtxofs + j - vtxofs = j := by omega
    rw [NoseconeLever.Redraw2D_vertex_nose, if_pos hin, List.getElem?_eq_getElem hlt, hsub]
    simp
  refine ⟨hgear dg, ?_, ?_, ?_⟩
  · intro j hj
    rw [hnose dg j hj]
    by_cases hd : dg.nose_status = DoorStatus.DOOR_OPEN ∨
        dg.nose_status = DoorStatus.DOOR_OPENING
    · simp only [if_pos hd, Option.map_some']
    · simp only [if_neg hd, Option.map_some']
  · intro dg2 h1 h2
    have h3 : ¬ (dg2.gear_status = DoorStatus.DOOR_OPEN ∨
        dg2.gear_status = DoorStatus.DOOR_OPENING) := by
      rcases h2 with h2 | h2 <;> rw [h2] <;> decide
    rw [hgear dg 2 (Or.inl rfl), hgear dg2 2 (Or.inl rfl), if_pos h1, if_neg h3]
    norm_num
  · intro dg2 h1 h2 j hj
    have h3 : ¬ (dg2.nose_status = DoorStatus.DOOR_OPEN ∨
        dg2.nose_status = DoorStatus.DOOR_OPENING) := by
      rcases h2 with h2 | h2 <;> rw [h2] <;> decide
    rw [hnose dg j hj, hnose dg2 j hj, if_pos h1, if_neg h3]
    simp only [Option.map_some', ne_eq, Option.some.injEq]
    have hj2 : ((j / 2 : Nat) : ℚ) = 0 ∨ ((j / 2 : Nat) : ℚ) = 1 := by
      have : j / 2 = 0 ∨ j / 2 = 1 := by omega
      rcases this with h | h <;> simp [h]
    rcases hj2 with h | h <;> rw [h] <;> norm_num

/-- Witness of C7: gear and nosecone closed, a buffer of four vertices at offset 0:
vertex 2 of the gear lever gets the lever-up `y = 326`. -/
theorem lever_two_positions_witness :
    0 + 4 ≤ (List.replicate 4 zeroVertex).length ∧
    ((GearLever.Redraw2D restVessel 0 (List.replicate 4 zeroVertex)).1[0 + 2]?).map
      NTVERTEX.y = some 326 :=
  ⟨by decide,
    (lever_two_positions 1024 restVessel 0 (List.replicate 4 zeroVertex) (by decide)).1 2
      (Or.inl rfl)⟩

/-- Two nested counted loops that modify element `b + i*w + j` by `g i j` change exactly
the elements `b, ..., b + c*w - 1`, element `n` by `g ((n-b)/w) ((n-b) mod w)`. -/
theorem modify_loop2 {α : Type} (g : Nat → Nat → α → α) (b w : Nat) (hw : 0 < w) :
    ∀ (c : Nat) (V : List α) (n : Nat),
      ((List.range c).foldl (fun V i =>
          (List.range w).foldl (fun W j => W.modify (g i j) (b + i * w + j)) V) V)[n]? =
        if b ≤ n ∧ n < b + c * w then (V[n]?).map (g ((n - b) / w) ((n - b) % w))
        else V[n]? := by
  intro c
  induction c with
  | zero =>
    intro V n
    have : ¬ (b ≤ n ∧ n < b + 0 * w) := by omega
    rw [if_neg this]
    rfl
  | succ c ih =>
    intro V n
    rw [List.range_succ, List.foldl_append]
    simp only [List.foldl_cons, List.foldl_nil]
    rw [modify_loop (g c) (b + c * w) w, ih]
    have hmul : (c + 1) * w = c * w + w := by ring
    rw [hmul]
    by_cases h1 : b + c * w ≤ n ∧ n < b + c * w + w
    · have h2 : ¬ (b ≤ n ∧ n < b + c * w) := by omega
      have h3 : b ≤ n ∧ n < b + (c * w + w) := by omega
      have hr : n - b = w * c + (n - (b + c * w)) := by
        rw [Nat.mul_comm w c]
        omega
      have hlt : n - (b + c * w) < w := by omega
      have hdiv : (n - b) / w = c := by
        rw [hr, Nat.mul_add_div hw, Nat.div_eq_of_lt hlt, Nat.add_zero]
      have hmod : (n - b) % w = n - (b + c * w) := by
        rw [hr, Nat.mul_add_mod, Nat.mod_eq_of_lt hlt]
      rw [if_pos h1, if_neg h2, if_pos h3, hdiv, hmod]
    · by_cases h2 : b ≤ n ∧ n < b + c * w
      · have h3 : b ≤ n ∧ n < b + (c * w + w) := by omega
        rw [if_neg h1, if_pos h2, if_pos h3]
      · have h3 : ¬ (b ≤ n ∧ n < b + (c * w + w)) := by omega
        rw [if_neg h1, if_neg h2, if_neg h3]

/-- Two nested counted modification loops keep the length of the buffer. -/
theorem modify_loop2_length {α : Type} (g : Nat → Nat → α → α) (b w : Nat) :
    ∀ (c : Nat) (V : List α),
      ((List.range c).foldl (fun V i =>
          (List.range w).foldl (fun W j => W.modify (g i j) (b + i * w + j)) V) V).length =
        V.length := by
  intro c
  induction c with
  | zero => intro V; rfl
  | succ c ih =>
    intro V
    rw [List.range_succ, List.foldl_append]
    simp only [List.foldl_cons, List.foldl_nil]
    rw [modify_loop_length (g c) (b + c * w) w, ih]

/-- The element `b + i*w + j` after two nested counted loops, for `i < c` and `j < w`. -/
theorem modify_loop2_at {α : Type} (g : Nat → Nat → α → α) (b w c : Nat) (V : List α)
    (i j : Nat) (hi : i < c) (hj : j < w) :
    ((List.range c).foldl (fun V i =>
        (List.range w).foldl (fun W j => W.modify (g i j) (b + i * w + j)) V) V)[b + i * w + j]? =
      (V[b + i * w + j]?).map (g i j) := by
  have hw : 0 < w := by omega
  have hle : (i + 1) * w ≤ c * w := Nat.mul_le_mul_right w hi
  have hmul : (i + 1) * w = i * w + w := by ring
  have hin : b ≤ b + i * w + j ∧ b + i * w + j < b + c * w := by omega
  have hr : b + i * w + j - b = w * i + j := by
    rw [Nat.mul_comm w i]
    omega
  have hdiv : (b + i * w + j - b) / w = i := by
    rw [hr, Nat.mul_add_div hw, Nat.div_eq_of_lt hj, Nat.add_zero]
  have hmod : (b + i * w + j - b) % w = j := by
    rw [hr, Nat.mul_add_mod, Nat.mod_eq_of_lt hj]
  rw [modify_loop2 g b w hw, if_pos hin, hdiv, hmod]

/-- C11: `YMainGimbalMode::ProcessMouse2D` returns `true` if and only if `my` lies in
one of the three mode zones (`my < 12`, `17 ≤ my < 29`, `my ≥ 34`), for every value of
`mymode`; for `my` in the gaps `12..16` and `29..33` it leaves the vessel, and so
`mymode`, unchanged and returns `false`. -/
theorem YMainGimbalMode_consumed_iff_zone (dg : Scout) (event mx my : Int) :
    ((YMainGimbalMode.ProcessMouse2D dg event mx my).2 = true ↔
      (my < 12 ∨ (17 ≤ my ∧ my < 29) ∨ 34 ≤ my)) ∧
    (((12 ≤ my ∧ my ≤ 16) ∨ (29 ≤ my ∧ my ≤ 33)) →
      YMainGimbalMode.ProcessMouse2D dg event mx my = (dg, false)) := by
  by_cases h1 : my < 12
  · have hg : ¬ ((12 ≤ my ∧ my ≤ 16) ∨ (29 ≤ my ∧ my ≤ 33)) := by omega
    refine ⟨?_, fun h => absurd h hg⟩
    by_cases hm : dg.mymode = 1 <;> simp [YMainGimbalMode.ProcessMouse2D, h1, hm]
  · by_cases h2 : 17 ≤ my ∧ my < 29
    · have hg : ¬ ((12 ≤ my ∧ my ≤ 16) ∨ (29 ≤ my ∧ my ≤ 33)) := by omega
      refine ⟨?_, fun h => absurd h hg⟩
      by_cases hm : dg.mymode = 2 <;> simp [YMainGimbalMode.ProcessMouse2D, h1, h2, hm]
    · by_cases h3 : 34 ≤ my
      · have hg : ¬ ((12 ≤ my ∧ my ≤ 16) ∨ (29 ≤ my ∧ my ≤ 33)) := by omega
        refine ⟨?_, fun h => absurd h hg⟩
        by_cases hm : dg.mymode = 3 <;>
          simp [YMainGimbalMode.ProcessMouse2D, h1, h2, h3, hm]
      · have hz : ¬ (my < 12 ∨ (17 ≤ my ∧ my < 29) ∨ 34 ≤ my) := by omega
        have h2' : ¬ (my ≥ 17 ∧ my < 29) := h2
        have h3' : ¬ (my ≥ 34) := h3
        have hR : YMainGimbalMode.ProcessMouse2D dg event mx my = (dg, false) := by
          simp [YMainGimbalMode.ProcessMouse2D, h1, h2', h3']
        refine ⟨?_, fun _ => hR⟩
        rw [hR]
        simp [hz]

/-- Witness of C11: a click at `my = 14`, in the gap between zones 1 and 2, with
`mymode = 0`: nothing changes and the handler returns `false`. -/
theorem YMainGimbalMode_consumed_iff_zone_witness :
    YMainGimbalMode.ProcessMouse2D restVessel 1 5 14 = (restVessel, false) :=
  (YMainGimbalMode_consumed_iff_zone restVessel 1 5 14).2 (Or.inl (by decide))

/-- One press of a centre button replaces an `int` mode `m` by `1 - m` in 32-bit
arithmetic, and a second press brings `m` back. -/
theorem toggle_involution (m : Int) (h : -2147483648 ≤ m ∧ m ≤ 2147483647) :
    wrap32 (1 - wrap32 (1 - m)) = m := by
  unfold wrap32
  omega

/-- For a mode `m ≥ -2147483646` the difference `1 - m` fits an `int`. -/
theorem toggle_exact (m : Int) (h : -2147483646 ≤ m ∧ m ≤ 2147483647) :
    wrap32 (1 - m) = 1 - m := by
  unfold wrap32
  omega

/-- Any number of presses of the main pitch-gimbal centre button keeps `mpmode` in
`{0, 1}` and touches no other field. -/
theorem PMainGimbalCntr.presses_range (ps : List CntrPress) :
    ∀ dg : Scout, (dg.mpmode = 0 ∨ dg.mpmode = 1) →
      ((PMainGimbalCntr.presses dg ps).mpmode = 0 ∨ (PMainGimbalCntr.presses dg ps).mpmode = 1) ∧
      { PMainGimbalCntr.presses dg ps with mpmode := dg.mpmode } = dg := by
  induction ps with
  | nil => intro dg h; exact ⟨h, rfl⟩
  | cons c ps ih =>
    intro dg h
    have hstep : ∀ d : Scout, PMainGimbalCntr.presses d (c :: ps) =
        PMainGimbalCntr.presses { d with mpmode := wrap32 (1 - d.mpmode) } ps := by
      intro d
      cases c <;> rfl
    rw [hstep]
    have h1 : ({ dg with mpmode := wrap32 (1 - dg.mpmode) } : Scout).mpmode = 0 ∨
        ({ dg with mpmode := wrap32 (1 - dg.mpmode) } : Scout).mpmode = 1 := by
      show wrap32 (1 - dg.mpmode) = 0 ∨ wrap32 (1 - dg.mpmode) = 1
      unfold wrap32
      omega
    have h2 := ih _ h1
    refine ⟨h2.1, ?_⟩
    have h3 := congrArg (fun d : Scout => ({ d with mpmode := dg.mpmode } : Scout)) h2.2
    exact h3

/-- Any number of presses of the hover-balance centre button keeps `hbmode` in
`{0, 1}` and touches no other field. -/
theorem HoverBalanceCntr.presses_range_hover (ps : List (Int × Int × Int)) :
    ∀ dg : Scout, (dg.hbmode = 0 ∨ dg.hbmode = 1) →
      ((HoverBalanceCntr.presses dg ps).hbmode = 0 ∨ (HoverBalanceCntr.presses dg ps).hbmode = 1) ∧
      { HoverBalanceCntr.presses dg ps with hbmode := dg.hbmode } = dg := by
  induction ps with
  | nil => intro dg h; exact ⟨h, rfl⟩
  | cons c ps ih =>
    intro dg h
    have hstep : ∀ d : Scout, HoverBalanceCntr.presses d (c :: ps) =
        HoverBalanceCntr.presses { d with hbmode := wrap32 (1 - d.hbmode) } ps := fun _ => rfl
    rw [hstep]
    have h1 : ({ dg with hbmode := wrap32 (1 - dg.hbmode) } : Scout).hbmode = 0 ∨
        ({ dg with hbmode := wrap32 (1 - dg.hbmode) } : Scout).hbmode = 1 := by
      show wrap32 (1 - dg.hbmode) = 0 ∨ wrap32 (1 - dg.hbmode) = 1
      unfold wrap32
      omega
    have h2 := ih _ h1
    refine ⟨h2.1, ?_⟩
    have h3 := congrArg (fun d : Scout => ({ d with hbmode := dg.hbmode } : Scout)) h2.2
    exact h3

/-- C15 fails on the code at the least `int`: with `mpmode = -2147483648` one press of
`PMainGimbalCntr` (panel or cockpit) stores `-2147483647`, and with
`hbmode = -2147483648` one press of `HoverBalanceCntr` stores `-2147483647`, while
`1 - m` is `2147483649`, which no `int` holds. -/
theorem centre_button_toggle_counterexample :
    (PMainGimbalCntr.ProcessMouse2D { restVessel with mpmode := -2147483648 } 1 0 0).1.mpmode =
      -2147483647 ∧
    (PMainGimbalCntr.ProcessMouseVC { restVessel with mpmode := -2147483648 } 1
      ⟨0, 0, 0⟩).1.mpmode = -2147483647 ∧
    (HoverBalanceCntr.ProcessMouse2D { restVessel with hbmode := -2147483648 } 1 0 0).1.hbmode =
      -2147483647 ∧
    (PMainGimbalCntr.ProcessMouse2D { restVessel with mpmode := -2147483648 } 1 0 0).1.mpmode ≠
      1 - ({ restVessel with mpmode := -2147483648 } : Scout).mpmode ∧
    (HoverBalanceCntr.ProcessMouse2D { restVessel with hbmode := -2147483648 } 1 0 0).1.hbmode ≠
      1 - ({ restVessel with hbmode := -2147483648 } : Scout).hbmode := by
  refine ⟨by decide, by decide, by decide, by decide, by decide⟩

/-- C15 amended: for every `int` value of the mode, one press of `PMainGimbalCntr`
(`ProcessMouse2D` or `ProcessMouseVC`) stores `1 - mpmode` reduced to 32 bits and one
press of `HoverBalanceCntr::ProcessMouse2D` stores `1 - hbmode` reduced to 32 bits,
changing nothing else and returning `true`; for every mode `m ≥ -2147483646` (all
values but the two least of an `int`) the stored value is `1 - m` itself; two
consecutive presses (in any mix of panel and cockpit) restore the vessel; and a mode
starting in `{0,1}` stays in `{0,1}` under any sequence of presses. -/
theorem centre_button_toggle (dg : Scout) (event mx my : Int) (p : VECTOR3)
    (c1 c2 : CntrPress) (h1 h2 : Int × Int × Int)
    (ps : List CntrPress) (hs : List (Int × Int × Int))
    (hmp : -2147483648 ≤ dg.mpmode ∧ dg.mpmode ≤ 2147483647)
    (hhb : -2147483648 ≤ dg.hbmode ∧ dg.hbmode ≤ 2147483647) :
    PMainGimbalCntr.ProcessMouse2D dg event mx my =
      ({ dg with mpmode := wrap32 (1 - dg.mpmode) }, true) ∧
    PMainGimbalCntr.ProcessMouseVC dg event p =
      ({ dg with mpmode := wrap32 (1 - dg.mpmode) }, true) ∧
    HoverBalanceCntr.ProcessMouse2D dg event mx my =
      ({ dg with hbmode := wrap32 (1 - dg.hbmode) }, true) ∧
    (-2147483646 ≤ dg.mpmode →
      PMainGimbalCntr.ProcessMouse2D dg event mx my =
        ({ dg with mpmode := 1 - dg.mpmode }, true) ∧
      PMainGimbalCntr.ProcessMouseVC dg event p =
        ({ dg with mpmode := 1 - dg.mpmode }, true)) ∧
    (-2147483646 ≤ dg.hbmode →
      HoverBalanceCntr.ProcessMouse2D dg event mx my =
        ({ dg with hbmode := 1 - dg.hbmode }, true)) ∧
    PMainGimbalCntr.presses dg [c1, c2] = dg ∧
    HoverBalanceCntr.presses dg [h1, h2] = dg ∧
    ((dg.mpmode = 0 ∨ dg.mpmode = 1) →
      (PMainGimbalCntr.presses dg ps).mpmode = 0 ∨ (PMainGimbalCntr.presses dg ps).mpmode = 1) ∧
    ((dg.hbmode = 0 ∨ dg.hbmode = 1) →
      (HoverBalanceCntr.presses dg hs).hbmode = 0 ∨
        (HoverBalanceCntr.presses dg hs).hbmode = 1) := by
  refine ⟨rfl, rfl, rfl, ?_, ?_, ?_, ?_, fun h => (PMainGimbalCntr.presses_range ps dg h).1,
    fun h => (HoverBalanceCntr.presses_range_hover hs dg h).1⟩
  · intro hlo
    have e := toggle_exact dg.mpmode ⟨hlo, hmp.2⟩
    constructor
    · show ({ dg with mpmode := wrap32 (1 - dg.mpmode) }, true) = _
      rw [e]
    · show ({ dg with mpmode := wrap32 (1 - dg.mpmode) }, true) = _
      rw [e]
  · intro hlo
    have e := toggle_exact dg.hbmode ⟨hlo, hhb.2⟩
    show ({ dg with hbmode := wrap32 (1 - dg.hbmode) }, true) = _
    rw [e]
  · have h : PMainGimbalCntr.presses dg [c1, c2] =
        { dg with mpmode := wrap32 (1 - wrap32 (1 - dg.mpmode)) } := by
      cases c1 <;> cases c2 <;> rfl
    rw [h, toggle_involution _ hmp]
  · have h : HoverBalanceCntr.presses dg [h1, h2] =
        { dg with hbmode := wrap32 (1 - wrap32 (1 - dg.hbmode)) } := rfl
    rw [h, toggle_involution _ hhb]

/-- Witness of C15 amended: from the rest vessel (`mpmode = 0`), one press stores
`1 - 0`, and three presses (panel, cockpit, panel) leave `mpmode` in `{0,1}`. -/
theorem centre_button_toggle_witness :
    PMainGimbalCntr.ProcessMouse2D restVessel 1 0 0 =
      ({ restVessel with mpmode := 1 - restVessel.mpmode }, true) ∧
    ((PMainGimbalCntr.presses restVessel
        [CntrPress.panel2D 1 3 4, CntrPress.cockpit 1 ⟨0, 0, 0⟩, CntrPress.panel2D 1 5 5]).mpmode = 0 ∨
     (PMainGimbalCntr.presses restVessel
        [CntrPress.panel2D 1 3 4, CntrPress.cockpit 1 ⟨0, 0, 0⟩, CntrPress.panel2D 1 5 5]).mpmode = 1) :=
  ⟨((centre_button_toggle restVessel 1 0 0 ⟨0, 0, 0⟩ (CntrPress.panel2D 1 0 0)
      (CntrPress.panel2D 1 0 0) (1, 0, 0) (1, 0, 0) [] [] (by decide) (by decide)).2.2.2.1
      (by decide)).1,
   (centre_button_toggle restVessel 1 0 0 ⟨0, 0, 0⟩ (CntrPress.panel2D 1 0 0)
      (CntrPress.panel2D 1 0 0) (1, 0, 0) (1, 0, 0)
      [CntrPress.panel2D 1 3 4, CntrPress.cockpit 1 ⟨0, 0, 0⟩, CntrPress.panel2D 1 5 5]
      [] (by decide) (by decide)).2.2.2.2.2.2.2.1 (Or.inl rfl)⟩

/-- The value of `consumed` is `true` exactly when the mask has the press bit or the
release bit. -/
theorem consumed_iff (K : MouseMasks) (event : Int) :
    consumed K event = true ↔
      (Int.land event K.PANEL_MOUSE_LBDOWN ≠ 0 ∨ Int.land event K.PANEL_MOUSE_LBUP ≠ 0) := by
  simp [consumed, maskTest]

/-- C16: each of the latched controls `PMainGimbalCtrl`, `YMainGimbalCtrl`,
`ScramGimbalCtrl` and `HoverBalanceCtrl` returns `true` from `ProcessMouse2D` if and
only if the event mask contains the press bit or the release bit; on an event with
neither bit it returns `false`, keeps the latch, and still issues its nudge request
with the latched values (followed by the redraw trigger when the vessel answers
`true`). -/
theorem latched_consumed_iff (K : MouseMasks) (reply : Bool) (s : Latch) (hv : HoverLatch)
    (event mx my : Int) :
    (((PMainGimbalCtrl.ProcessMouse2D K reply s event mx my).ret = true ↔
        (Int.land event K.PANEL_MOUSE_LBDOWN ≠ 0 ∨ Int.land event K.PANEL_MOUSE_LBUP ≠ 0)) ∧
     ((YMainGimbalCtrl.ProcessMouse2D K reply s event mx my).ret = true ↔
        (Int.land event K.PANEL_MOUSE_LBDOWN ≠ 0 ∨ Int.land event K.PANEL_MOUSE_LBUP ≠ 0)) ∧
     ((ScramGimbalCtrl.ProcessMouse2D K reply s event mx my).ret = true ↔
        (Int.land event K.PANEL_MOUSE_LBDOWN ≠ 0 ∨ Int.land event K.PANEL_MOUSE_LBUP ≠ 0)) ∧
     ((HoverBalanceCtrl.ProcessMouse2D K reply hv event mx my).ret = true ↔
        (Int.land event K.PANEL_MOUSE_LBDOWN ≠ 0 ∨ Int.land event K.PANEL_MOUSE_LBUP ≠ 0))) ∧
    (Int.land event K.PANEL_MOUSE_LBDOWN = 0 → Int.land event K.PANEL_MOUSE_LBUP = 0 →
      ((PMainGimbalCtrl.ProcessMouse2D K reply s event mx my).ret = false ∧
       (PMainGimbalCtrl.ProcessMouse2D K reply s event mx my).state = s ∧
       (PMainGimbalCtrl.ProcessMouse2D K reply s event mx my).effects =
         Effect.IncMainPGimbal s.ctrl s.mode ::
           (if reply then [Effect.oapiTriggerPanelRedrawArea 0 AreaId.AID_PGIMBALMAINDISP]
            else [])) ∧
      ((YMainGimbalCtrl.ProcessMouse2D K reply s event mx my).ret = false ∧
       (YMainGimbalCtrl.ProcessMouse2D K reply s event mx my).state = s ∧
       (YMainGimbalCtrl.ProcessMouse2D K reply s event mx my).effects =
         Effect.IncMainYGimbal s.ctrl s.mode ::
           (if reply then [Effect.oapiTriggerPanelRedrawArea 0 AreaId.AID_YGIMBALMAINDISP]
            else [])) ∧
      ((ScramGimbalCtrl.ProcessMouse2D K reply s event mx my).ret = false ∧
       (ScramGimbalCtrl.ProcessMouse2D K reply s event mx my).state = s ∧
       (ScramGimbalCtrl.ProcessMouse2D K reply s event mx my).effects =
         Effect.IncScramGimbal s.ctrl s.mode ::
           (if reply then [Effect.oapiTriggerPanelRedrawArea 0 AreaId.AID_GIMBALSCRAMDISP]
            else [])) ∧
      ((HoverBalanceCtrl.ProcessMouse2D K reply hv event mx my).ret = false ∧
       (HoverBalanceCtrl.ProcessMouse2D K reply hv event mx my).state = hv ∧
       (HoverBalanceCtrl.ProcessMouse2D K reply hv event mx my).effects =
         Effect.ShiftHoverBalance hv.mode ::
           (if reply then [Effect.oapiTriggerPanelRedrawArea 0 AreaId.AID_HBALANCEDISP]
            else []))) := by
  refine ⟨⟨consumed_iff K event, consumed_iff K event, consumed_iff K event,
    consumed_iff K event⟩, ?_⟩
  intro hdn hup
  have hp : maskTest event K.PANEL_MOUSE_LBDOWN = false := by simp [maskTest, hdn]
  have hu : maskTest event K.PANEL_MOUSE_LBUP = false := by simp [maskTest, hup]
  have hc : consumed K event = false := by simp [consumed, hp, hu]
  simp [PMainGimbalCtrl.ProcessMouse2D, YMainGimbalCtrl.ProcessMouse2D,
    ScramGimbalCtrl.ProcessMouse2D, HoverBalanceCtrl.ProcessMouse2D, hp, hu, hc]

/-- Witness of C16: a held-button tick (mask 0) with latch `(ctrl, mode) = (3, 1)`:
the handler returns `false` and the latch stays `(3, 1)`. -/
theorem latched_consumed_iff_witness :
    (PMainGimbalCtrl.ProcessMouse2D sdkMasks true ⟨3, 1⟩ 0 12 7).ret = false ∧
    (PMainGimbalCtrl.ProcessMouse2D sdkMasks true ⟨3, 1⟩ 0 12 7).state = ⟨3, 1⟩ :=
  ⟨((latched_consumed_iff sdkMasks true ⟨3, 1⟩ ⟨1⟩ 0 12 7).2 (by decide) (by decide)).1.1,
   ((latched_consumed_iff sdkMasks true ⟨3, 1⟩ ⟨1⟩ 0 12 7).2 (by decide) (by decide)).1.2.1⟩

/-- Closed form of the trim index after `n` nudges from an index inside the range. -/
theorem nudges_closed_form (lo hi inc idx : Int) (up : Bool) (hinc : 0 < inc)
    (hlo : lo ≤ idx) (hhi : idx ≤ hi) :
    ∀ n : Nat, nudges lo hi inc up idx n =
      if up then min hi (idx + n * inc) else max lo (idx - n * inc) := by
  intro n
  induction n with
  | zero =>
    cases up
    · simp [nudges]; omega
    · simp [nudges]; omega
  | succ n ih =>
    have hm : ((n + 1 : Nat) : Int) * inc = (n : Int) * inc + inc := by
      push_cast
      ring
    have hpos : 0 ≤ (n : Int) * inc := Int.mul_nonneg (Int.ofNat_nonneg n) (le_of_lt hinc)
    simp only [nudges, ih, hm]
    generalize (n : Int) * inc = m at hpos
    cases up
    · simp only [nudge, Bool.false_eq_true, if_false]
      omega
    · simp only [nudge, if_true]
      omega

/-- C17: under the nudge of the spec (fixed increment `inc > 0`, clamped to
`[lo, hi]`), starting from an index inside the range, every sequence of per-tick
nudges in the latched direction keeps the index inside `[lo, hi]`, never moves it
against the latched direction, moves it by exactly `inc` as long as the bound is not
passed, and otherwise stops it exactly at the bound (`hi` going up, `lo` going down),
where it stays. -/
theorem nudges_monotone_clamped (lo hi inc idx : Int) (up : Bool) (n : Nat)
    (hinc : 0 < inc) (hlo : lo ≤ idx) (hhi : idx ≤ hi) :
    (lo ≤ nudges lo hi inc up idx n ∧ nudges lo hi inc up idx n ≤ hi) ∧
    (up = true → nudges lo hi inc up idx n ≤ nudges lo hi inc up idx (n + 1)) ∧
    (up = false → nudges lo hi inc up idx (n + 1) ≤ nudges lo hi inc up idx n) ∧
    (up = true → nudges lo hi inc up idx n + inc ≤ hi →
      nudges lo hi inc up idx (n + 1) = nudges lo hi inc up idx n + inc) ∧
    (up = true → hi < nudges lo hi inc up idx n + inc →
      nudges lo hi inc up idx (n + 1) = hi) ∧
    (up = false → lo ≤ nudges lo hi inc up idx n - inc →
      nudges lo hi inc up idx (n + 1) = nudges lo hi inc up idx n - inc) ∧
    (up = false → nudges lo hi inc up idx n - inc < lo →
      nudges lo hi inc up idx (n + 1) = lo) ∧
    (up = true → hi ≤ idx + n * inc → ∀ k : Nat, nudges lo hi inc up idx (n + k) = hi) ∧
    (up = false → idx - n * inc ≤ lo → ∀ k : Nat, nudges lo hi inc up idx (n + k) = lo) := by
  have hcf := nudges_closed_form lo hi inc idx up hinc hlo hhi
  have hpos : 0 ≤ (n : Int) * inc := Int.mul_nonneg (Int.ofNat_nonneg n) (le_of_lt hinc)
  have hstep : nudges lo hi inc up idx (n + 1) = nudge lo hi inc up (nudges lo hi inc up idx n) :=
    rfl
  have hrange : lo ≤ nudges lo hi inc up idx n ∧ nudges lo hi inc up idx n ≤ hi := by
    rw [hcf n]
    generalize (n : Int) * inc = m at hpos
    cases up
    · simp only [Bool.false_eq_true, if_false]; omega
    · simp only [if_true]; omega
  refine ⟨hrange, ?_, ?_, ?_, ?_, ?_, ?_, ?_, ?_⟩
  · intro hu; subst hu
    rw [hstep]; simp only [nudge, if_true]; omega
  · intro hu; subst hu
    rw [hstep]; simp only [nudge, Bool.false_eq_true, if_false]; omega
  · intro hu h; subst hu
    rw [hstep]; simp only [nudge, if_true]; omega
  · intro hu h; subst hu
    rw [hstep]; simp only [nudge, if_true]; omega
  · intro hu h; subst hu
    rw [hstep]; simp only [nudge, Bool.false_eq_true, if_false]; omega
  · intro hu h; subst hu
    rw [hstep]; simp only [nudge, Bool.false_eq_true, if_false]; omega
  · intro hu h k; subst hu
    have hk : 0 ≤ (k : Int) * inc := Int.mul_nonneg (Int.ofNat_nonneg k) (le_of_lt hinc)
    have hm : ((n + k : Nat) : Int) * inc = (n : Int) * inc + (k : Int) * inc := by
      push_cast; ring
    rw [hcf (n + k), hm]
    simp only [if_true]
    omega
  · intro hu h k; subst hu
    have hk : 0 ≤ (k : Int) * inc := Int.mul_nonneg (Int.ofNat_nonneg k) (le_of_lt hinc)
    have hm : ((n + k : Nat) : Int) * inc = (n : Int) * inc + (k : Int) * inc := by
      push_cast; ring
    rw [hcf (n + k), hm]
    simp only [Bool.false_eq_true, if_false]
    omega

/-- Witness of C17: range `[0, 70]`, increment 1, index 68 nudged upwards: after
3 ticks, and after any further tick, the index is at the maximum 70. -/
theorem nudges_monotone_clamped_witness :
    nudges 0 70 1 true 68 (3 + 5) = 70 :=
  (nudges_monotone_clamped 0 70 1 68 true 3 (by decide) (by decide) (by decide)).2.2.2.2.2.2.2.1
    rfl (by decide) 5

/-- Reading `btnstate` at the index of a button gives its cache entry. -/
theorem SwitchArray.readBtnstate_fin (self : SwitchArray) (btn : Fin 8) :
    SwitchArray.readBtnstate self (btn.val : Int) = some (self.btnstate btn) := by
  have hr : 0 ≤ (btn.val : Int) ∧ (btn.val : Int) < 8 := by
    have := btn.isLt
    omega
  unfold SwitchArray.readBtnstate
  rw [dif_pos hr]
  congr 2

/-- The outcome of `SwitchArray::ProcessMouse2D` when the click addresses button `btn`
(`mx / 32 = btn` and `mx - btn*32 < 26`): nothing is written; a request is made, and
`true` returned, exactly when the requested state differs from the cached one. -/
theorem SwitchArray.ProcessMouse2D_button (self : SwitchArray) (Vtx : List NTVERTEX)
    (event mx my : Int) (btn : Fin 8)
    (hb : Int.tdiv mx 32 = (btn.val : Int)) (hz : mx - (btn.val : Int) * 32 < 26) :
    let s : Int := if my < 19 then 0 else 1
    let action := if s = 0 then DoorStatus.DOOR_CLOSING else DoorStatus.DOOR_OPENING
    (s = self.btnstate btn →
      SwitchArray.ProcessMouse2D self Vtx event mx my = some ⟨(self, Vtx), [], false⟩) ∧
    (s ≠ self.btnstate btn →
      ∃ req : Effect,
        SwitchArray.ProcessMouse2D self Vtx event mx my = some ⟨(self, Vtx), [req], true⟩ ∧
        (btn.val = 0 → req = Effect.SetNavlight (s != 0)) ∧
        (btn.val = 1 → req = Effect.SetBeacon (s != 0)) ∧
        (btn.val = 2 → req = Effect.SetStrobe (s != 0)) ∧
        (btn.val = 3 → req = Effect.SetDockingLight (s != 0)) ∧
        (btn.val = 4 → req = Effect.ActivateRadiator action) ∧
        (btn.val = 5 → req = Effect.ActivateRCover action) ∧
        (btn.val = 6 → req = Effect.ActivateHatch action) ∧
        (btn.val = 7 → req = Effect.ActivateLadder action)) := by
  intro s action
  have hz2 : ¬ (mx - (btn.val : Int) * 32 ≥ 26) := by omega
  have hread := SwitchArray.readBtnstate_fin self btn
  constructor
  · intro hs
    have hs2 : (if my < 19 then (0 : Int) else 1) = self.btnstate btn := hs
    simp only [SwitchArray.ProcessMouse2D, hb, hz2, if_false, hread, hs2,
      ne_eq, not_true_eq_false]
  · intro hs
    have hs2 : (if my < 19 then (0 : Int) else 1) ≠ self.btnstate btn := hs
    simp only [SwitchArray.ProcessMouse2D, hb, hz2, if_false, hread, hs2,
      ne_eq, not_false_eq_true, if_true]
    obtain ⟨b, hbl⟩ := btn
    interval_cases b <;> simp [s, action]

/-- A click at `mx ≥ 0` whose offset inside its 32-pixel cell is 26 or more is rejected
before any cache entry is read. -/
theorem SwitchArray.ProcessMouse2D_gap (self : SwitchArray) (Vtx : List NTVERTEX)
    (event mx my : Int) (h0 : 0 ≤ mx) (hgap : 26 ≤ mx % 32) :
    SwitchArray.ProcessMouse2D self Vtx event mx my = some ⟨(self, Vtx), [], false⟩ := by
  have hb : Int.tdiv mx 32 = mx / 32 := Int.tdiv_eq_ediv h0 (by decide)
  have hz : mx - mx / 32 * 32 ≥ 26 := by omega
  simp only [SwitchArray.ProcessMouse2D, hb, hz, if_true]

/-- For `0 ≤ mx < 256` the cell number `mx / 32` is a button. -/
theorem SwitchArray.cell_is_button (mx : Int) (h0 : 0 ≤ mx) (h1 : mx < 256) :
    ∃ btn : Fin 8, (btn.val : Int) = mx / 32 ∧ Int.tdiv mx 32 = (btn.val : Int) := by
  have hb : Int.tdiv mx 32 = mx / 32 := Int.tdiv_eq_ediv h0 (by decide)
  have hq0 : 0 ≤ mx / 32 := by omega
  have hq1 : mx / 32 < 8 := by omega
  refine ⟨⟨(mx / 32).toNat, (Int.toNat_lt hq0).mpr hq1⟩, ?_, ?_⟩
  · simp [Int.toNat_of_nonneg hq0]
  · rw [hb]
    simp [Int.toNat_of_nonneg hq0]

/-- C12, as stated, fails: `mx = -1` lies in none of the eight hit-zones, yet with a
fresh cache and `my = 30` the handler requests `SetNavlight (true)` and returns
`true`; and `mx = 256`, also in none of them, makes it read `btnstate[8]`. -/
theorem SwitchArray_outside_zones_counterexample :
    (∀ i : Fin 8, ¬ (32 * (i.val : Int) ≤ -1 ∧ (-1 : Int) < 32 * (i.val : Int) + 26)) ∧
    (SwitchArray.ProcessMouse2D freshSwitchArray [] 1 (-1) 30).map
      (fun r => (r.effects, r.ret)) = some ([Effect.SetNavlight true], true) ∧
    (∀ i : Fin 8, ¬ (32 * (i.val : Int) ≤ 256 ∧ (256 : Int) < 32 * (i.val : Int) + 26)) ∧
    (SwitchArray.ProcessMouse2D freshSwitchArray [] 1 256 30).isNone = true ∧
    SwitchArray.readBtnstate freshSwitchArray (Int.tdiv 256 32) = none := by
  refine ⟨by decide, by decide, by decide, by decide, by decide⟩

/-- C12 amended: for every `my` and every `mx` with `0 ≤ mx < 256` that lies outside
all eight hit-zones `[32*i, 32*i + 26)`, `SwitchArray::ProcessMouse2D` returns `false`,
issues no vessel request and writes nothing, whatever the cache holds (no entry is
read); and for every `mx` with `0 ≤ mx < 256` no entry outside `0..7` is read. -/
theorem SwitchArray_gap_not_consumed (self : SwitchArray) (Vtx : List NTVERTEX)
    (event mx my : Int) (h0 : 0 ≤ mx) (h1 : mx < 256) :
    ((∀ i : Fin 8, ¬ (32 * (i.val : Int) ≤ mx ∧ mx < 32 * (i.val : Int) + 26)) →
      ∀ other : SwitchArray,
        SwitchArray.ProcessMouse2D other Vtx event mx my = some ⟨(other, Vtx), [], false⟩) ∧
    (SwitchArray.ProcessMouse2D self Vtx event mx my).isSome = true := by
  obtain ⟨btn, hbtn, hb⟩ := SwitchArray.cell_is_button mx h0 h1
  by_cases hz : mx % 32 < 26
  · constructor
    · intro hgap
      exact absurd ⟨by omega, by omega⟩ (hgap btn)
    · have hz2 : mx - (btn.val : Int) * 32 < 26 := by omega
      have h := SwitchArray.ProcessMouse2D_button self Vtx event mx my btn hb hz2
      by_cases hs : (if my < 19 then (0 : Int) else 1) = self.btnstate btn
      · rw [h.1 hs]
        rfl
      · obtain ⟨req, hreq, _⟩ := h.2 hs
        rw [hreq]
        rfl
  · have hg : 26 ≤ mx % 32 := by omega
    constructor
    · intro _ other
      exact SwitchArray.ProcessMouse2D_gap other Vtx event mx my h0 hg
    · rw [SwitchArray.ProcessMouse2D_gap self Vtx event mx my h0 hg]
      rfl

/-- Witness of C12 amended: `mx = 27` lies in the gap after button 0. -/
theorem SwitchArray_gap_not_consumed_witness :
    (SwitchArray.ProcessMouse2D freshSwitchArray [] 1 27 30).isSome = true :=
  (SwitchArray_gap_not_consumed freshSwitchArray [] 1 27 30 (by decide) (by decide)).2

/-- C18: for `0 ≤ mx < 256` with `mx mod 32 < 26`, `SwitchArray::ProcessMouse2D`
addresses switch `btn = mx div 32`, a button in `0..7`, with requested state `s = 0`
for `my < 19` and `s = 1` otherwise. If `s` equals the cached `btnstate[btn]` it makes
no request and returns `false`; if `s` differs it makes exactly one request, the one
of that switch (lights 0..3 set to `s ≠ 0`; doors 4..7 `DOOR_CLOSING` for `s = 0`,
`DOOR_OPENING` otherwise), and returns `true`. In both cases the widget (and so
`btnstate`) and the vertex buffer are as before. -/
theorem SwitchArray_click_request (self : SwitchArray) (Vtx : List NTVERTEX)
    (event mx my : Int) (h0 : 0 ≤ mx) (h1 : mx < 256) (h2 : mx % 32 < 26) :
    ∃ btn : Fin 8, (btn.val : Int) = mx / 32 ∧
      let s : Int := if my < 19 then 0 else 1
      let action := if s = 0 then DoorStatus.DOOR_CLOSING else DoorStatus.DOOR_OPENING
      (s = self.btnstate btn →
        SwitchArray.ProcessMouse2D self Vtx event mx my = some ⟨(self, Vtx), [], false⟩) ∧
      (s ≠ self.btnstate btn →
        ∃ req : Effect,
          SwitchArray.ProcessMouse2D self Vtx event mx my =
            some ⟨(self, Vtx), [req], true⟩ ∧
          (btn.val = 0 → req = Effect.SetNavlight (s != 0)) ∧
          (btn.val = 1 → req = Effect.SetBeacon (s != 0)) ∧
          (btn.val = 2 → req = Effect.SetStrobe (s != 0)) ∧
          (btn.val = 3 → req = Effect.SetDockingLight (s != 0)) ∧
          (btn.val = 4 → req = Effect.ActivateRadiator action) ∧
          (btn.val = 5 → req = Effect.ActivateRCover action) ∧
          (btn.val = 6 → req = Effect.ActivateHatch action) ∧
          (btn.val = 7 → req = Effect.ActivateLadder action)) := by
  obtain ⟨btn, hbtn, hb⟩ := SwitchArray.cell_is_button mx h0 h1
  have hz2 : mx - (btn.val : Int) * 32 < 26 := by omega
  exact ⟨btn, hbtn, SwitchArray.ProcessMouse2D_button self Vtx event mx my btn hb hz2⟩

/-- Witness of C18: fresh cache, click at `mx = 100` (button 3, offset 4), `my = 30`:
a button in `0..7` is addressed. -/
theorem SwitchArray_click_request_witness :
    ∃ btn : Fin 8, (btn.val : Int) = (100 : Int) / 32 :=
  (SwitchArray_click_request freshSwitchArray [] 1 100 30 (by decide) (by decide)
    (by decide)).imp (fun _ h => h.1)

/-- Vertex `n` after `NoseconeIndicator::Redraw2D`: inside the widget's 12 vertices its
`tu` is `(xofs + (j mod 2)*12)/texw` with `j = (n - vtxofs) mod 3` its corner number,
everything else is as before. -/
theorem NoseconeIndicator.Redraw2D_vertex_ncone (texw simt tofs : ℚ) (dg : Scout)
    (vtxofs : Nat) (Vtx : List NTVERTEX) (n : Nat) :
    (NoseconeIndicator.Redraw2D texw simt tofs dg vtxofs Vtx).1[n]? =
      if vtxofs ≤ n ∧ n < vtxofs + 4 * 3 then
        (Vtx[n]?).map (fun p => { p with tu :=
          ((NoseconeIndicator.xofs simt tofs dg.nose_status +
            (((n - vtxofs) % 3 % 2 : Nat) : Int) * 12 : Int) : ℚ) / texw })
      else Vtx[n]? := by
  simp only [NoseconeIndicator.Redraw2D, setTu]
  rw [modify_loop2 (fun (_ j : Nat) (p : NTVERTEX) => { p with tu :=
      ((NoseconeIndicator.xofs simt tofs dg.nose_status + ((j % 2 : Nat) : Int) * 12 : Int) : ℚ)
        / texw }) vtxofs 3 (by decide)]

/-- Vertex `n` after `YMainGimbalMode::Redraw2D`: inside the widget's 12 vertices its
`tu` is `(1029 + (j mod 2)*10 + ofs)/texw`, where `j = (n - vtxofs) mod 4` is its corner
number, `i = (n - vtxofs)/4` its button and `ofs` is 12 when `mymode = i+1` and 0
otherwise; everything else is as before. -/
theorem YMainGimbalMode.Redraw2D_vertex_mode (texw : ℚ) (dg : Scout) (vtxofs : Nat)
    (Vtx : List NTVERTEX) (n : Nat) :
    (YMainGimbalMode.Redraw2D texw dg vtxofs Vtx).1[n]? =
      if vtxofs ≤ n ∧ n < vtxofs + 3 * 4 then
        (Vtx[n]?).map (fun p => { p with tu :=
          ((1029 + (((n - vtxofs) % 4 % 2 : Nat) : Int) * 10 +
            (if dg.mymode = (((n - vtxofs) / 4 : Nat) : Int) + 1 then 12 else 0) : Int) : ℚ)
              / texw })
      else Vtx[n]? := by
  simp only [YMainGimbalMode.Redraw2D, setTu]
  rw [modify_loop2 (fun (i j : Nat) (p : NTVERTEX) => { p with tu :=
      ((1029 + ((j % 2 : Nat) : Int) * 10 +
        (if dg.mymode = (i : Int) + 1 then 12 else 0) : Int) : ℚ) / texw }) vtxofs 4
    (by decide)]

/-- Vertex `n` after `PMainGimbalDisp::Redraw2D`: inside the widget's 8 vertices its `y`
is the `float` value of `pm_y0 - bb_dy + (j/2)*(2*bb_dy) + lvl` with `j` its corner
number and `lvl` the `int` value of `mpgimbalidx[i] - 35` of its bar `i`; everything
else is as before. -/
theorem PMainGimbalDisp.Redraw2D_vertex_disp (dg : Scout) (vtxofs : Nat)
    (Vtx : List NTVERTEX) (n : Nat) :
    (PMainGimbalDisp.Redraw2D dg vtxofs Vtx).1[n]? =
      if vtxofs ≤ n ∧ n < vtxofs + 4 then
        (Vtx[n]?).map (fun p => { p with y :=
          (PMainGimbalDisp.barY (n - vtxofs) (wrap32 (dg.mpgimbalidx 0 - 35))) })
      else if vtxofs + 4 ≤ n ∧ n < vtxofs + 8 then
        (Vtx[n]?).map (fun p => { p with y :=
          (PMainGimbalDisp.barY (n - (vtxofs + 4)) (wrap32 (dg.mpgimbalidx 1 - 35))) })
      else Vtx[n]? := by
  unfold PMainGimbalDisp.Redraw2D
  rw [show List.finRange 2 = [0, 1] from rfl]
  simp only [List.foldl_cons, List.foldl_nil, setY]
  rw [modify_loop (fun (j : Nat) (p : NTVERTEX) => { p with y :=
      (PMainGimbalDisp.barY j (wrap32 (dg.mpgimbalidx 1 - 35))) })
      (vtxofs + (1 : Fin 2).val * 4) 4,
    modify_loop (fun (j : Nat) (p : NTVERTEX) => { p with y :=
      (PMainGimbalDisp.barY j (wrap32 (dg.mpgimbalidx 0 - 35))) })
      (vtxofs + (0 : Fin 2).val * 4) 4]
  have e0 : vtxofs + (0 : Fin 2).val * 4 = vtxofs := by simp
  have e1 : vtxofs + (1 : Fin 2).val * 4 = vtxofs + 4 := by simp
  rw [e0, e1]
  by_cases h0 : vtxofs ≤ n ∧ n < vtxofs + 4
  · have h1 : ¬ (vtxofs + 4 ≤ n ∧ n < vtxofs + 4 + 4) := by omega
    rw [if_neg h1, if_pos h0, if_pos h0]
  · by_cases h1 : vtxofs + 4 ≤ n ∧ n < vtxofs + 4 + 4
    · have h2 : vtxofs + 4 ≤ n ∧ n < vtxofs + 8 := by omega
      rw [if_pos h1, if_neg h0, if_neg h0, if_pos h2]
    · have h2 : ¬ (vtxofs + 4 ≤ n ∧ n < vtxofs + 8) := by omega
      rw [if_neg h1, if_neg h0, if_neg h0, if_neg h2]

/-- Vertex `n` after `MWSButton::Redraw2D`: only vertices `vtxofs+2` and `vtxofs+3` can
differ from before. -/
theorem MWSButton.Redraw2D_frame (texh : ℚ) (MWSActive : Bool) (simt : ℚ) (self : MWSButton)
    (vtxofs : Nat) (Vtx : List NTVERTEX) (n : Nat) (hn : n ≠ vtxofs + 2 ∧ n ≠ vtxofs + 3) :
    (MWSButton.Redraw2D texh MWSActive simt self vtxofs Vtx).2.1[n]? = Vtx[n]? := by
  have h2 : vtxofs + 2 ≠ n := fun h => hn.1 h.symm
  have h3 : vtxofs + 3 ≠ n := fun h => hn.2 h.symm
  unfold MWSButton.Redraw2D
  generalize (if MWSActive = true then decide (modf simt < 0.5) else false) = light
  dsimp only
  by_cases hl : light ≠ self.islit
  · rw [if_pos hl]
    simp only [List.foldl_cons, List.foldl_nil, setTv]
    rw [List.getElem?_modify_ne _ _ h3, List.getElem?_modify_ne _ _ h2]
  · rw [if_neg hl]

/-- The loop body for button `i` leaves the cache entries of the other buttons alone. -/
theorem SwitchArray.redrawButton_other (texw : ℚ) (G : Nat → Bool) (dg : Scout) (vtxofs : Nat)
    (acc : (Fin 8 → Int) × List NTVERTEX) (i k : Fin 8) (hk : k ≠ i) :
    (SwitchArray.redrawButton texw G dg vtxofs acc i).1 k = acc.1 k := by
  unfold SwitchArray.redrawButton
  by_cases h : SwitchArray.observed G dg i.val ≠ acc.1 i
  · simp [h, Function.update_noteq hk]
  · simp [h]

/-- Vertex `n` after the loop body for button `i`: when the observed state differs from
the cache entry, the four vertices of button `i` get the `tu` of the observed state;
everything else is as before. -/
theorem SwitchArray.redrawButton_vertex (texw : ℚ) (G : Nat → Bool) (dg : Scout)
    (vtxofs : Nat) (acc : (Fin 8 → Int) × List NTVERTEX) (i : Fin 8) (n : Nat) :
    (SwitchArray.redrawButton texw G dg vtxofs acc i).2[n]? =
      if SwitchArray.observed G dg i.val ≠ acc.1 i ∧
          (vtxofs + i.val * 4 ≤ n ∧ n < vtxofs + i.val * 4 + 4) then
        (acc.2[n]?).map (fun p => { p with tu :=
          (SwitchArray.tx_x0 + (((((n - (vtxofs + i.val * 4)) % 2 : Nat) : Int) -
            SwitchArray.observed G dg i.val : Int) : ℚ) * SwitchArray.tx_dx) / texw })
      else acc.2[n]? := by
  unfold SwitchArray.redrawButton
  by_cases h : SwitchArray.observed G dg i.val ≠ acc.1 i
  · simp only [h, ne_eq, not_false_eq_true, if_true, true_and, setTu]
    rw [modify_loop (fun (j : Nat) (p : NTVERTEX) => { p with tu :=
      (SwitchArray.tx_x0 + ((((j % 2 : Nat) : Int) -
        SwitchArray.observed G dg i.val : Int) : ℚ) * SwitchArray.tx_dx) / texw })]
  · have h2 : ¬ (SwitchArray.observed G dg i.val ≠ acc.1 i ∧
        (vtxofs + i.val * 4 ≤ n ∧ n < vtxofs + i.val * 4 + 4)) := fun hc => h hc.1
    rw [if_neg h, if_neg h2]

/-- Vertex `n` of button `i` after the loop has run over a list of distinct buttons:
it is patched exactly when `i` is in the list and its observed state differed from the
cache entry at the start. -/
theorem SwitchArray.loop_vertex (texw : ℚ) (G : Nat → Bool) (dg : Scout) (vtxofs : Nat) :
    ∀ (l : List (Fin 8)), l.Nodup → ∀ (acc : (Fin 8 → Int) × List NTVERTEX) (i : Fin 8)
      (n : Nat), vtxofs + i.val * 4 ≤ n ∧ n < vtxofs + i.val * 4 + 4 →
      (l.foldl (SwitchArray.redrawButton texw G dg vtxofs) acc).2[n]? =
        if i ∈ l ∧ SwitchArray.observed G dg i.val ≠ acc.1 i then
          (acc.2[n]?).map (fun p => { p with tu :=
            (SwitchArray.tx_x0 + (((((n - (vtxofs + i.val * 4)) % 2 : Nat) : Int) -
              SwitchArray.observed G dg i.val : Int) : ℚ) * SwitchArray.tx_dx) / texw })
        else acc.2[n]? := by
  intro l
  induction l with
  | nil =>
    intro _ acc i n _
    simp
  | cons a t ih =>
    intro hnd acc i n hblock
    have hat : a ∉ t := (List.nodup_cons.mp hnd).1
    have htn : t.Nodup := (List.nodup_cons.mp hnd).2
    simp only [List.foldl_cons]
    rw [ih htn (SwitchArray.redrawButton texw G dg vtxofs acc a) i n hblock]
    by_cases hia : i = a
    · subst hia
      have h1 : ¬ (i ∈ t ∧ SwitchArray.observed G dg i.val ≠
          (SwitchArray.redrawButton texw G dg vtxofs acc i).1 i) := fun hc => hat hc.1
      rw [if_neg h1, SwitchArray.redrawButton_vertex]
      by_cases hd : SwitchArray.observed G dg i.val ≠ acc.1 i
      · rw [if_pos ⟨hd, hblock⟩, if_pos ⟨List.mem_cons_self _ _, hd⟩]
      · have h2 : ¬ (SwitchArray.observed G dg i.val ≠ acc.1 i ∧
            (vtxofs + i.val * 4 ≤ n ∧ n < vtxofs + i.val * 4 + 4)) := fun hc => hd hc.1
        have h3 : ¬ (i ∈ i :: t ∧ SwitchArray.observed G dg i.val ≠ acc.1 i) :=
          fun hc => hd hc.2
        rw [if_neg h2, if_neg h3]
    · have hval : i.val ≠ a.val := fun h => hia (Fin.ext h)
      have hbs := SwitchArray.redrawButton_other texw G dg vtxofs acc a i hia
      have hnot : ¬ (SwitchArray.observed G dg a.val ≠ acc.1 a ∧
          (vtxofs + a.val * 4 ≤ n ∧ n < vtxofs + a.val * 4 + 4)) := by
        intro hc
        omega
      have hv : (SwitchArray.redrawButton texw G dg vtxofs acc a).2[n]? = acc.2[n]? := by
        rw [SwitchArray.redrawButton_vertex, if_neg hnot]
      have hmem : i ∈ a :: t ↔ i ∈ t := by
        simp [hia]
      rw [hbs, hv]
      by_cases hc : i ∈ t ∧ SwitchArray.observed G dg i.val ≠ acc.1 i
      · rw [if_pos hc, if_pos ⟨hmem.mpr hc.1, hc.2⟩]
      · have hc2 : ¬ (i ∈ a :: t ∧ SwitchArray.observed G dg i.val ≠ acc.1 i) :=
          fun h => hc ⟨hmem.mp h.1, h.2⟩
        rw [if_neg hc, if_neg hc2]

/-- A vertex outside the 32 vertices of the widget is not touched by the loop. -/
theorem SwitchArray.loop_frame (texw : ℚ) (G : Nat → Bool) (dg : Scout) (vtxofs : Nat) :
    ∀ (l : List (Fin 8)) (acc : (Fin 8 → Int) × List NTVERTEX) (n : Nat),
      (n < vtxofs ∨ vtxofs + 32 ≤ n) →
      (l.foldl (SwitchArray.redrawButton texw G dg vtxofs) acc).2[n]? = acc.2[n]? := by
  intro l
  induction l with
  | nil => intro acc n _; rfl
  | cons a t ih =>
    intro acc n hn
    simp only [List.foldl_cons]
    rw [ih _ n hn, SwitchArray.redrawButton_vertex]
    have ha := a.isLt
    have hnot : ¬ (SwitchArray.observed G dg a.val ≠ acc.1 a ∧
        (vtxofs + a.val * 4 ≤ n ∧ n < vtxofs + a.val * 4 + 4)) := by
      intro hc
      omega
    rw [if_neg hnot]

/-- The loop keeps the length of the vertex buffer. -/
theorem SwitchArray.loop_length (texw : ℚ) (G : Nat → Bool) (dg : Scout) (vtxofs : Nat) :
    ∀ (l : List (Fin 8)) (acc : (Fin 8 → Int) × List NTVERTEX),
      (l.foldl (SwitchArray.redrawButton texw G dg vtxofs) acc).2.length = acc.2.length := by
  intro l
  induction l with
  | nil => intro acc; rfl
  | cons a t ih =>
    intro acc
    simp only [List.foldl_cons]
    rw [ih]
    unfold SwitchArray.redrawButton
    by_cases h : SwitchArray.observed G dg a.val ≠ acc.1 a
    · simp only [h, ne_eq, not_false_eq_true, if_true, setTu]
      rw [modify_loop_length]
    · rw [if_neg h]

/-- The observed state of a switch is 0 or 1. -/
theorem SwitchArray.observed_range (G : Nat → Bool) (dg : Scout) (i : Nat) :
    SwitchArray.observed G dg i = 0 ∨ SwitchArray.observed G dg i = 1 := by
  have hite : ∀ c : Prop, ∀ _ : Decidable c,
      (if c then (1 : Int) else 0) = 0 ∨ (if c then (1 : Int) else 0) = 1 := by
    intro c _
    by_cases h : c
    · right; rw [if_pos h]
    · left; rw [if_neg h]
  unfold SwitchArray.observed
  split
  all_goals first
    | exact hite _ _
    | exact Or.inl rfl

/-- Vertex `j` of button `i` after `SwitchArray::Redraw2D`: patched with the `tu` of the
observed state exactly when that state differs from the cache entry. -/
theorem SwitchArray.Redraw2D_vertex_at (texw : ℚ) (G : Nat → Bool) (dg : Scout)
    (self : SwitchArray) (Vtx : List NTVERTEX) (i : Fin 8) (j : Nat) (hj : j < 4) :
    (SwitchArray.Redraw2D texw G dg self Vtx).2.1[self.vtxofs + i.val * 4 + j]? =
      if SwitchArray.observed G dg i.val ≠ self.btnstate i then
        (Vtx[self.vtxofs + i.val * 4 + j]?).map (fun p => { p with tu :=
          (SwitchArray.tx_x0 + ((((j % 2 : Nat) : Int) -
            SwitchArray.observed G dg i.val : Int) : ℚ) * SwitchArray.tx_dx) / texw })
      else Vtx[self.vtxofs + i.val * 4 + j]? := by
  have hblock : self.vtxofs + i.val * 4 ≤ self.vtxofs + i.val * 4 + j ∧
      self.vtxofs + i.val * 4 + j < self.vtxofs + i.val * 4 + 4 := by omega
  have hsub : (self.vtxofs + i.val * 4 + j - (self.vtxofs + i.val * 4)) % 2 = j % 2 := by
    omega
  have h := SwitchArray.loop_vertex texw G dg self.vtxofs (List.finRange 8)
    (List.nodup_finRange 8) (self.btnstate, Vtx) i _ hblock
  simp only [List.mem_finRange, true_and, hsub] at h
  exact h

/-- C20: `SwitchArray::Redraw2D` modifies only the `tu` field of the four vertices
`4*i .. 4*i+3` of those buttons `i` whose observed state differs from `btnstate[i]`
(the observed state is 1 for a beacon that is on, for `i` in `0..3`, and for a door
whose status is OPEN or OPENING, for `i` in `4..7`, and 0 otherwise); the vertices of
the other buttons, every vertex outside the widget, and all other fields are as
before, and afterwards `btnstate[i]` equals the observed state for every `i`. -/
theorem SwitchArray_Redraw2D_frame (texw : ℚ) (GetBeaconState : Nat → Bool) (dg : Scout)
    (self : SwitchArray) (Vtx : List NTVERTEX) :
    (∀ (i : Fin 8) (j : Nat), j < 4 →
      (SwitchArray.Redraw2D texw GetBeaconState dg self Vtx).2.1[self.vtxofs + i.val * 4 + j]? =
        if SwitchArray.observed GetBeaconState dg i.val ≠ self.btnstate i then
          (Vtx[self.vtxofs + i.val * 4 + j]?).map (fun p => { p with tu :=
            (SwitchArray.tx_x0 + ((((j % 2 : Nat) : Int) -
              SwitchArray.observed GetBeaconState dg i.val : Int) : ℚ) * SwitchArray.tx_dx)
                / texw })
        else Vtx[self.vtxofs + i.val * 4 + j]?) ∧
    (∀ n : Nat, n < self.vtxofs ∨ self.vtxofs + 32 ≤ n →
      (SwitchArray.Redraw2D texw GetBeaconState dg self Vtx).2.1[n]? = Vtx[n]?) ∧
    (SwitchArray.Redraw2D texw GetBeaconState dg self Vtx).2.1.length = Vtx.length ∧
    (∀ i : Fin 8, (SwitchArray.Redraw2D texw GetBeaconState dg self Vtx).1.btnstate i =
      SwitchArray.observed GetBeaconState dg i.val) ∧
    (SwitchArray.Redraw2D texw GetBeaconState dg self Vtx).1.vtxofs = self.vtxofs ∧
    (∀ i : Nat, i < 4 →
      SwitchArray.observed GetBeaconState dg i = if GetBeaconState i then 1 else 0) ∧
    SwitchArray.observed GetBeaconState dg 4 =
      (if dg.radiator_status = DoorStatus.DOOR_OPEN ∨
          dg.radiator_status = DoorStatus.DOOR_OPENING then 1 else 0) ∧
    SwitchArray.observed GetBeaconState dg 5 =
      (if dg.rcover_status = DoorStatus.DOOR_OPEN ∨
          dg.rcover_status = DoorStatus.DOOR_OPENING then 1 else 0) ∧
    SwitchArray.observed GetBeaconState dg 6 =
      (if dg.hatch_status = DoorStatus.DOOR_OPEN ∨
          dg.hatch_status = DoorStatus.DOOR_OPENING then 1 else 0) ∧
    SwitchArray.observed GetBeaconState dg 7 =
      (if dg.ladder_status = DoorStatus.DOOR_OPEN ∨
          dg.ladder_status = DoorStatus.DOOR_OPENING then 1 else 0) := by
  refine ⟨fun i j hj => SwitchArray.Redraw2D_vertex_at texw GetBeaconState dg self Vtx i j hj,
    fun n hn => SwitchArray.loop_frame texw GetBeaconState dg self.vtxofs _ _ n hn,
    SwitchArray.loop_length texw GetBeaconState dg self.vtxofs _ _,
    SwitchArray.Redraw2D_cache texw GetBeaconState dg self Vtx, rfl, ?_, rfl, rfl, rfl, rfl⟩
  intro i hi
  interval_cases i <;> rfl

/-- Witness of C20: navigation light on, fresh cache, 32 blank vertices at offset 0:
a vertex beyond the widget (index 40) is as before. -/
theorem SwitchArray_Redraw2D_frame_witness :
    (SwitchArray.Redraw2D 2048 navLightOn restVessel freshSwitchArray
      (List.replicate 32 zeroVertex)).2.1[40]? = (List.replicate 32 zeroVertex)[40]? :=
  (SwitchArray_Redraw2D_frame 2048 navLightOn restVessel freshSwitchArray
    (List.replicate 32 zeroVertex)).2.1 40 (Or.inr (by decide))

/-- The vertex array built by `SwitchArray::AddMeshData2D` has `4*8 = 32` entries. -/
theorem SwitchArray.VTX_length (texw texh : ℚ) : (SwitchArray.VTX texw texh).length = 32 := by
  have h := modify_loop2_length (fun (i j : Nat) (p : NTVERTEX) => { p with
      x := SwitchArray.bb_x0 + ((i : Nat) : ℚ) * SwitchArray.bb_dx +
        ((j % 2 : Nat) : ℚ) * SwitchArray.tx_dx
      y := SwitchArray.bb_y0 + ((j / 2 : Nat) : ℚ) * SwitchArray.tx_dy
      tu := (SwitchArray.tx_x0 + ((j % 2 : Nat) : ℚ) * SwitchArray.tx_dx) / texw
      tv := (SwitchArray.tx_y0 texh + ((j / 2 : Nat) : ℚ) * SwitchArray.tx_dy) / texh })
    0 4 8 (List.replicate (4 * 8) zeroVertex)
  simp only [Nat.zero_add] at h
  unfold SwitchArray.VTX
  rw [h]
  simp

/-- Entry `i*4 + j` of the vertex array built by `SwitchArray::AddMeshData2D`. -/
theorem SwitchArray.VTX_vertex (texw texh : ℚ) (i j : Nat) (hi : i < 8) (hj : j < 4) :
    (SwitchArray.VTX texw texh)[i * 4 + j]? = some { zeroVertex with
      x := SwitchArray.bb_x0 + ((i : Nat) : ℚ) * SwitchArray.bb_dx +
        ((j % 2 : Nat) : ℚ) * SwitchArray.tx_dx
      y := SwitchArray.bb_y0 + ((j / 2 : Nat) : ℚ) * SwitchArray.tx_dy
      tu := (SwitchArray.tx_x0 + ((j % 2 : Nat) : ℚ) * SwitchArray.tx_dx) / texw
      tv := (SwitchArray.tx_y0 texh + ((j / 2 : Nat) : ℚ) * SwitchArray.tx_dy) / texh } := by
  have h := modify_loop2_at (fun (i j : Nat) (p : NTVERTEX) => { p with
      x := SwitchArray.bb_x0 + ((i : Nat) : ℚ) * SwitchArray.bb_dx +
        ((j % 2 : Nat) : ℚ) * SwitchArray.tx_dx
      y := SwitchArray.bb_y0 + ((j / 2 : Nat) : ℚ) * SwitchArray.tx_dy
      tu := (SwitchArray.tx_x0 + ((j % 2 : Nat) : ℚ) * SwitchArray.tx_dx) / texw
      tv := (SwitchArray.tx_y0 texh + ((j / 2 : Nat) : ℚ) * SwitchArray.tx_dy) / texh })
    0 4 8 (List.replicate (4 * 8) zeroVertex) i j hi hj
  simp only [Nat.zero_add] at h
  unfold SwitchArray.VTX
  rw [h, List.getElem?_replicate, if_pos (by omega)]
  rfl

/-- C13: for every vessel state and every vertex buffer, `Redraw2D` of `GearIndicator`,
`NoseconeIndicator`, `SwitchArray`, `PMainGimbalDisp`, `YMainGimbalMode` and `MWSButton`
leaves every vertex at an offset below `vtxofs` or at `vtxofs + NVTX` and beyond as it
was, where `NVTX` is the number of vertices the widget's `AddMeshData2D` emits: 12, 12,
32, 8, 12 and 4. So every offset written, relative to `vtxofs`, is below `NVTX`. -/
theorem redraw_within_patch (texw texh simt tofs : ℚ) (GetBeaconState : Nat → Bool)
    (MWSActive : Bool) (dg : Scout) (sa : SwitchArray) (mws : MWSButton) (vtxofs : Nat)
    (Vtx : List NTVERTEX) (n : Nat) :
    ((GearIndicator.VTX texw texh).length = 12 ∧
      (n < vtxofs ∨ vtxofs + 12 ≤ n →
        (GearIndicator.Redraw2D texw simt tofs dg vtxofs Vtx).1[n]? = Vtx[n]?)) ∧
    ((NoseconeIndicator.VTX texw texh).length = 12 ∧
      (n < vtxofs ∨ vtxofs + 12 ≤ n →
        (NoseconeIndicator.Redraw2D texw simt tofs dg vtxofs Vtx).1[n]? = Vtx[n]?)) ∧
    ((SwitchArray.VTX texw texh).length = 32 ∧
      (n < sa.vtxofs ∨ sa.vtxofs + 32 ≤ n →
        (SwitchArray.Redraw2D texw GetBeaconState dg sa Vtx).2.1[n]? = Vtx[n]?)) ∧
    ((PMainGimbalDisp.VTX texw texh).length = 8 ∧
      (n < vtxofs ∨ vtxofs + 8 ≤ n →
        (PMainGimbalDisp.Redraw2D dg vtxofs Vtx).1[n]? = Vtx[n]?)) ∧
    ((YMainGimbalMode.VTX texw texh).length = 12 ∧
      (n < vtxofs ∨ vtxofs + 12 ≤ n →
        (YMainGimbalMode.Redraw2D texw dg vtxofs Vtx).1[n]? = Vtx[n]?)) ∧
    ((MWSButton.VTX texw texh).length = 4 ∧
      (n < vtxofs ∨ vtxofs + 4 ≤ n →
        (MWSButton.Redraw2D texh MWSActive simt mws vtxofs Vtx).2.1[n]? = Vtx[n]?)) := by
  refine ⟨⟨rfl, ?_⟩, ⟨rfl, ?_⟩, ⟨SwitchArray.VTX_length texw texh, ?_⟩, ⟨rfl, ?_⟩, ⟨rfl, ?_⟩,
    ⟨rfl, ?_⟩⟩
  · intro hn
    have hout : ¬ (vtxofs ≤ n ∧ n < vtxofs + 12) := by omega
    rw [GearIndicator.Redraw2D_vertex, if_neg hout]
  · intro hn
    have hout : ¬ (vtxofs ≤ n ∧ n < vtxofs + 4 * 3) := by omega
    rw [NoseconeIndicator.Redraw2D_vertex_ncone, if_neg hout]
  · intro hn
    exact SwitchArray.loop_frame texw GetBeaconState dg sa.vtxofs _ _ n hn
  · intro hn
    have h0 : ¬ (vtxofs ≤ n ∧ n < vtxofs + 4) := by omega
    have h1 : ¬ (vtxofs + 4 ≤ n ∧ n < vtxofs + 8) := by omega
    rw [PMainGimbalDisp.Redraw2D_vertex_disp, if_neg h0, if_neg h1]
  · intro hn
    have hout : ¬ (vtxofs ≤ n ∧ n < vtxofs + 3 * 4) := by omega
    rw [YMainGimbalMode.Redraw2D_vertex_mode, if_neg hout]
  · intro hn
    exact MWSButton.Redraw2D_frame texh MWSActive simt mws vtxofs Vtx n (by omega)

/-- Witness of C13: a buffer of 20 blank vertices, the gear indicator at offset 2 with
the gear in transit: vertex 14, the first one behind the widget, is as before. -/
theorem redraw_within_patch_witness :
    (GearIndicator.Redraw2D 2048 (1 / 4) 0
        { restVessel with gear_status := DoorStatus.DOOR_OPENING } 2
        (List.replicate 20 zeroVertex)).1[14]? = (List.replicate 20 zeroVertex)[14]? :=
  (redraw_within_patch 2048 1024 (1 / 4) 0 navLightOn true
    { restVessel with gear_status := DoorStatus.DOOR_OPENING } freshSwitchArray ⟨false, false⟩ 2
    (List.replicate 20 zeroVertex) 14).1.2 (Or.inr (by decide))

/-- The lookup `map[k]` is inside the table exactly for `k` in `0..2`, where it gives
0, 2, 1. -/
theorem YMainGimbalCtrl.readMap_cases (k : Int) :
    (k = 0 → YMainGimbalCtrl.readMap k = some 0) ∧
    (k = 1 → YMainGimbalCtrl.readMap k = some 2) ∧
    (k = 2 → YMainGimbalCtrl.readMap k = some 1) ∧
    (k < 0 ∨ 3 ≤ k → YMainGimbalCtrl.readMap k = none) := by
  refine ⟨fun h => by subst h; rfl, fun h => by subst h; rfl, fun h => by subst h; rfl, ?_⟩
  intro h
  unfold YMainGimbalCtrl.readMap
  by_cases h0 : 0 ≤ k
  · have h3 : 3 ≤ k.toNat := by omega
    rw [if_pos h0]
    exact List.getElem?_eq_none (by simpa [YMainGimbalCtrl.map] using h3)
  · rw [if_neg h0]

/-- When both lookups succeed, `YMainGimbalCtrl::Redraw2D` completes, and vertex `n` of
the result has, inside the four vertices of switch `i`, the `tu` of the drawn state
of that switch; everything else is as before. -/
theorem YMainGimbalCtrl.Redraw2D_vertex_sw (texw : ℚ) (dg : Scout) (vtxofs : Nat)
    (Vtx : List NTVERTEX) (s0 s1 : Int)
    (h0 : YMainGimbalCtrl.readMap (dg.myswitch 0) = some s0)
    (h1 : YMainGimbalCtrl.readMap (dg.myswitch 1) = some s1) :
    ∃ V : List NTVERTEX, YMainGimbalCtrl.Redraw2D texw dg vtxofs Vtx = some (V, false) ∧
      ∀ n : Nat, V[n]? =
        if vtxofs ≤ n ∧ n < vtxofs + 4 then
          (Vtx[n]?).map (fun p => { p with tu :=
            ((1054 + s0 * 16 + (((n - vtxofs) % 2 : Nat) : Int) * 14 : Int) : ℚ) / texw })
        else if vtxofs + 4 ≤ n ∧ n < vtxofs + 8 then
          (Vtx[n]?).map (fun p => { p with tu :=
            ((1054 + s1 * 16 + (((n - (vtxofs + 4)) % 2 : Nat) : Int) * 14 : Int) : ℚ) / texw })
        else Vtx[n]? := by
  refine ⟨(List.range 4).foldl (fun W (j : Nat) =>
      setTu W (vtxofs + (1 : Fin 2).val * 4 + j)
        (((1054 + s1 * 16 + ((j % 2 : Nat) : Int) * 14 : Int) : ℚ) / texw))
      ((List.range 4).foldl (fun W (j : Nat) =>
        setTu W (vtxofs + (0 : Fin 2).val * 4 + j)
          (((1054 + s0 * 16 + ((j % 2 : Nat) : Int) * 14 : Int) : ℚ) / texw)) Vtx),
    by simp only [YMainGimbalCtrl.Redraw2D, YMainGimbalCtrl.redrawSwitch, h0, h1], ?_⟩
  intro n
  simp only [setTu]
  rw [modify_loop (fun (j : Nat) (p : NTVERTEX) => { p with tu :=
      ((1054 + s1 * 16 + ((j % 2 : Nat) : Int) * 14 : Int) : ℚ) / texw })
        (vtxofs + (1 : Fin 2).val * 4) 4,
    modify_loop (fun (j : Nat) (p : NTVERTEX) => { p with tu :=
      ((1054 + s0 * 16 + ((j % 2 : Nat) : Int) * 14 : Int) : ℚ) / texw })
        (vtxofs + (0 : Fin 2).val * 4) 4]
  have e0 : vtxofs + (0 : Fin 2).val * 4 = vtxofs := by simp
  have e1 : vtxofs + (1 : Fin 2).val * 4 = vtxofs + 4 := by simp
  rw [e0, e1]
  by_cases c0 : vtxofs ≤ n ∧ n < vtxofs + 4
  · have c1 : ¬ (vtxofs + 4 ≤ n ∧ n < vtxofs + 4 + 4) := by omega
    rw [if_neg c1, if_pos c0, if_pos c0]
  · by_cases c1 : vtxofs + 4 ≤ n ∧ n < vtxofs + 4 + 4
    · have c2 : vtxofs + 4 ≤ n ∧ n < vtxofs + 8 := by omega
      rw [if_pos c1, if_neg c0, if_neg c0, if_pos c2]
    · have c2 : ¬ (vtxofs + 4 ≤ n ∧ n < vtxofs + 8) := by omega
      rw [if_neg c1, if_neg c0, if_neg c0, if_neg c2]

/-- C14, as stated, fails: with `myswitch[0] = 3` the lookup `map[3]` is outside the
3-entry table (nothing clamps the index), so `YMainGimbalCtrl::Redraw2D` does not
complete; the same holds for a negative value. -/
theorem YMainGimbalCtrl_lookup_counterexample :
    YMainGimbalCtrl.readMap 3 = none ∧
    YMainGimbalCtrl.readMap (-1) = none ∧
    (YMainGimbalCtrl.Redraw2D 2048 { restVessel with myswitch := fun _ => 3 } 0
      (List.replicate 8 zeroVertex)).isNone = true := by
  refine ⟨by decide, by decide, by decide⟩

/-- C14 amended: when both `myswitch[0]` and `myswitch[1]` are in `{0,1,2}`,
`YMainGimbalCtrl::Redraw2D` completes and returns `false`; the lookup of switch `i`
is inside the table and gives the drawn state 0, 2, 1 for the values 0, 1, 2, so the
drawn state is in `{0,1,2}`, and the four vertices of switch `i` get
`tu = (1054 + state*16 + (j mod 2)*14)/texw`. A value outside `{0,1,2}` is not
clamped: its lookup is outside the table. -/
theorem YMainGimbalCtrl_lookup_in_range (texw : ℚ) (dg : Scout) (vtxofs : Nat)
    (Vtx : List NTVERTEX)
    (hv : ∀ i : Fin 2, dg.myswitch i = 0 ∨ dg.myswitch i = 1 ∨ dg.myswitch i = 2) :
    (∃ V : List NTVERTEX, YMainGimbalCtrl.Redraw2D texw dg vtxofs Vtx = some (V, false) ∧
      ∀ i : Fin 2, ∃ state : Int,
        YMainGimbalCtrl.readMap (dg.myswitch i) = some state ∧
        (state = 0 ∨ state = 1 ∨ state = 2) ∧
        (dg.myswitch i = 0 → state = 0) ∧ (dg.myswitch i = 1 → state = 2) ∧
        (dg.myswitch i = 2 → state = 1) ∧
        ∀ j : Nat, j < 4 → V[vtxofs + i.val * 4 + j]? =
          (Vtx[vtxofs + i.val * 4 + j]?).map (fun p => { p with tu :=
            ((1054 + state * 16 + ((j % 2 : Nat) : Int) * 14 : Int) : ℚ) / texw })) ∧
    (∀ k : Int, k < 0 ∨ 3 ≤ k → YMainGimbalCtrl.readMap k = none) := by
  have hstate : ∀ i : Fin 2, ∃ state : Int,
      YMainGimbalCtrl.readMap (dg.myswitch i) = some state ∧
      (state = 0 ∨ state = 1 ∨ state = 2) ∧
      (dg.myswitch i = 0 → state = 0) ∧ (dg.myswitch i = 1 → state = 2) ∧
      (dg.myswitch i = 2 → state = 1) := by
    intro i
    rcases hv i with h | h | h
    · exact ⟨0, by rw [h]; rfl, by omega, by omega, by omega, by omega⟩
    · exact ⟨2, by rw [h]; rfl, by omega, by omega, by omega, by omega⟩
    · exact ⟨1, by rw [h]; rfl, by omega, by omega, by omega, by omega⟩
  obtain ⟨s0, r0, p0⟩ := hstate 0
  obtain ⟨s1, r1, p1⟩ := hstate 1
  obtain ⟨V, hV, hvert⟩ := YMainGimbalCtrl.Redraw2D_vertex_sw texw dg vtxofs Vtx s0 s1 r0 r1
  refine ⟨⟨V, hV, ?_⟩, fun k hk => (YMainGimbalCtrl.readMap_cases k).2.2.2 hk⟩
  intro i
  have hi : i = 0 ∨ i = 1 := by
    rcases i with ⟨v, hvlt⟩
    have : v = 0 ∨ v = 1 := by omega
    rcases this with h | h
    · left; exact Fin.ext h
    · right; exact Fin.ext h
  rcases hi with hi | hi
  · subst hi
    refine ⟨s0, r0, p0.1, p0.2.1, p0.2.2.1, p0.2.2.2, ?_⟩
    intro j hj
    have c0 : vtxofs ≤ vtxofs + (0 : Fin 2).val * 4 + j ∧
        vtxofs + (0 : Fin 2).val * 4 + j < vtxofs + 4 := by
      simp only [Fin.val_zero]
      omega
    have hm : (vtxofs + (0 : Fin 2).val * 4 + j - vtxofs) % 2 = j % 2 := by
      simp only [Fin.val_zero]
      omega
    rw [hvert, if_pos c0, hm]
  · subst hi
    refine ⟨s1, r1, p1.1, p1.2.1, p1.2.2.1, p1.2.2.2, ?_⟩
    intro j hj
    have e1 : (1 : Fin 2).val = 1 := rfl
    have c0 : ¬ (vtxofs ≤ vtxofs + (1 : Fin 2).val * 4 + j ∧
        vtxofs + (1 : Fin 2).val * 4 + j < vtxofs + 4) := by
      rw [e1]
      omega
    have c1 : vtxofs + 4 ≤ vtxofs + (1 : Fin 2).val * 4 + j ∧
        vtxofs + (1 : Fin 2).val * 4 + j < vtxofs + 8 := by
      rw [e1]
      omega
    have hm : (vtxofs + (1 : Fin 2).val * 4 + j - (vtxofs + 4)) % 2 = j % 2 := by
      rw [e1]
      omega
    rw [hvert, if_neg c0, if_pos c1, hm]

/-- Witness of C14 amended: both switches at rest (`myswitch = 0`): the redraw
completes. -/
theorem YMainGimbalCtrl_lookup_in_range_witness :
    ∃ V : List NTVERTEX,
      YMainGimbalCtrl.Redraw2D 2048 restVessel 0 (List.replicate 8 zeroVertex) =
        some (V, false) :=
  (YMainGimbalCtrl_lookup_in_range 2048 restVessel 0 (List.replicate 8 zeroVertex)
    (fun _ => Or.inl rfl)).1.imp (fun _ h => h.1)

/-- Whenever `SwitchArray::ProcessMouse2D` completes, the widget and the vertex buffer
are as before. -/
theorem SwitchArray.ProcessMouse2D_state (self : SwitchArray) (Vtx : List NTVERTEX)
    (event mx my : Int) (r : MouseResult (SwitchArray × List NTVERTEX))
    (h : SwitchArray.ProcessMouse2D self Vtx event mx my = some r) :
    r.state = (self, Vtx) := by
  unfold SwitchArray.ProcessMouse2D at h
  dsimp only at h
  by_cases hz : mx - mx.tdiv 32 * 32 ≥ 26
  · rw [if_pos hz] at h
    cases h
    rfl
  · rw [if_neg hz] at h
    cases hr : SwitchArray.readBtnstate self (mx.tdiv 32) with
    | none =>
      simp only [hr] at h
      cases h
    | some cached =>
      simp only [hr] at h
      by_cases hs : (if my < 19 then (0 : Int) else 1) = cached
      · simp only [hs, ne_eq, not_true_eq_false, if_false] at h
        cases h
        rfl
      · simp only [hs, ne_eq, not_false_eq_true, if_true] at h
        split at h <;> (cases h; rfl)

/-- The cache invariant holds after `AddMeshData2D` followed by `Reset2D`. -/
theorem SwitchArray.CacheInv_init (texw texh : ℚ) (self : SwitchArray)
    (Vtx : List NTVERTEX) :
    SwitchArray.CacheInv texw
      (SwitchArray.Reset2D (SwitchArray.AddMeshData2D texw texh self Vtx).1)
      (SwitchArray.AddMeshData2D texw texh self Vtx).2 := by
  intro i
  refine ⟨Or.inl rfl, ?_⟩
  intro j hj
  have hi := i.isLt
  show ((Vtx ++ SwitchArray.VTX texw texh)[Vtx.length + i.val * 4 + j]?).map NTVERTEX.tu = _
  have hle : Vtx.length ≤ Vtx.length + i.val * 4 + j := by omega
  have hsub : Vtx.length + i.val * 4 + j - Vtx.length = i.val * 4 + j := by omega
  rw [List.getElem?_append_right hle, hsub, SwitchArray.VTX_vertex texw texh i.val j hi hj]
  simp only [Option.map_some', SwitchArray.Reset2D, sub_zero, Int.cast_natCast]

/-- The cache invariant is preserved by `SwitchArray::Redraw2D`. -/
theorem SwitchArray.CacheInv_Redraw2D (texw : ℚ) (G : Nat → Bool) (dg : Scout)
    (self : SwitchArray) (Vtx : List NTVERTEX) (hinv : SwitchArray.CacheInv texw self Vtx) :
    SwitchArray.CacheInv texw (SwitchArray.Redraw2D texw G dg self Vtx).1
      (SwitchArray.Redraw2D texw G dg self Vtx).2.1 := by
  intro i
  have hc := SwitchArray.Redraw2D_cache texw G dg self Vtx i
  refine ⟨by rw [hc]; exact SwitchArray.observed_range G dg i.val, ?_⟩
  intro j hj
  have hv := SwitchArray.Redraw2D_vertex_at texw G dg self Vtx i j hj
  have hold := (hinv i).2 j hj
  have hofs : (SwitchArray.Redraw2D texw G dg self Vtx).1.vtxofs = self.vtxofs := rfl
  rw [hofs, hv, hc]
  by_cases hd : SwitchArray.observed G dg i.val ≠ self.btnstate i
  · rw [if_pos hd]
    cases hx : Vtx[self.vtxofs + i.val * 4 + j]? with
    | none => rw [hx] at hold; simp at hold
    | some v => rfl
  · rw [if_neg hd, hold, not_not.mp hd]

/-- C19: the cache invariant of `SwitchArray` (every `btnstate[i]` is 0 or 1 and vertex
`4*i + j` has `tu = (tx_x0 + ((j mod 2) - btnstate[i]) * tx_dx)/texw`) holds after
`AddMeshData2D` followed by `Reset2D`; it is preserved by `Redraw2D` for every vessel
state and by `ProcessMouse2D` whenever that handler completes; and after a `Redraw2D`
from a state with the invariant, the `tu` of every vertex of button `i` is
`(tx_x0 + ((j mod 2) - s) * tx_dx)/texw` with `s` the state of switch `i` observed on
the vessel, whatever the cache held before. -/
theorem SwitchArray_cache_invariant (texw texh : ℚ) (GetBeaconState : Nat → Bool)
    (dg : Scout) (self : SwitchArray) (Vtx : List NTVERTEX) (event mx my : Int) :
    SwitchArray.CacheInv texw
      (SwitchArray.Reset2D (SwitchArray.AddMeshData2D texw texh self Vtx).1)
      (SwitchArray.AddMeshData2D texw texh self Vtx).2 ∧
    (SwitchArray.CacheInv texw self Vtx →
      SwitchArray.CacheInv texw (SwitchArray.Redraw2D texw GetBeaconState dg self Vtx).1
        (SwitchArray.Redraw2D texw GetBeaconState dg self Vtx).2.1 ∧
      (∀ r : MouseResult (SwitchArray × List NTVERTEX),
        SwitchArray.ProcessMouse2D self Vtx event mx my = some r →
          SwitchArray.CacheInv texw r.state.1 r.state.2) ∧
      (∀ (i : Fin 8) (j : Nat), j < 4 →
        ((SwitchArray.Redraw2D texw GetBeaconState dg self Vtx).2.1[
            self.vtxofs + i.val * 4 + j]?).map NTVERTEX.tu =
          some ((SwitchArray.tx_x0 + ((((j % 2 : Nat) : Int) -
            SwitchArray.observed GetBeaconState dg i.val : Int) : ℚ) * SwitchArray.tx_dx)
              / texw))) := by
  refine ⟨SwitchArray.CacheInv_init texw texh self Vtx, ?_⟩
  intro hinv
  have hR := SwitchArray.CacheInv_Redraw2D texw GetBeaconState dg self Vtx hinv
  refine ⟨hR, ?_, ?_⟩
  · intro r hr
    rw [SwitchArray.ProcessMouse2D_state self Vtx event mx my r hr]
    exact hinv
  · intro i j hj
    have h := (hR i).2 j hj
    rw [SwitchArray.Redraw2D_cache texw GetBeaconState dg self Vtx i] at h
    exact h

/-- Witness of C19: a widget built by `AddMeshData2D` on an empty group and reset
(texture 2048 x 1024), then redrawn with the navigation light on: the invariant holds
after the redraw. -/
theorem SwitchArray_cache_invariant_witness :
    SwitchArray.CacheInv 2048
      (SwitchArray.Redraw2D 2048 navLightOn restVessel
        (SwitchArray.Reset2D (SwitchArray.AddMeshData2D 2048 1024 freshSwitchArray []).1)
        (SwitchArray.AddMeshData2D 2048 1024 freshSwitchArray []).2).1
      (SwitchArray.Redraw2D 2048 navLightOn restVessel
        (SwitchArray.Reset2D (SwitchArray.AddMeshData2D 2048 1024 freshSwitchArray []).1)
        (SwitchArray.AddMeshData2D 2048 1024 freshSwitchArray []).2).2.1 :=
  ((SwitchArray_cache_invariant 2048 1024 navLightOn restVessel
      (SwitchArray.Reset2D (SwitchArray.AddMeshData2D 2048 1024 freshSwitchArray []).1)
      (SwitchArray.AddMeshData2D 2048 1024 freshSwitchArray []).2 1 0 0).2
    (SwitchArray_cache_invariant 2048 1024 navLightOn restVessel freshSwitchArray [] 1 0 0).1).1

/-- C21: `GearLever::ProcessMouse2D` never assigns `gear_status` (the vessel is returned
as it was), makes at most one request and returns `false`: with status CLOSED or
CLOSING it requests `ActivateLandingGear (DOOR_OPENING)` exactly when `my < 151`, with
status OPEN or OPENING it requests `ActivateLandingGear (DOOR_CLOSING)` exactly when
`my > 46`, and makes no request otherwise. `NoseconeLever::ProcessMouse2D` does the
same on `nose_status` with `ActivateDockingPort` and the thresholds `my < 58` and
`my > 36`. -/
theorem lever_requests_opposite (dg : Scout) (event mx my : Int) :
    ((GearLever.ProcessMouse2D dg event mx my).state = dg ∧
     (GearLever.ProcessMouse2D dg event mx my).ret = false ∧
     (GearLever.ProcessMouse2D dg event mx my).effects.length ≤ 1 ∧
     (dg.gear_status = DoorStatus.DOOR_CLOSED ∨ dg.gear_status = DoorStatus.DOOR_CLOSING →
       (my < 151 → (GearLever.ProcessMouse2D dg event mx my).effects =
         [Effect.ActivateLandingGear DoorStatus.DOOR_OPENING]) ∧
       (¬ my < 151 → (GearLever.ProcessMouse2D dg event mx my).effects = [])) ∧
     (dg.gear_status = DoorStatus.DOOR_OPEN ∨ dg.gear_status = DoorStatus.DOOR_OPENING →
       (my > 46 → (GearLever.ProcessMouse2D dg event mx my).effects =
         [Effect.ActivateLandingGear DoorStatus.DOOR_CLOSING]) ∧
       (¬ my > 46 → (GearLever.ProcessMouse2D dg event mx my).effects = []))) ∧
    ((NoseconeLever.ProcessMouse2D dg event mx my).state = dg ∧
     (NoseconeLever.ProcessMouse2D dg event mx my).ret = false ∧
     (NoseconeLever.ProcessMouse2D dg event mx my).effects.length ≤ 1 ∧
     (dg.nose_status = DoorStatus.DOOR_CLOSED ∨ dg.nose_status = DoorStatus.DOOR_CLOSING →
       (my < 58 → (NoseconeLever.ProcessMouse2D dg event mx my).effects =
         [Effect.ActivateDockingPort DoorStatus.DOOR_OPENING]) ∧
       (¬ my < 58 → (NoseconeLever.ProcessMouse2D dg event mx my).effects = [])) ∧
     (dg.nose_status = DoorStatus.DOOR_OPEN ∨ dg.nose_status = DoorStatus.DOOR_OPENING →
       (my > 36 → (NoseconeLever.ProcessMouse2D dg event mx my).effects =
         [Effect.ActivateDockingPort DoorStatus.DOOR_CLOSING]) ∧
       (¬ my > 36 → (NoseconeLever.ProcessMouse2D dg event mx my).effects = []))) := by
  constructor
  · unfold GearLever.ProcessMouse2D
    by_cases h1 : my < 151 <;> by_cases h2 : my > 46 <;>
      cases hs : dg.gear_status <;> simp [h1, h2]
  · unfold NoseconeLever.ProcessMouse2D
    by_cases h1 : my < 58 <;> by_cases h2 : my > 36 <;>
      cases hs : dg.nose_status <;> simp [h1, h2]

/-- Witness of C21: gear closed, click at `my = 100`: one request, to open. -/
theorem lever_requests_opposite_witness :
    (GearLever.ProcessMouse2D restVessel 1 10 100).effects =
      [Effect.ActivateLandingGear DoorStatus.DOOR_OPENING] :=
  ((lever_requests_opposite restVessel 1 10 100).1.2.2.2.1 (Or.inl rfl)).1 (by decide)

/-- Vertex `n` after `UndockButton::Redraw2D`: vertices `vtxofs+2` and `vtxofs+3` get the
`y` and `tv` of the button position, everything else is as before. -/
theorem UndockButton.Redraw2D_vertex_undock (texh : ℚ) (self : UndockButton) (vtxofs : Nat)
    (Vtx : List NTVERTEX) (n : Nat) :
    (UndockButton.Redraw2D texh self vtxofs Vtx).1[n]? =
      if n = vtxofs + 2 ∨ n = vtxofs + 3 then
        (Vtx[n]?).map (fun p => { p with
          y := if self.btndown then UndockButton.bb_y0 + UndockButton.tx_dy
               else UndockButton.bb_y0
          tv := (if self.btndown then UndockButton.tx_y0 texh + UndockButton.tx_dy
                 else UndockButton.tx_y0 texh) / texh })
      else Vtx[n]? := by
  simp only [UndockButton.Redraw2D, setY, setTv]
  rw [List.getElem?_modify, List.getElem?_modify, List.getElem?_modify, List.getElem?_modify]
  by_cases h2 : vtxofs + 2 = n
  · have h3 : ¬ vtxofs + 3 = n := by omega
    have h4 : n = vtxofs + 2 ∨ n = vtxofs + 3 := by omega
    cases hv : Vtx[n]? <;> simp [h2, h3, h4, hv]
  · by_cases h3 : vtxofs + 3 = n
    · have h4 : n = vtxofs + 2 ∨ n = vtxofs + 3 := by omega
      cases hv : Vtx[n]? <;> simp [h2, h3, h4, hv]
    · have h4 : ¬ (n = vtxofs + 2 ∨ n = vtxofs + 3) := by omega
      cases hv : Vtx[n]? <;> simp [h2, h3, h4, hv]

/-- C23: for every event value `UndockButton::ProcessMouse2D` returns `true`; when the
event equals `PANEL_MOUSE_LBDOWN` it requests `Undock (0)` exactly once and sets
`btndown` to `true`; for every other event (a release included) it makes no request
and sets `btndown` to `false`. The following `Redraw2D` returns `false` and sets `y`
and `tv` of vertices 2 and 3 to `bb_y0 + tx_dy` and `(tx_y0 + tx_dy)/texh` when
`btndown`, and to `bb_y0` and `tx_y0/texh` otherwise, leaving everything else as it
was. -/
theorem undock_button_press (K : MouseMasks) (texh : ℚ) (self : UndockButton)
    (event mx my : Int) (vtxofs : Nat) (Vtx : List NTVERTEX) :
    (UndockButton.ProcessMouse2D K self event mx my).ret = true ∧
    (event = K.PANEL_MOUSE_LBDOWN →
      (UndockButton.ProcessMouse2D K self event mx my).effects = [Effect.Undock 0] ∧
      (UndockButton.ProcessMouse2D K self event mx my).state.btndown = true) ∧
    (event ≠ K.PANEL_MOUSE_LBDOWN →
      (UndockButton.ProcessMouse2D K self event mx my).effects = [] ∧
      (UndockButton.ProcessMouse2D K self event mx my).state.btndown = false) ∧
    (UndockButton.Redraw2D texh (UndockButton.ProcessMouse2D K self event mx my).state
      vtxofs Vtx).2 = false ∧
    (∀ k : Nat, k = 2 ∨ k = 3 →
      (UndockButton.Redraw2D texh (UndockButton.ProcessMouse2D K self event mx my).state
          vtxofs Vtx).1[vtxofs + k]? =
        (Vtx[vtxofs + k]?).map (fun p => { p with
          y := if event = K.PANEL_MOUSE_LBDOWN
               then UndockButton.bb_y0 + UndockButton.tx_dy else UndockButton.bb_y0
          tv := (if event = K.PANEL_MOUSE_LBDOWN
                 then UndockButton.tx_y0 texh + UndockButton.tx_dy
                 else UndockButton.tx_y0 texh) / texh })) ∧
    (∀ n : Nat, n ≠ vtxofs + 2 ∧ n ≠ vtxofs + 3 →
      (UndockButton.Redraw2D texh (UndockButton.ProcessMouse2D K self event mx my).state
          vtxofs Vtx).1[n]? = Vtx[n]?) := by
  refine ⟨rfl, ?_, ?_, rfl, ?_, ?_⟩
  · intro h
    simp [UndockButton.ProcessMouse2D, h]
  · intro h
    simp [UndockButton.ProcessMouse2D, h]
  · intro k hk
    have hin : vtxofs + k = vtxofs + 2 ∨ vtxofs + k = vtxofs + 3 := by omega
    rw [UndockButton.Redraw2D_vertex_undock, if_pos hin]
    simp [UndockButton.ProcessMouse2D]
  · intro n hn
    have hout : ¬ (n = vtxofs + 2 ∨ n = vtxofs + 3) := by omega
    rw [UndockButton.Redraw2D_vertex_undock, if_neg hout]

/-- Witness of C23: a release (mask 4) after a press: no request, `btndown` is false. -/
theorem undock_button_press_witness :
    (UndockButton.ProcessMouse2D sdkMasks ⟨true⟩ 4 3 3).effects = [] ∧
    (UndockButton.ProcessMouse2D sdkMasks ⟨true⟩ 4 3 3).state.btndown = false :=
  (undock_button_press sdkMasks 1024 ⟨true⟩ 4 3 3 0 []).2.2.1 (by decide)

/-- The lit and the unlit texture coordinate of the warning button differ when the
texture height is not zero. -/
theorem MWSButton.lit_ne_unlit (texh : ℚ) (htex : texh ≠ 0) :
    (MWSButton.tx_y0 texh + MWSButton.tx_dy) / texh ≠ MWSButton.tx_y0 texh / texh := by
  intro h
  have h2 := (div_left_inj' htex).mp h
  simp only [MWSButton.tx_dy] at h2
  linarith

/-- For a texture height that is not zero, the cache invariant of `MWSButton` says that
vertices 2 and 3 have the `tv` that belongs to `islit`. -/
theorem MWSButton.CacheInv_iff (texh : ℚ) (htex : texh ≠ 0) (self : MWSButton) (vtxofs : Nat)
    (Vtx : List NTVERTEX) :
    MWSButton.CacheInv texh self vtxofs Vtx ↔
      ∀ k : Nat, k = 2 ∨ k = 3 →
        (Vtx[vtxofs + k]?).map NTVERTEX.tv =
          some ((if self.islit then MWSButton.tx_y0 texh + MWSButton.tx_dy
                 else MWSButton.tx_y0 texh) / texh) := by
  unfold MWSButton.CacheInv
  cases hl : self.islit
  · constructor
    · intro h k hk
      simpa using h.2 rfl k hk
    · intro h
      refine ⟨⟨fun hc => Bool.noConfusion hc, ?_⟩, fun _ k hk => by simpa using h k hk⟩
      intro hL
      exfalso
      have h1 := hL 2 (Or.inl rfl)
      have h2 := h 2 (Or.inl rfl)
      rw [h1] at h2
      simp only [Bool.false_eq_true, if_false, Option.some.injEq] at h2
      exact MWSButton.lit_ne_unlit texh htex h2
  · constructor
    · intro h k hk
      simpa using h.1.mp rfl k hk
    · intro h
      exact ⟨⟨fun _ k hk => by simpa using h k hk, fun _ => rfl⟩, fun hc => Bool.noConfusion hc⟩

/-- The outcome of `MWSButton::Redraw2D` in terms of the light it computes: `islit`
becomes the light, and when the light differs from `islit` the `tv` of vertices 2 and 3
becomes the one of the light; nothing else changes. -/
theorem MWSButton.Redraw2D_outcome (texh : ℚ) (MWSActive : Bool) (simt : ℚ) (self : MWSButton)
    (vtxofs : Nat) (Vtx : List NTVERTEX) :
    ∃ light : Bool, light = (if MWSActive = true then decide (modf simt < 0.5) else false) ∧
      (MWSButton.Redraw2D texh MWSActive simt self vtxofs Vtx).1.islit = light ∧
      ∀ k : Nat, k = 2 ∨ k = 3 →
        (MWSButton.Redraw2D texh MWSActive simt self vtxofs Vtx).2.1[vtxofs + k]? =
          if light ≠ self.islit then
            (Vtx[vtxofs + k]?).map (fun p => { p with tv :=
              (if light then MWSButton.tx_y0 texh + MWSButton.tx_dy
               else MWSButton.tx_y0 texh) / texh })
          else Vtx[vtxofs + k]? := by
  refine ⟨_, rfl, ?_⟩
  unfold MWSButton.Redraw2D
  generalize (if MWSActive = true then decide (modf simt < 0.5) else false) = light
  dsimp only
  by_cases hl : light ≠ self.islit
  · rw [if_pos hl]
    refine ⟨rfl, ?_⟩
    intro k hk
    simp only [List.foldl_cons, List.foldl_nil, setTv]
    rw [List.getElem?_modify, List.getElem?_modify, if_pos hl]
    rcases hk with hk | hk
    · subst hk
      cases Vtx[vtxofs + 2]? <;> simp
    · subst hk
      cases Vtx[vtxofs + 3]? <;> simp
  · rw [if_neg hl]
    refine ⟨(not_not.mp hl).symm, ?_⟩
    intro k _
    rw [if_neg hl]

/-- The geometry emitted by `MWSButton::AddMeshData2D` has the unlit `tv` at vertices 2
and 3 of the widget. -/
theorem MWSButton.AddMeshData2D_unlit (texw texh : ℚ) (Vtx0 : List NTVERTEX) (k : Nat)
    (hk : k = 2 ∨ k = 3) :
    ((MWSButton.AddMeshData2D texw texh Vtx0).2[(MWSButton.AddMeshData2D texw texh Vtx0).1 + k]?).map
        NTVERTEX.tv = some (MWSButton.tx_y0 texh / texh) := by
  simp only [MWSButton.AddMeshData2D, AddGeometry]
  rw [List.getElem?_append_right (Nat.le_add_right _ _), Nat.add_sub_cancel_left]
  rcases hk with hk | hk <;> subst hk <;> rfl

/-- C24: `MWSButton` keeps its cache invariant (`islit` is true if and only if
vertices 2 and 3 have `tv = (tx_y0 + tx_dy)/texh`, and otherwise they have
`tv = tx_y0/texh`), for a texture height that is not zero: the invariant holds for the
geometry emitted by `AddMeshData2D` with the widget as the constructor or `Reset2D` leaves
it; `Redraw2D` preserves it for every simulation time `simt ≥ 0` and warning state; and
after `Redraw2D`, `islit` is true exactly when `MWSActive()` holds and the fractional part
of `simt` is below one half, so the button is not lit while the warning system is
inactive. -/
theorem MWSButton_cache_invariant (texw texh : ℚ) (htex : texh ≠ 0) (MWSActive : Bool)
    (simt : ℚ) (ht : 0 ≤ simt) (self : MWSButton) (vtxofs : Nat) (Vtx Vtx0 : List NTVERTEX) :
    MWSButton.CacheInv texh MWSButton.new (MWSButton.AddMeshData2D texw texh Vtx0).1
      (MWSButton.AddMeshData2D texw texh Vtx0).2 ∧
    MWSButton.CacheInv texh (MWSButton.Reset2D self) (MWSButton.AddMeshData2D texw texh Vtx0).1
      (MWSButton.AddMeshData2D texw texh Vtx0).2 ∧
    (MWSButton.CacheInv texh self vtxofs Vtx →
      MWSButton.CacheInv texh (MWSButton.Redraw2D texh MWSActive simt self vtxofs Vtx).1 vtxofs
        (MWSButton.Redraw2D texh MWSActive simt self vtxofs Vtx).2.1) ∧
    ((MWSButton.Redraw2D texh MWSActive simt self vtxofs Vtx).1.islit = true ↔
      (MWSActive = true ∧ Int.fract simt < 1 / 2)) ∧
    (MWSActive = false →
      (MWSButton.Redraw2D texh MWSActive simt self vtxofs Vtx).1.islit = false) := by
  obtain ⟨light, hlight, hislit, hvtx⟩ :=
    MWSButton.Redraw2D_outcome texh MWSActive simt self vtxofs Vtx
  rw [modf_of_nonneg simt ht, half_literal] at hlight
  refine ⟨?_, ?_, ?_, ?_, ?_⟩
  · rw [MWSButton.CacheInv_iff texh htex]
    intro k hk
    rw [MWSButton.AddMeshData2D_unlit texw texh Vtx0 k hk]
    rfl
  · rw [MWSButton.CacheInv_iff texh htex]
    intro k hk
    rw [MWSButton.AddMeshData2D_unlit texw texh Vtx0 k hk]
    rfl
  · intro hinv
    rw [MWSButton.CacheInv_iff texh htex] at hinv ⊢
    intro k hk
    rw [hislit, hvtx k hk]
    by_cases hl : light ≠ self.islit
    · rw [if_pos hl]
      have h := hinv k hk
      cases hv : Vtx[vtxofs + k]? with
      | none => rw [hv] at h; cases h
      | some p => rfl
    · rw [if_neg hl, not_not.mp hl]
      exact hinv k hk
  · rw [hislit, hlight]
    cases MWSActive <;> simp
  · intro hA
    rw [hislit, hlight, hA]
    rfl

/-- Witness of C24: texture height 1024, warning system active at `simt = 1/4`, the
widget as constructed on its own emitted geometry: the invariant holds before, so it
holds after the redraw (which lights the button). -/
theorem MWSButton_cache_invariant_witness :
    MWSButton.CacheInv 1024 (MWSButton.Redraw2D 1024 true (1 / 4) MWSButton.new 0
        (MWSButton.VTX 2048 1024)).1 0
      (MWSButton.Redraw2D 1024 true (1 / 4) MWSButton.new 0 (MWSButton.VTX 2048 1024)).2.1 ∧
    (MWSButton.Redraw2D 1024 true (1 / 4) MWSButton.new 0
        (MWSButton.VTX 2048 1024)).1.islit = true :=
  ⟨(MWSButton_cache_invariant 2048 1024 (by norm_num) true (1 / 4) (by norm_num) MWSButton.new 0
      (MWSButton.VTX 2048 1024) []).2.2.1
      ((MWSButton_cache_invariant 2048 1024 (by norm_num) true (1 / 4) (by norm_num)
        MWSButton.new 0 (MWSButton.VTX 2048 1024) []).1),
   (MWSButton_cache_invariant 2048 1024 (by norm_num) true (1 / 4) (by norm_num) MWSButton.new 0
      (MWSButton.VTX 2048 1024) []).2.2.2.1.mpr
      ⟨rfl, by
        rw [show Int.fract (1 / 4 : ℚ) = 1 / 4 from
          Int.fract_eq_iff.mpr ⟨by norm_num, by norm_num, ⟨0, by norm_num⟩⟩]
        norm_num⟩⟩

/-- C25 (divergence): With both yaw switches at rest, texture width 2048 and height
1024, `YMainGimbalCtrl::Redraw2D` completes on the geometry emitted by
`YMainGimbalCtrl::AddMeshData2D` and changes its `tu`: vertex 1 is emitted with
`tu = 1054/2048` and redrawn with `1068/2048`, vertex 2 is emitted with `1068/2048` and
redrawn with `1054/2048` (the emitted table varies `tu` with `j / 2`, the redraw writes it
by `j % 2`), so both differ from the emitted value; `PMainGimbalCtrl::Redraw2D` on the
geometry of `PMainGimbalCtrl::AddMeshData2D` changes nothing at rest. -/
theorem YMainGimbalCtrl_redraw_changes_emitted_tu :
    ∃ V : List NTVERTEX,
      YMainGimbalCtrl.Redraw2D 2048 restVessel 0 (YMainGimbalCtrl.VTX 2048 1024) = some (V, false) ∧
      ((YMainGimbalCtrl.VTX 2048 1024)[1]?).map NTVERTEX.tu = some (1054 / 2048) ∧
      (V[1]?).map NTVERTEX.tu = some (1068 / 2048) ∧
      ((YMainGimbalCtrl.VTX 2048 1024)[2]?).map NTVERTEX.tu = some (1068 / 2048) ∧
      (V[2]?).map NTVERTEX.tu = some (1054 / 2048) ∧
      (V[1]?).map NTVERTEX.tu ≠ ((YMainGimbalCtrl.VTX 2048 1024)[1]?).map NTVERTEX.tu ∧
      (V[2]?).map NTVERTEX.tu ≠ ((YMainGimbalCtrl.VTX 2048 1024)[2]?).map NTVERTEX.tu ∧
      (PMainGimbalCtrl.Redraw2D 2048 restVessel 0 (PMainGimbalCtrl.VTX 2048 1024)).1 =
        PMainGimbalCtrl.VTX 2048 1024 := by
  obtain ⟨V, hV, hn⟩ := YMainGimbalCtrl.Redraw2D_vertex_sw 2048 restVessel 0
    (YMainGimbalCtrl.VTX 2048 1024) 0 0 rfl rfl
  have e1 : ((YMainGimbalCtrl.VTX 2048 1024)[1]?).map NTVERTEX.tu = some (1054 / 2048) := rfl
  have e2 : ((YMainGimbalCtrl.VTX 2048 1024)[2]?).map NTVERTEX.tu = some (1068 / 2048) := rfl
  have r1 : (V[1]?).map NTVERTEX.tu = some (1068 / 2048) := by
    rw [hn 1]
    simp [YMainGimbalCtrl.VTX]
  have r2 : (V[2]?).map NTVERTEX.tu = some (1054 / 2048) := by
    rw [hn 2]
    simp [YMainGimbalCtrl.VTX]
  refine ⟨V, hV, e1, r1, e2, r2, ?_, ?_, ?_⟩
  · rw [r1, e1]
    norm_num
  · rw [r2, e2]
    norm_num
  · simp [PMainGimbalCtrl.Redraw2D, PMainGimbalCtrl.VTX, restVessel, List.finRange, setTu,
      List.range, List.range.loop]
    norm_num

/-- The operations of the `float` expression of the trim bars on the constants are
exact: its value is `pm_y0 - bb_dy + (j/2)*(2*bb_dy)`, plus the level converted to
`float`, rounded to `float`. -/
theorem PMainGimbalDisp.barY_eq (j : Nat) (lvl : Int) (hj : j < 4) :
    PMainGimbalDisp.barY j lvl =
      f32 (GimbalCtrl.pm_y0 - GimbalCtrl.bb_dy + ((j / 2 : Nat) : ℚ) * (2 * GimbalCtrl.bb_dy) +
        f32 (lvl : ℚ)) := by
  unfold PMainGimbalDisp.barY
  simp only [GimbalCtrl.pm_y0, GimbalCtrl.bb_dy]
  rw [f32_of_half 2 4 (by norm_num) (by norm_num)]
  rw [f32_of_half (2 * 3) 12 (by norm_num) (by norm_num)]
  rw [f32_of_half (103.5 - 3) 201 (by norm_num) (by norm_num)]
  rcases (by omega : j / 2 = 0 ∨ j / 2 = 1) with h0 | h0
  · rw [h0]
    rw [f32_of_half ((0 : Nat) : ℚ) 0 (by norm_num) (by norm_num)]
    rw [f32_of_half (((0 : Nat) : ℚ) * (2 * 3)) 0 (by norm_num) (by norm_num)]
    rw [f32_of_half (103.5 - 3 + ((0 : Nat) : ℚ) * (2 * 3)) 201 (by norm_num) (by norm_num)]
  · rw [h0]
    rw [f32_of_half ((1 : Nat) : ℚ) 2 (by norm_num) (by norm_num)]
    rw [f32_of_half (((1 : Nat) : ℚ) * (2 * 3)) 12 (by norm_num) (by norm_num)]
    rw [f32_of_half (103.5 - 3 + ((1 : Nat) : ℚ) * (2 * 3)) 213 (by norm_num) (by norm_num)]

/-- For a level `lvl` between -8388708 and 8388501 every operation of the `float`
expression of the trim bars is exact: its value is
`pm_y0 - bb_dy + (j/2)*(2*bb_dy) + lvl`. -/
theorem PMainGimbalDisp.barY_exact (j : Nat) (lvl : Int) (hj : j < 4)
    (h : -8388708 ≤ lvl ∧ lvl ≤ 8388501) :
    PMainGimbalDisp.barY j lvl =
      GimbalCtrl.pm_y0 - GimbalCtrl.bb_dy + ((j / 2 : Nat) : ℚ) * (2 * GimbalCtrl.bb_dy) +
        (lvl : ℚ) := by
  rw [PMainGimbalDisp.barY_eq j lvl hj]
  simp only [GimbalCtrl.pm_y0, GimbalCtrl.bb_dy]
  rw [f32_of_int (lvl : ℚ) lvl rfl (by rw [abs_lt]; omega)]
  rcases (by omega : j / 2 = 0 ∨ j / 2 = 1) with h0 | h0
  · rw [h0]
    rw [f32_of_half (103.5 - 3 + ((0 : Nat) : ℚ) * (2 * 3) + (lvl : ℚ)) (201 + 2 * lvl)
      (by push_cast; ring_nf) (by rw [abs_lt]; omega)]
  · rw [h0]
    rw [f32_of_half (103.5 - 3 + ((1 : Nat) : ℚ) * (2 * 3) + (lvl : ℚ)) (213 + 2 * lvl)
      (by push_cast; ring_nf) (by rw [abs_lt]; omega)]

/-- Vertex `j` of bar `i` after `PMainGimbalDisp::Redraw2D`. -/
theorem PMainGimbalDisp.Redraw2D_at (dg : Scout) (vtxofs : Nat) (Vtx : List NTVERTEX)
    (i : Fin 2) (j : Nat) (hj : j < 4) :
    (PMainGimbalDisp.Redraw2D dg vtxofs Vtx).1[vtxofs + i.val * 4 + j]? =
      (Vtx[vtxofs + i.val * 4 + j]?).map (fun p => { p with y :=
        (PMainGimbalDisp.barY j (wrap32 (dg.mpgimbalidx i - 35))) }) := by
  have hi : i = 0 ∨ i = 1 := by
    rcases i with ⟨v, hv⟩
    have : v = 0 ∨ v = 1 := by omega
    rcases this with h | h
    · left; exact Fin.ext h
    · right; exact Fin.ext h
  rw [PMainGimbalDisp.Redraw2D_vertex_disp]
  rcases hi with hi | hi
  · subst hi
    have e0 : (0 : Fin 2).val = 0 := rfl
    have c0 : vtxofs ≤ vtxofs + (0 : Fin 2).val * 4 + j ∧
        vtxofs + (0 : Fin 2).val * 4 + j < vtxofs + 4 := by
      rw [e0]; omega
    have hm : vtxofs + (0 : Fin 2).val * 4 + j - vtxofs = j := by
      rw [e0]; omega
    rw [if_pos c0, hm]
  · subst hi
    have e1 : (1 : Fin 2).val = 1 := rfl
    have c0 : ¬ (vtxofs ≤ vtxofs + (1 : Fin 2).val * 4 + j ∧
        vtxofs + (1 : Fin 2).val * 4 + j < vtxofs + 4) := by
      rw [e1]; omega
    have c1 : vtxofs + 4 ≤ vtxofs + (1 : Fin 2).val * 4 + j ∧
        vtxofs + (1 : Fin 2).val * 4 + j < vtxofs + 8 := by
      rw [e1]; omega
    have hm : vtxofs + (1 : Fin 2).val * 4 + j - (vtxofs + 4) = j := by
      rw [e1]; omega
    rw [if_neg c0, if_pos c1, hm]

/-- For a trim index between -8388673 and 8388536 the level `mpgimbalidx[i] - 35` is
computed without wrap-around and the `y` written for corner `j` is exactly
`pm_y0 - bb_dy + (j/2)*(2*bb_dy) + (mpgimbalidx[i] - 35)`. -/
theorem PMainGimbalDisp.barY_index (idx : Int) (j : Nat) (hj : j < 4)
    (h : -8388673 ≤ idx ∧ idx ≤ 8388536) :
    PMainGimbalDisp.barY j (wrap32 (idx - 35)) =
      GimbalCtrl.pm_y0 - GimbalCtrl.bb_dy + ((j / 2 : Nat) : ℚ) * (2 * GimbalCtrl.bb_dy) +
        ((idx - 35 : Int) : ℚ) := by
  rw [wrap32_of_range (idx - 35) (by omega)]
  exact PMainGimbalDisp.barY_exact j (idx - 35) hj (by omega)

/-- With both trim indices at 35, `PMainGimbalDisp::Redraw2D` leaves the vertices emitted
by `AddMeshData2D` as they are. -/
theorem PMainGimbalDisp.Redraw2D_centre (texw texh : ℚ) (dg : Scout) (Vtx0 : List NTVERTEX)
    (h35 : ∀ i : Fin 2, dg.mpgimbalidx i = 35) :
    (PMainGimbalDisp.Redraw2D dg (AddGeometry Vtx0 (PMainGimbalDisp.VTX texw texh)).1
      (AddGeometry Vtx0 (PMainGimbalDisp.VTX texw texh)).2).1 =
    (AddGeometry Vtx0 (PMainGimbalDisp.VTX texw texh)).2 := by
  apply List.ext_getElem?
  intro n
  show (PMainGimbalDisp.Redraw2D dg Vtx0.length (Vtx0 ++ PMainGimbalDisp.VTX texw texh)).1[n]? =
    (Vtx0 ++ PMainGimbalDisp.VTX texw texh)[n]?
  rw [PMainGimbalDisp.Redraw2D_vertex_disp, h35 0, h35 1]
  by_cases c0 : Vtx0.length ≤ n ∧ n < Vtx0.length + 4
  · rw [if_pos c0]
    obtain ⟨k, hk⟩ : ∃ k, n = Vtx0.length + k := ⟨n - Vtx0.length, by omega⟩
    subst hk
    have hk4 : k < 4 := by omega
    rw [List.getElem?_append_right (by omega), Nat.add_sub_cancel_left,
      PMainGimbalDisp.barY_index 35 k hk4 (by norm_num)]
    interval_cases k <;>
      simp [PMainGimbalDisp.VTX, GimbalCtrl.pm_y0, GimbalCtrl.bb_dy] <;> norm_num
  · rw [if_neg c0]
    by_cases c1 : Vtx0.length + 4 ≤ n ∧ n < Vtx0.length + 8
    · rw [if_pos c1]
      obtain ⟨k, hk⟩ : ∃ k, n = Vtx0.length + 4 + k := ⟨n - (Vtx0.length + 4), by omega⟩
      subst hk
      have hk4 : k < 4 := by omega
      have hs : Vtx0.length + 4 + k - Vtx0.length = 4 + k := by omega
      have hs2 : Vtx0.length + 4 + k - (Vtx0.length + 4) = k := by omega
      rw [List.getElem?_append_right (by omega), hs, hs2,
        PMainGimbalDisp.barY_index 35 k hk4 (by norm_num)]
      interval_cases k <;>
        simp [PMainGimbalDisp.VTX, GimbalCtrl.pm_y0, GimbalCtrl.bb_dy] <;> norm_num
    · rw [if_neg c1]

/-- For a vertex buffer that holds the widget's 8 vertices, the `y` of vertex `j` of
bar `i` after `PMainGimbalDisp::Redraw2D`. -/
theorem PMainGimbalDisp.Redraw2D_y (dg : Scout) (vtxofs : Nat) (Vtx : List NTVERTEX)
    (hlen : vtxofs + 8 ≤ Vtx.length) (i : Fin 2) (j : Nat) (hj : j < 4) :
    ((PMainGimbalDisp.Redraw2D dg vtxofs Vtx).1[vtxofs + i.val * 4 + j]?).map NTVERTEX.y =
      some (PMainGimbalDisp.barY j (wrap32 (dg.mpgimbalidx i - 35))) := by
  have hi := i.isLt
  have hlt : vtxofs + i.val * 4 + j < Vtx.length := by omega
  rw [PMainGimbalDisp.Redraw2D_at dg vtxofs Vtx i j hj, List.getElem?_eq_getElem hlt]
  rfl

/-- The `float` nearest to 8388708.5 is 8388708 (a tie, resolved to the even
significand). -/
theorem f32_8388708_5 : f32 (16777417 / 2) = 8388708 := by
  unfold f32
  rw [roundBinary_of_log_pos 24 (-126) _ 23 (by norm_num) (by norm_num)]
  rw [roundHalfEven_of_floor _ 8388708 (by norm_num) (by norm_num)]
  norm_num

/-- The `float` nearest to `2^25 + 1` is `2^25`. -/
theorem f32_33554433 : f32 33554433 = 33554432 := by
  unfold f32
  rw [roundBinary_of_log_pos 24 (-126) _ 25 (by norm_num) (by norm_num)]
  rw [roundHalfEven_of_floor _ 8388608 (by norm_num) (by norm_num)]
  norm_num

/-- The value `2^25` is a `float`. -/
theorem f32_33554432 : f32 33554432 = 33554432 := by
  unfold f32
  rw [roundBinary_of_log_pos 24 (-126) _ 25 (by norm_num) (by norm_num)]
  rw [roundHalfEven_of_floor _ 8388608 (by norm_num) (by norm_num)]
  norm_num

/-- The `float` nearest to `2^25 + 100.5` is `2^25 + 100`. -/
theorem f32_33554532_5 : f32 (67109065 / 2) = 33554532 := by
  unfold f32
  rw [roundBinary_of_log_pos 24 (-126) _ 25 (by norm_num) (by norm_num)]
  rw [roundHalfEven_of_floor _ 8388633 (by norm_num) (by norm_num)]
  norm_num

/-- The `float` nearest to `2^25 + 106.5` is `2^25 + 108`. -/
theorem f32_33554538_5 : f32 (67109077 / 2) = 33554540 := by
  unfold f32
  rw [roundBinary_of_log_pos 24 (-126) _ 25 (by norm_num) (by norm_num)]
  rw [roundHalfEven_of_floor _ 8388634 (by norm_num) (by norm_num)]
  norm_num

/-- The values of the `float` expression of the trim bars at the levels `2^23`,
`2^25` and `2^25 + 1`. -/
theorem PMainGimbalDisp.barY_large :
    PMainGimbalDisp.barY 0 8388608 = 8388708 ∧
    PMainGimbalDisp.barY 0 33554433 = 33554532 ∧
    PMainGimbalDisp.barY 2 33554433 = 33554540 ∧
    PMainGimbalDisp.barY 0 33554432 = 33554532 := by
  refine ⟨?_, ?_, ?_, ?_⟩
  · rw [PMainGimbalDisp.barY_eq 0 8388608 (by norm_num)]
    have e : f32 ((8388608 : Int) : ℚ) = 8388608 := by
      rw [f32_of_int _ 8388608 rfl (by norm_num)]
      norm_num
    rw [e]
    have e2 : GimbalCtrl.pm_y0 - GimbalCtrl.bb_dy +
        ((0 / 2 : Nat) : ℚ) * (2 * GimbalCtrl.bb_dy) + 8388608 = 16777417 / 2 := by
      simp only [GimbalCtrl.pm_y0, GimbalCtrl.bb_dy]
      norm_num
    rw [e2, f32_8388708_5]
  · rw [PMainGimbalDisp.barY_eq 0 33554433 (by norm_num)]
    have e : f32 ((33554433 : Int) : ℚ) = 33554432 := by
      have : ((33554433 : Int) : ℚ) = 33554433 := by norm_num
      rw [this, f32_33554433]
    rw [e]
    have e2 : GimbalCtrl.pm_y0 - GimbalCtrl.bb_dy +
        ((0 / 2 : Nat) : ℚ) * (2 * GimbalCtrl.bb_dy) + 33554432 = 67109065 / 2 := by
      simp only [GimbalCtrl.pm_y0, GimbalCtrl.bb_dy]
      norm_num
    rw [e2, f32_33554532_5]
  · rw [PMainGimbalDisp.barY_eq 2 33554433 (by norm_num)]
    have e : f32 ((33554433 : Int) : ℚ) = 33554432 := by
      have : ((33554433 : Int) : ℚ) = 33554433 := by norm_num
      rw [this, f32_33554433]
    rw [e]
    have e2 : GimbalCtrl.pm_y0 - GimbalCtrl.bb_dy +
        ((2 / 2 : Nat) : ℚ) * (2 * GimbalCtrl.bb_dy) + 33554432 = 67109077 / 2 := by
      simp only [GimbalCtrl.pm_y0, GimbalCtrl.bb_dy]
      norm_num
    rw [e2, f32_33554538_5]
  · rw [PMainGimbalDisp.barY_eq 0 33554432 (by norm_num)]
    have e : f32 ((33554432 : Int) : ℚ) = 33554432 := by
      have : ((33554432 : Int) : ℚ) = 33554432 := by norm_num
      rw [this, f32_33554432]
    rw [e]
    have e2 : GimbalCtrl.pm_y0 - GimbalCtrl.bb_dy +
        ((0 / 2 : Nat) : ℚ) * (2 * GimbalCtrl.bb_dy) + 33554432 = 67109065 / 2 := by
      simp only [GimbalCtrl.pm_y0, GimbalCtrl.bb_dy]
      norm_num
    rw [e2, f32_33554532_5]

/-- C22 fails on the code for large trim indices, on the vertices emitted by
`AddMeshData2D` (texture 2048 by 1024, offset 0). With both indices `2^23 + 35`
`PMainGimbalDisp::Redraw2D` writes `y = 8388708` to vertex 0, not
`pm_y0 - bb_dy + (2^23 + 35 - 35) = 8388708.5`. With both indices `2^25 + 36` it writes
33554532 to vertex 0 and 33554540 to vertex 2, so the bar is 8 high, not 6. With both
indices `2^25 + 35` it writes 33554532 to vertex 0 as well, so raising the index by 1
does not move the bar. -/
theorem PMainGimbalDisp_bar_position_counterexample :
    ((PMainGimbalDisp.Redraw2D { restVessel with mpgimbalidx := fun _ => 8388643 } 0
        (PMainGimbalDisp.VTX 2048 1024)).1[0]?).map NTVERTEX.y = some 8388708 ∧
    GimbalCtrl.pm_y0 - GimbalCtrl.bb_dy + ((0 / 2 : Nat) : ℚ) * (2 * GimbalCtrl.bb_dy) +
        ((8388643 - 35 : Int) : ℚ) = 8388708.5 ∧
    ((PMainGimbalDisp.Redraw2D { restVessel with mpgimbalidx := fun _ => 33554468 } 0
        (PMainGimbalDisp.VTX 2048 1024)).1[0]?).map NTVERTEX.y = some 33554532 ∧
    ((PMainGimbalDisp.Redraw2D { restVessel with mpgimbalidx := fun _ => 33554468 } 0
        (PMainGimbalDisp.VTX 2048 1024)).1[2]?).map NTVERTEX.y = some 33554540 ∧
    (33554540 : ℚ) - 33554532 ≠ 6 ∧
    ((PMainGimbalDisp.Redraw2D { restVessel with mpgimbalidx := fun _ => 33554467 } 0
        (PMainGimbalDisp.VTX 2048 1024)).1[0]?).map NTVERTEX.y = some 33554532 := by
  have hlen : 0 + 8 ≤ (PMainGimbalDisp.VTX 2048 1024).length := by
    simp [PMainGimbalDisp.VTX]
  have hY := fun (dg : Scout) (j : Nat) (hj : j < 4) =>
    PMainGimbalDisp.Redraw2D_y dg 0 (PMainGimbalDisp.VTX 2048 1024) hlen 0 j hj
  have w1 : wrap32 (8388643 - 35) = 8388608 := by decide
  have w2 : wrap32 (33554468 - 35) = 33554433 := by decide
  have w3 : wrap32 (33554467 - 35) = 33554432 := by decide
  obtain ⟨b1, b2, b3, b4⟩ := PMainGimbalDisp.barY_large
  refine ⟨?_, ?_, ?_, ?_, by norm_num, ?_⟩
  · have h := hY { restVessel with mpgimbalidx := fun _ => 8388643 } 0 (by norm_num)
    simp only [Fin.val_zero, zero_mul, add_zero] at h
    rw [h]
    show some (PMainGimbalDisp.barY 0 (wrap32 (8388643 - 35))) = some 8388708
    rw [w1, b1]
  · simp only [GimbalCtrl.pm_y0, GimbalCtrl.bb_dy]
    norm_num
  · have h := hY { restVessel with mpgimbalidx := fun _ => 33554468 } 0 (by norm_num)
    simp only [Fin.val_zero, zero_mul, add_zero] at h
    rw [h]
    show some (PMainGimbalDisp.barY 0 (wrap32 (33554468 - 35))) = some 33554532
    rw [w2, b2]
  · have h := hY { restVessel with mpgimbalidx := fun _ => 33554468 } 2 (by norm_num)
    simp only [Fin.val_zero, zero_mul, add_zero, zero_add] at h
    rw [h]
    show some (PMainGimbalDisp.barY 2 (wrap32 (33554468 - 35))) = some 33554540
    rw [w2, b3]
  · have h := hY { restVessel with mpgimbalidx := fun _ => 33554467 } 0 (by norm_num)
    simp only [Fin.val_zero, zero_mul, add_zero] at h
    rw [h]
    show some (PMainGimbalDisp.barY 0 (wrap32 (33554467 - 35))) = some 33554532
    rw [w3, b4]

/-- C22 amended: for every pair of trim indices between -8388673 and 8388536 (the
indices for which the `float` arithmetic of the expression is exact),
`PMainGimbalDisp::Redraw2D` replaces the `y` of vertex `j` of bar `i` by
`pm_y0 - bb_dy + (j div 2)*(2*bb_dy) + (mpgimbalidx[i] - 35)` and changes no other field
and no other vertex. Hence each bar has height `2*bb_dy = 6` for every such index; with
both indices at 35 the redraw leaves the vertices emitted by `AddMeshData2D` as they
are; and a vessel whose index `i` is larger by `d`, inside the same range, has every
vertex of bar `i` drawn exactly `d` further. -/
theorem PMainGimbalDisp_bar_position (texw texh : ℚ) (dg : Scout) (vtxofs : Nat)
    (Vtx Vtx0 : List NTVERTEX) (hlen : vtxofs + 8 ≤ Vtx.length)
    (hidx : ∀ i : Fin 2, -8388673 ≤ dg.mpgimbalidx i ∧ dg.mpgimbalidx i ≤ 8388536) :
    (∀ (i : Fin 2) (j : Nat), j < 4 →
      (PMainGimbalDisp.Redraw2D dg vtxofs Vtx).1[vtxofs + i.val * 4 + j]? =
        (Vtx[vtxofs + i.val * 4 + j]?).map (fun p => { p with y :=
          GimbalCtrl.pm_y0 - GimbalCtrl.bb_dy +
            ((j / 2 : Nat) : ℚ) * (2 * GimbalCtrl.bb_dy) +
            ((dg.mpgimbalidx i - 35 : Int) : ℚ) })) ∧
    (∀ n : Nat, n < vtxofs ∨ vtxofs + 8 ≤ n →
      (PMainGimbalDisp.Redraw2D dg vtxofs Vtx).1[n]? = Vtx[n]?) ∧
    (∀ (i : Fin 2) (j : Nat), j < 2 → ∃ top bot : ℚ,
      ((PMainGimbalDisp.Redraw2D dg vtxofs Vtx).1[vtxofs + i.val * 4 + j]?).map NTVERTEX.y =
        some top ∧
      ((PMainGimbalDisp.Redraw2D dg vtxofs Vtx).1[vtxofs + i.val * 4 + (j + 2)]?).map
        NTVERTEX.y = some bot ∧
      bot - top = 2 * GimbalCtrl.bb_dy ∧ bot - top = 6) ∧
    ((∀ i : Fin 2, dg.mpgimbalidx i = 35) →
      (PMainGimbalDisp.Redraw2D dg (AddGeometry Vtx0 (PMainGimbalDisp.VTX texw texh)).1
        (AddGeometry Vtx0 (PMainGimbalDisp.VTX texw texh)).2).1 =
      (AddGeometry Vtx0 (PMainGimbalDisp.VTX texw texh)).2) ∧
    (∀ (dg2 : Scout) (d : Int) (i : Fin 2),
      (-8388673 ≤ dg2.mpgimbalidx i ∧ dg2.mpgimbalidx i ≤ 8388536) →
      dg2.mpgimbalidx i = dg.mpgimbalidx i + d →
      ∀ j : Nat, j < 4 →
        ((PMainGimbalDisp.Redraw2D dg2 vtxofs Vtx).1[vtxofs + i.val * 4 + j]?).map NTVERTEX.y =
          (((PMainGimbalDisp.Redraw2D dg vtxofs Vtx).1[vtxofs + i.val * 4 + j]?).map
            NTVERTEX.y).map (fun y => y + (d : ℚ))) := by
  refine ⟨?_, ?_, ?_, fun h35 => PMainGimbalDisp.Redraw2D_centre texw texh dg Vtx0 h35, ?_⟩
  · intro i j hj
    rw [PMainGimbalDisp.Redraw2D_at dg vtxofs Vtx i j hj,
      PMainGimbalDisp.barY_index (dg.mpgimbalidx i) j hj (hidx i)]
  · intro n hn
    have h0 : ¬ (vtxofs ≤ n ∧ n < vtxofs + 4) := by omega
    have h1 : ¬ (vtxofs + 4 ≤ n ∧ n < vtxofs + 8) := by omega
    rw [PMainGimbalDisp.Redraw2D_vertex_disp, if_neg h0, if_neg h1]
  · intro i j hj
    have hd1 : j / 2 = 0 := by omega
    have hd2 : (j + 2) / 2 = 1 := by omega
    refine ⟨GimbalCtrl.pm_y0 - GimbalCtrl.bb_dy + ((j / 2 : Nat) : ℚ) * (2 * GimbalCtrl.bb_dy) +
        ((dg.mpgimbalidx i - 35 : Int) : ℚ),
      GimbalCtrl.pm_y0 - GimbalCtrl.bb_dy + (((j + 2) / 2 : Nat) : ℚ) * (2 * GimbalCtrl.bb_dy) +
        ((dg.mpgimbalidx i - 35 : Int) : ℚ), ?_, ?_, ?_, ?_⟩
    · rw [PMainGimbalDisp.Redraw2D_y dg vtxofs Vtx hlen i j (by omega),
        PMainGimbalDisp.barY_index (dg.mpgimbalidx i) j (by omega) (hidx i)]
    · rw [PMainGimbalDisp.Redraw2D_y dg vtxofs Vtx hlen i (j + 2) (by omega),
        PMainGimbalDisp.barY_index (dg.mpgimbalidx i) (j + 2) (by omega) (hidx i)]
    · simp only [hd1, hd2]
      push_cast
      ring
    · simp only [hd1, hd2, GimbalCtrl.bb_dy]
      push_cast
      ring
  · intro dg2 d i hidx2 hd j hj
    rw [PMainGimbalDisp.Redraw2D_y dg2 vtxofs Vtx hlen i j hj,
      PMainGimbalDisp.Redraw2D_y dg vtxofs Vtx hlen i j hj,
      PMainGimbalDisp.barY_index (dg2.mpgimbalidx i) j hj hidx2,
      PMainGimbalDisp.barY_index (dg.mpgimbalidx i) j hj (hidx i), hd]
    simp only [Option.map_some']
    congr 1
    push_cast
    ring

/-- Witness of C22 amended: eight blank vertices at offset 0, both indices 0: vertex 0
is drawn at `y = 103.5 - 3 + (0 - 35)`. -/
theorem PMainGimbalDisp_bar_position_witness :
    (PMainGimbalDisp.Redraw2D restVessel 0 (List.replicate 8 zeroVertex)).1[0 + (0 : Fin 2).val * 4 + 0]? =
      ((List.replicate 8 zeroVertex)[0 + (0 : Fin 2).val * 4 + 0]?).map (fun p => { p with y :=
        GimbalCtrl.pm_y0 - GimbalCtrl.bb_dy + ((0 / 2 : Nat) : ℚ) * (2 * GimbalCtrl.bb_dy) +
          ((restVessel.mpgimbalidx 0 - 35 : Int) : ℚ) }) :=
  (PMainGimbalDisp_bar_position 2048 1024 restVessel 0 (List.replicate 8 zeroVertex) []
    (by decide) (fun _ => (by decide : (-8388673 : Int) ≤ 0 ∧ (0 : Int) ≤ 8388536))).1 0 0
    (by decide)

/-- The `double` nearest to `3/2 - 2^-54` is `3/2`. -/
theorem f64_three_halves_minus : f64 (1 + (1 / 2 - 1 / 2 ^ 54)) = 3 / 2 := by
  unfold f64
  rw [roundBinary_of_log_pos 53 (-1022) _ 0 (by norm_num) (by norm_num)]
  rw [roundHalfEven_of_floor _ 6755399441055743 (by norm_num) (by norm_num)]
  norm_num

/-- The value `1/2 - 2^-54` is a `double`. -/
theorem f64_half_minus : f64 (0 + (1 / 2 - 1 / 2 ^ 54)) = 1 / 2 - 1 / 2 ^ 54 := by
  rw [f64_of_dyadic (0 + (1 / 2 - 1 / 2 ^ 54)) 9007199254740991 (-54) (by norm_num)
    (by norm_num) (by norm_num)]
  norm_num

/-- C8 fails on the code for the phase offset `tofs = 1/2 - 2^-54` (a `double` in
`[0,1]`) and a door that is OPENING. At `t = 1` the fractional part of `t + tofs` is
below 1/2, but the `double` sum is `3/2`, so `GearIndicator::Redraw2D` selects 1020
(`NoseconeIndicator`: 1014) and writes `tu = 1020/2048` to vertex 0 of the emitted
geometry. At `t = 0` the sum is exact and the selection is 1042 (1040), so the
selection at `t + 1` differs from the one at `t`. -/
theorem indicator_blink_square_wave_counterexample :
    ((0 : ℚ) ≤ 1 / 2 - 1 / 2 ^ 54 ∧ (1 / 2 - 1 / 2 ^ 54 : ℚ) ≤ 1) ∧
    Int.fract ((1 : ℚ) + (1 / 2 - 1 / 2 ^ 54)) < 1 / 2 ∧
    GearIndicator.xofs 1 (1 / 2 - 1 / 2 ^ 54) DoorStatus.DOOR_OPENING = 1020 ∧
    GearIndicator.xofs 0 (1 / 2 - 1 / 2 ^ 54) DoorStatus.DOOR_OPENING = 1042 ∧
    NoseconeIndicator.xofs 1 (1 / 2 - 1 / 2 ^ 54) DoorStatus.DOOR_OPENING = 1014 ∧
    NoseconeIndicator.xofs 0 (1 / 2 - 1 / 2 ^ 54) DoorStatus.DOOR_OPENING = 1040 ∧
    ((GearIndicator.Redraw2D 2048 1 (1 / 2 - 1 / 2 ^ 54)
        { restVessel with gear_status := DoorStatus.DOOR_OPENING } 0
        (GearIndicator.VTX 2048 1024)).1[0]?).map NTVERTEX.tu = some (1020 / 2048) ∧
    ((GearIndicator.Redraw2D 2048 0 (1 / 2 - 1 / 2 ^ 54)
        { restVessel with gear_status := DoorStatus.DOOR_OPENING } 0
        (GearIndicator.VTX 2048 1024)).1[0]?).map NTVERTEX.tu = some (1042 / 2048) := by
  have hf1 : Int.fract ((3 : ℚ) / 2) = 1 / 2 :=
    Int.fract_eq_iff.mpr ⟨by norm_num, by norm_num, ⟨1, by norm_num⟩⟩
  have hf0 : Int.fract ((1 : ℚ) / 2 - 1 / 2 ^ 54) = 1 / 2 - 1 / 2 ^ 54 :=
    Int.fract_eq_iff.mpr ⟨by norm_num, by norm_num, ⟨0, by norm_num⟩⟩
  have hfe : Int.fract ((1 : ℚ) + (1 / 2 - 1 / 2 ^ 54)) = 1 / 2 - 1 / 2 ^ 54 :=
    Int.fract_eq_iff.mpr ⟨by norm_num, by norm_num, ⟨1, by norm_num⟩⟩
  have g1 : GearIndicator.xofs 1 (1 / 2 - 1 / 2 ^ 54) DoorStatus.DOOR_OPENING = 1020 := by
    rw [GearIndicator.xofs_transitional 1 _ (by norm_num) _ (Or.inl rfl),
      f64_three_halves_minus, hf1]
    norm_num
  have g0 : GearIndicator.xofs 0 (1 / 2 - 1 / 2 ^ 54) DoorStatus.DOOR_OPENING = 1042 := by
    rw [GearIndicator.xofs_transitional 0 _ (by norm_num) _ (Or.inl rfl),
      f64_half_minus, hf0]
    norm_num
  have n1 : NoseconeIndicator.xofs 1 (1 / 2 - 1 / 2 ^ 54) DoorStatus.DOOR_OPENING = 1014 := by
    rw [NoseconeIndicator.xofs_transitional_nose 1 _ (by norm_num) _ (Or.inl rfl),
      f64_three_halves_minus, hf1]
    norm_num
  have n0 : NoseconeIndicator.xofs 0 (1 / 2 - 1 / 2 ^ 54) DoorStatus.DOOR_OPENING = 1040 := by
    rw [NoseconeIndicator.xofs_transitional_nose 0 _ (by norm_num) _ (Or.inl rfl),
      f64_half_minus, hf0]
    norm_num
  refine ⟨⟨by norm_num, by norm_num⟩, ?_, g1, g0, n1, n0, ?_, ?_⟩
  · rw [hfe]
    norm_num
  · rw [GearIndicator.Redraw2D_vertex]
    show ((if 0 ≤ 0 ∧ 0 < 0 + 12 then _ else _ : Option NTVERTEX)).map NTVERTEX.tu = _
    rw [if_pos (by norm_num)]
    show (((GearIndicator.VTX 2048 1024)[0]?).map _).map NTVERTEX.tu = _
    simp only [GearIndicator.VTX, List.getElem?_cons_zero, Option.map_some']
    show some ((((GearIndicator.xofs 1 (1 / 2 - 1 / 2 ^ 54) DoorStatus.DOOR_OPENING +
      (((0 - 0) % 4 % 2 : Nat) : Int) * 10 : Int) : ℚ)) / 2048) = _
    rw [g1]
    norm_num
  · rw [GearIndicator.Redraw2D_vertex]
    show ((if 0 ≤ 0 ∧ 0 < 0 + 12 then _ else _ : Option NTVERTEX)).map NTVERTEX.tu = _
    rw [if_pos (by norm_num)]
    show (((GearIndicator.VTX 2048 1024)[0]?).map _).map NTVERTEX.tu = _
    simp only [GearIndicator.VTX, List.getElem?_cons_zero, Option.map_some']
    show some ((((GearIndicator.xofs 0 (1 / 2 - 1 / 2 ^ 54) DoorStatus.DOOR_OPENING +
      (((0 - 0) % 4 % 2 : Nat) : Int) * 10 : Int) : ℚ)) / 2048) = _
    rw [g0]
    norm_num
/-- C8 amended: for every time `t ≥ 0` and phase offset `tofs ∈ [0,1]`, with the gear
and the nosecone in a transitional state (OPENING or CLOSING),
`GearIndicator::Redraw2D` writes to every one of its vertices the `tu` of the offset
that is 1042 exactly when the fractional part of the `double` sum `s` of `t` and
`tofs` is below 1/2 and 1020 otherwise (`NoseconeIndicator`: 1040 and 1014). When the
addition is exact (`s = t + tofs`) this is the fractional part of `t + tofs`, so that
on each unit interval `[n, n+1)` of `t + tofs` the lit offset is selected exactly on
the first half; and when the addition at `t + 1` is exact as well, the redraw at
`t + 1` equals the redraw at `t`. -/
theorem indicator_blink_square_wave (texw t tofs : ℚ) (dg : Scout) (vtxofs : Nat)
    (Vtx : List NTVERTEX) (ht : 0 ≤ t) (h0 : 0 ≤ tofs) (_h1 : tofs ≤ 1)
    (hg : dg.gear_status = DoorStatus.DOOR_OPENING ∨ dg.gear_status = DoorStatus.DOOR_CLOSING)
    (hn : dg.nose_status = DoorStatus.DOOR_OPENING ∨ dg.nose_status = DoorStatus.DOOR_CLOSING) :
    (∀ i j : Nat, i < 3 → j < 4 →
      (GearIndicator.Redraw2D texw t tofs dg vtxofs Vtx).1[vtxofs + i * 4 + j]? =
        (Vtx[vtxofs + i * 4 + j]?).map (fun p => { p with tu :=
          (((if Int.fract (f64 (t + tofs)) < 1 / 2 then 1042 else 1020) +
            ((j % 2 : Nat) : Int) * 10 : Int) : ℚ) / texw })) ∧
    (∀ i j : Nat, i < 4 → j < 3 →
      (NoseconeIndicator.Redraw2D texw t tofs dg vtxofs Vtx).1[vtxofs + i * 3 + j]? =
        (Vtx[vtxofs + i * 3 + j]?).map (fun p => { p with tu :=
          (((if Int.fract (f64 (t + tofs)) < 1 / 2 then 1040 else 1014) +
            ((j % 2 : Nat) : Int) * 12 : Int) : ℚ) / texw })) ∧
    (f64 (t + tofs) = t + tofs →
      (GearIndicator.xofs t tofs dg.gear_status =
        if Int.fract (t + tofs) < 1 / 2 then 1042 else 1020) ∧
      (NoseconeIndicator.xofs t tofs dg.nose_status =
        if Int.fract (t + tofs) < 1 / 2 then 1040 else 1014) ∧
      (f64 (t + 1 + tofs) = t + 1 + tofs →
        GearIndicator.Redraw2D texw (t + 1) tofs dg vtxofs Vtx =
          GearIndicator.Redraw2D texw t tofs dg vtxofs Vtx ∧
        NoseconeIndicator.Redraw2D texw (t + 1) tofs dg vtxofs Vtx =
          NoseconeIndicator.Redraw2D texw t tofs dg vtxofs Vtx) ∧
      (∀ (n : ℤ) (u : ℚ), 0 ≤ u → u < 1 → t + tofs = n + u →
        (GearIndicator.xofs t tofs dg.gear_status = 1042 ↔ u < 1 / 2) ∧
        (GearIndicator.xofs t tofs dg.gear_status = 1020 ↔ 1 / 2 ≤ u) ∧
        (NoseconeIndicator.xofs t tofs dg.nose_status = 1040 ↔ u < 1 / 2) ∧
        (NoseconeIndicator.xofs t tofs dg.nose_status = 1014 ↔ 1 / 2 ≤ u))) := by
  have hx : 0 ≤ t + tofs := add_nonneg ht h0
  have hx1 : 0 ≤ t + 1 + tofs := by linarith
  have hG := GearIndicator.xofs_transitional t tofs hx dg.gear_status hg
  have hN := NoseconeIndicator.xofs_transitional_nose t tofs hx dg.nose_status hn
  have hG1 := GearIndicator.xofs_transitional (t + 1) tofs hx1 dg.gear_status hg
  have hN1 := NoseconeIndicator.xofs_transitional_nose (t + 1) tofs hx1 dg.nose_status hn
  refine ⟨?_, ?_, ?_⟩
  · intro i j hi hj
    have hin : vtxofs ≤ vtxofs + i * 4 + j ∧ vtxofs + i * 4 + j < vtxofs + 12 := by omega
    have hj2 : (vtxofs + i * 4 + j - vtxofs) % 4 % 2 = j % 2 := by omega
    rw [GearIndicator.Redraw2D_vertex, if_pos hin, hj2, hG]
  · intro i j hi hj
    have hin : vtxofs ≤ vtxofs + i * 3 + j ∧ vtxofs + i * 3 + j < vtxofs + 4 * 3 := by omega
    have hj2 : (vtxofs + i * 3 + j - vtxofs) % 3 % 2 = j % 2 := by omega
    rw [NoseconeIndicator.Redraw2D_vertex_ncone, if_pos hin, hj2, hN]
  · intro hex
    rw [hex] at hG hN
    refine ⟨hG, hN, ?_, ?_⟩
    · intro hex1
      have e : Int.fract (t + 1 + tofs) = Int.fract (t + tofs) := by
        rw [show t + 1 + tofs = t + tofs + 1 by ring, Int.fract_add_one]
      rw [hex1, e] at hG1 hN1
      constructor
      · unfold GearIndicator.Redraw2D
        rw [hG1, hG]
      · unfold NoseconeIndicator.Redraw2D
        rw [hN1, hN]
    · intro n u hu0 hu1 hsum
      have hf : Int.fract (t + tofs) = u := by
        rw [hsum, add_comm, Int.fract_add_int]
        exact Int.fract_eq_iff.mpr ⟨hu0, hu1, 0, by simp⟩
      rw [hG, hN, hf]
      by_cases hlt : u < 1 / 2
      · have hle : ¬ (1 / 2 ≤ u) := not_le.mpr hlt
        simp [hlt, hle]
      · have hle : 1 / 2 ≤ u := not_lt.mp hlt
        simp [hlt, hle]

/-- Witness of C8 amended: at `t = 5/4`, `tofs = 1/2` (both sums are exact), gear
OPENING and nosecone CLOSING, the gear indicator is redrawn the same one time unit
later. -/
theorem indicator_blink_square_wave_witness :
    GearIndicator.Redraw2D 2048 (5 / 4 + 1) (1 / 2)
        { restVessel with gear_status := DoorStatus.DOOR_OPENING
                          nose_status := DoorStatus.DOOR_CLOSING } 0
        (GearIndicator.VTX 2048 1024) =
      GearIndicator.Redraw2D 2048 (5 / 4) (1 / 2)
        { restVessel with gear_status := DoorStatus.DOOR_OPENING
                          nose_status := DoorStatus.DOOR_CLOSING } 0
        (GearIndicator.VTX 2048 1024) :=
  (((indicator_blink_square_wave 2048 (5 / 4) (1 / 2)
      { restVessel with gear_status := DoorStatus.DOOR_OPENING
                        nose_status := DoorStatus.DOOR_CLOSING } 0
      (GearIndicator.VTX 2048 1024) (by norm_num) (by norm_num) (by norm_num)
      (Or.inl rfl) (Or.inr rfl)).2.2
      (f64_of_dyadic _ 7 (-2) (by norm_num) (by norm_num) (by norm_num))).2.2.1
      (f64_of_dyadic _ 11 (-2) (by norm_num) (by norm_num) (by norm_num))).1

end OrbiterScout
